import Mathlib

/-!
# mortred_model_server: promptable segmentation (SAM) pipeline and model serving

A shallow embedding of the segment-anything pipeline of the model server and of
the enhancement model and server that reuse its worker-pool contract:

* `SamTrtDecoder` (sam_trt_decoder.cpp), the compiled-GPU mask decoder;
* `SamSegmentor` (sam_segmentor.cpp), the graph-runtime encoder + decoder;
* `EnlightenGan` (enlightengan.inl), the enhancement model;
* `EnlightenGanServer` (enlighten_gan_server.cpp), the server that builds the
  worker queue.

Conventions of the embedding.

* `float` values are modelled in exact arithmetic as rationals (`Val`); a
  `static_cast<int>` of a float is truncation toward zero. The rounding of
  binary32 is `float32`, and the three geometry functions whose results depend
  on it (`pad_geometry`, `crop_geometry`, `transform_bboxes`) have a twin that
  rounds every float operation (`pad_geometry_f32`, `crop_geometry_f32`,
  `transform_bboxes_f32`): the twin is what the code computes, the exact
  function is the arithmetic in which the spec states its geometry.
* `int` values are modelled as `Int`; the image extents that occur stay far away
  from the 32-bit range. A 64-bit integer read from the configuration and cast
  to `int` goes through `static_cast_int`, and so does the index into the
  low-resolution masks, which grows with the number of candidates.
* A `cv::Mat` is its extent together with a total pixel function.
* Member functions take the object state as an explicit argument and return a
  `Call`: how the call completed, the state it leaves, and its out-parameter.
* The execution backends (CUDA/TensorRT device, onnxruntime sessions, MNN, the
  resampling kernels of OpenCV), the file system and the parsed configuration
  are parameters of the model: each is a deterministic function of what it is
  handed.
-/

namespace jinq

set_option autoImplicit false

/-! ## Common types -/

/-- Exact-arithmetic stand-in for `float`: the finite values, ordered and
computed with as the rationals they denote (no rounding, no NaN, no infinity). -/
abbrev Val := ℚ

/-- The enumerators of `jinq::common::StatusCode` that the sources use. -/
inductive StatusCode where
  | OK
  | MODEL_INIT_FAILED
  | MODEL_EMPTY_INPUT_IMAGE
  | MODEL_RUN_SESSION_FAILED
  | SERVER_INIT_FAILED
  deriving DecidableEq, Repr

/-- Modelled from the spec: common/status_code.h is not among the sources.
The spec has one success code (0), and the sources use `OJBK` and `OK`
interchangeably for it (`get_mask` returns `OJBK`, its caller `decode` tests the
result against `OK`), so `OJBK` is the same enumerator value as `OK`. -/
abbrev StatusCode.OJBK : StatusCode := StatusCode.OK

/-- How a C++ call ends: it returns a value, or an exception leaves it. -/
inductive Outcome (α : Type) where
  | returned (value : α)
  | thrown
  deriving DecidableEq, Repr

/-- The result of a member-function call in state-passing style. -/
structure Call (σ α : Type) where
  /-- the returned status, or `thrown` -/
  completion : Outcome StatusCode
  /-- the object state after the call -/
  state : σ
  /-- the final value of the out-parameter -/
  out : α

/-- A `static_cast<int>` of a float: truncation toward zero. -/
def trunc (q : Val) : Int := if 0 ≤ q then ⌊q⌋ else ⌈q⌉

/-- A `static_cast<int>` of a 64-bit integer: the value modulo 2^32 in the range
of `int`. -/
def static_cast_int (v : Int) : Int := (v + 2 ^ 31) % 2 ^ 32 - 2 ^ 31

/-- The integer nearest to `q`, the even one of the two when `q` lies half way. -/
def round_half_even (q : Val) : Int :=
  if q - ⌊q⌋ < 1 / 2 then ⌊q⌋
  else if 1 / 2 < q - ⌊q⌋ then ⌊q⌋ + 1
  else if ⌊q⌋ % 2 = 0 then ⌊q⌋ else ⌊q⌋ + 1

/-- The value of type `float` (IEEE 754 binary32) that a float operation with
the exact result `x` yields: the nearest multiple of the spacing 2^(e - 23)
of the floats around `x`, e = floor(log2 |x|) and at least -126, ties to the
even multiple. Every result that arises from operands converted from machine
integers is below 2^128 in magnitude, where binary32 has no overflow. -/
def float32 (x : Val) : Val :=
  if x = 0 then 0
  else
    let exponent : Int := max (Int.log 2 |x|) (-126)
    let quantum : Val := 2 ^ (exponent - 23)
    (round_half_even (x / quantum) : Val) * quantum

/-- The type `cv::Size`. -/
structure Size where
  width : Int
  height : Int
  deriving DecidableEq, Repr

/-- The type `cv::Point2f`. -/
structure Point2f where
  x : Val
  y : Val
  deriving DecidableEq

/-- The type `cv::Rect2f`. -/
structure Rect2f where
  x : Val
  y : Val
  width : Val
  height : Val
  deriving DecidableEq

/-- Top-left corner, `cv::Rect_::tl`. -/
def Rect2f.tl (r : Rect2f) : Point2f := ⟨r.x, r.y⟩

/-- Bottom-right corner, `cv::Rect_::br`. -/
def Rect2f.br (r : Rect2f) : Point2f := ⟨r.x + r.width, r.y + r.height⟩

/-- The type `cv::Rect` (integer rectangle). -/
structure Rect where
  x : Int
  y : Int
  width : Int
  height : Int
  deriving DecidableEq, Repr

/-- A `cv::Mat`: extent, channel count and the pixel at (row, col, channel). -/
structure Mat where
  rows : Int
  cols : Int
  channels : Int
  px : Int → Int → Int → Val

/-- A default-constructed `cv::Mat`. -/
def Mat.empty_mat : Mat := ⟨0, 0, 1, fun _ _ _ => 0⟩

/-- Extent of a matrix, `cv::Mat::size`. -/
def Mat.size (m : Mat) : Size := ⟨m.cols, m.rows⟩

/-- Emptiness test, `cv::Mat::empty`. -/
def Mat.empty (m : Mat) : Bool := decide (m.rows ≤ 0) || decide (m.cols ≤ 0)

/-- The resampling kernels of OpenCV: the value of the destination pixel
(row, col, channel) when `src` is resized to `dsize`. -/
structure CvOps where
  /-- `cv::INTER_LINEAR`, the default of `cv::resize` -/
  inter_linear : Mat → Size → Int → Int → Int → Val
  /-- `cv::INTER_NEAREST` -/
  inter_nearest : Mat → Size → Int → Int → Int → Val
  /-- `CvUtils::convert_to_chw_vec` (common/cv_utils.h, not among the sources) -/
  convert_to_chw_vec : Mat → List Val

/-- The call `cv::resize(src, dst, dsize)`: the destination has extent `dsize`;
an empty source or an empty `dsize` raises `cv::Exception` (`none`). -/
def cv_resize (kernel : Mat → Size → Int → Int → Int → Val) (src : Mat) (dsize : Size) :
    Option Mat :=
  if src.empty || decide (dsize.width ≤ 0) || decide (dsize.height ≤ 0) then none
  else some ⟨dsize.height, dsize.width, src.channels, kernel src dsize⟩

/-- The defining property of nearest-neighbour resampling (`cv::INTER_NEAREST`):
every destination pixel is a copy of one source pixel, and which one is settled
by the two extents and the destination position alone. -/
def nearest_neighbour (kernel : Mat → Size → Int → Int → Int → Val) : Prop :=
  ∃ sel : Int → Int → Size → Int → Int → Int × Int,
    ∀ (src : Mat) (dsize : Size) (row col ch : Int),
      kernel src dsize row col ch =
        src.px (sel src.rows src.cols dsize row col).1 (sel src.rows src.cols dsize row col).2 ch

/-- The call `mat(roi)`: the sub-matrix header; a rectangle that does not lie
inside the matrix raises `cv::Exception` (`none`). -/
def Mat.roi (m : Mat) (r : Rect) : Option Mat :=
  if 0 ≤ r.x ∧ 0 ≤ r.width ∧ r.x + r.width ≤ m.cols ∧
      0 ≤ r.y ∧ 0 ≤ r.height ∧ r.y + r.height ≤ m.rows then
    some ⟨r.height, r.width, m.channels, fun row col ch => m.px (r.y + row) (r.x + col) ch⟩
  else none

/-- The call `std::max_element` from a running best: `best` is the index of the
current largest value `bestv`, `i` the index of the head of the remaining range;
the result moves only when `*result < *first`. -/
def max_element_from : Nat → Val → Nat → List Val → Nat
  | best, _, _, [] => best
  | best, bestv, i, x :: xs =>
    if bestv < x then max_element_from i x (i + 1) xs
    else max_element_from best bestv (i + 1) xs

/-- The expression `std::distance(v.begin(), std::max_element(v.begin(), v.end()))`;
on an empty range `max_element` returns `end`, at distance 0. -/
def max_element (v : List Val) : Nat :=
  match v with
  | [] => 0
  | x :: xs => max_element_from 0 x 1 xs

/-- The wording of the spec, "the candidate of maximum confidence, ties broken by
first occurrence": `i` indexes the confidences, no confidence is larger than the
one at `i`, and no smaller index has that property. -/
def first_index_of_maximum (conf : List Val) (i : Nat) : Prop :=
  i < conf.length ∧ (∀ j, j < conf.length → conf.getD j 0 ≤ conf.getD i 0) ∧
    ∀ i', i' < i → ¬ ∀ j, j < conf.length → conf.getD j 0 ≤ conf.getD i' 0

/-- The host vector `mask_tensor_values` of both `get_mask` functions: the zeroed
low-resolution mask prior, `std::vector<float>(1 * 1 * 256 * 256, 0.0)`. -/
def mask_tensor_values : List Val := List.replicate (1 * 1 * 256 * 256) 0

/-- The host vector `has_mask_tensor_values` of both `get_mask` functions: the
cleared has-prior-mask flag, `std::vector<float>(1, 0.0)`. -/
def has_mask_tensor_values : List Val := List.replicate 1 0

/-! ## SamTrtDecoder (sam_trt_decoder.cpp) -/

/-- The named engine slots bound at init. -/
inductive Slot where
  | image_embeddings
  | point_coords
  | point_labels
  | mask_input
  | has_mask_input
  | low_res_masks
  | iou_predictions
  deriving DecidableEq, Repr

/-- The input side of `_m_device_memory`: the contents of the device buffers. -/
structure DeviceMemory where
  image_embeddings : List Val
  point_coords : List Val
  point_labels : List Val
  mask_input : List Val
  has_mask_input : List Val

/-- The device buffer of an input slot is overwritten; the output slots are
written by the engine only. -/
def DeviceMemory.write (m : DeviceMemory) : Slot → List Val → DeviceMemory
  | .image_embeddings, data => { m with image_embeddings := data }
  | .point_coords, data => { m with point_coords := data }
  | .point_labels, data => { m with point_labels := data }
  | .mask_input, data => { m with mask_input := data }
  | .has_mask_input, data => { m with has_mask_input := data }
  | .low_res_masks, _ => m
  | .iou_predictions, _ => m

/-- What the engine reads when `enqueueV3` runs: the device buffers and the
input shapes last set on the execution context. -/
structure EngineInputs where
  memory : DeviceMemory
  point_coords_shape : List Int
  point_labels_shape : List Int

/-- What the engine writes: the two output buffers. -/
structure EngineOutputs where
  low_res_masks : List Val
  iou_predictions : List Val

/-- The CUDA / TensorRT calls the decoder issues, in the order of issue. -/
inductive DeviceOp where
  | setInputShape (slot : Slot) (dims : List Int)
  | memcpyH2D (slot : Slot) (data : List Val)
  | setTensorAddress (slot : Slot)
  | enqueueV3 (inputs : EngineInputs)
  | memcpyD2H (slot : Slot)
  | streamSynchronize

/-- The device behind the decoder. -/
structure TrtBackend where
  /-- whether `cudaMemcpyAsync(..., cudaMemcpyHostToDevice, ...)` returns `cudaSuccess` -/
  memcpyH2D_ok : Slot → List Val → Bool
  /-- the call `enqueueV3`: `none` when it returns false -/
  enqueueV3 : EngineInputs → Option EngineOutputs
  /-- whether `cudaMemcpyAsync(..., cudaMemcpyDeviceToHost, ...)` returns `cudaSuccess` -/
  memcpyD2H_ok : Slot → Bool

/-- The members of `SamTrtDecoder::Impl` that the decode path reads or writes;
`device_log` records the device calls issued so far. -/
structure SamTrtDecoder where
  _m_device_memory : DeviceMemory
  _m_point_coords_binding_dims : List Int
  _m_point_labels_binding_dims : List Int
  context_point_coords_shape : List Int
  context_point_labels_shape : List Int
  _m_max_decoder_point_counts : Int := 128
  _m_ori_image_size : Size
  _m_encoder_input_size : Size := ⟨1024, 1024⟩
  _m_successfully_initialized : Bool := false
  device_log : List DeviceOp

namespace SamTrtDecoder

/-- Record a device call. -/
def issue (st : SamTrtDecoder) (op : DeviceOp) : SamTrtDecoder :=
  { st with device_log := st.device_log ++ [op] }

/-- The setter `set_ori_image_size`. -/
def set_ori_image_size (st : SamTrtDecoder) (ori_image_size : Size) : SamTrtDecoder :=
  { st with _m_ori_image_size := ori_image_size }

/-- The setter `set_encoder_input_size`. -/
def set_encoder_input_size (st : SamTrtDecoder) (input_node_size : Size) : SamTrtDecoder :=
  { st with _m_encoder_input_size := input_node_size }

/-- The part of the decoder state that `get_mask` reads: the uploaded embedding
and the two image extents. -/
def view (st : SamTrtDecoder) : List Val × Size × Size :=
  (st._m_device_memory.image_embeddings, st._m_ori_image_size, st._m_encoder_input_size)

/-- The "crop out padded part" block of `decode_output_mask`: scale, resized
target extent, padding and crop rectangle. -/
structure CropGeometry where
  scale : Val
  target_size : Size
  pad_h : Int
  pad_w : Int
  cropped_roi : Rect

/-- Lines 663-671 of `decode_output_mask`, evaluated in exact arithmetic; the
evaluation in binary32 is `crop_geometry_f32`. For a longer side of 0, where
the code divides by zero, the quotient is taken as 0. -/
def crop_geometry (st : SamTrtDecoder) : CropGeometry :=
  let ori_img_width : Val := st._m_ori_image_size.width
  let ori_img_height : Val := st._m_ori_image_size.height
  let long_side := max st._m_ori_image_size.height st._m_ori_image_size.width
  let scale : Val := (st._m_encoder_input_size.height : Val) / (long_side : Val)
  let target_size : Size := ⟨trunc (scale * ori_img_width), trunc (scale * ori_img_height)⟩
  let pad_h := st._m_encoder_input_size.height - target_size.height
  let pad_w := st._m_encoder_input_size.width - target_size.width
  let cropped_roi : Rect :=
    ⟨0, 0, st._m_encoder_input_size.width - pad_w, st._m_encoder_input_size.height - pad_h⟩
  ⟨scale, target_size, pad_h, pad_w, cropped_roi⟩

/-- Lines 663-671 of `decode_output_mask` with every `float` operation rounded
to binary32, as the code computes them: the conversions of the extents, the
quotient `scale` and the two products. `none` when the longer side is 0: the
quotient is then not a finite value and its conversion to `int` is undefined. -/
def crop_geometry_f32 (st : SamTrtDecoder) : Option CropGeometry :=
  let ori_img_width : Val := float32 st._m_ori_image_size.width
  let ori_img_height : Val := float32 st._m_ori_image_size.height
  let long_side := max st._m_ori_image_size.height st._m_ori_image_size.width
  if long_side = 0 then none
  else
    let scale : Val := float32 (float32 st._m_encoder_input_size.height / float32 long_side)
    let target_size : Size :=
      ⟨trunc (float32 (scale * ori_img_width)), trunc (float32 (scale * ori_img_height))⟩
    let pad_h := st._m_encoder_input_size.height - target_size.height
    let pad_w := st._m_encoder_input_size.width - target_size.width
    let cropped_roi : Rect :=
      ⟨0, 0, st._m_encoder_input_size.width - pad_w, st._m_encoder_input_size.height - pad_h⟩
    some ⟨scale, target_size, pad_h, pad_w, cropped_roi⟩

/-- The index `mask_idx * 256 * 256 + row * 256 + col` read from the
low-resolution data. The three operands are `int`, so the expression is
evaluated in 32-bit arithmetic: the value is the mathematical one reduced to
the range of `int` (reducing every intermediate result gives the same value). -/
def low_res_index (mask_idx row col : Int) : Int :=
  static_cast_int (mask_idx * 256 * 256 + row * 256 + col)

/-- The function `SamTrtDecoder::Impl::decode_output_mask`; `none` when one of
the OpenCV calls raises. -/
def decode_output_mask (cv : CvOps) (st : SamTrtDecoder) (low_res_mask_value : List Val)
    (mask_idx : Int) : Option Mat :=
  -- select best low res mask
  let mask : Mat := ⟨256, 256, 1, fun row col _ =>
    low_res_mask_value.getD (low_res_index mask_idx row col).toNat 0⟩
  -- resize low res mask into large res
  match cv_resize cv.inter_linear mask st._m_encoder_input_size with
  | none => none
  | some mask =>
    -- crop out padded part
    match mask.roi (crop_geometry st).cropped_roi with
    | none => none
    | some mask =>
      -- resize mask into ori image size
      match cv_resize cv.inter_linear mask st._m_ori_image_size with
      | none => none
      | some mask =>
        -- fill in mask value
        some ⟨st._m_ori_image_size.height, st._m_ori_image_size.width, 1,
          fun row col _ => if mask.px row col 0 > 0 then 255 else 0⟩

/-- The host vector `total_points` of `get_mask`: x, y of every point, then 0, 0. -/
def total_points (point_coords : List Point2f) : List Val :=
  point_coords.foldr (fun pt acc => pt.x :: pt.y :: acc) [] ++ [0, 0]

/-- The host vector `total_labels` of `get_mask`: the labels, then -1. -/
def total_labels (point_labels : List Val) : List Val := point_labels ++ [-1]

/-- A successful host-to-device copy: the device buffer of the slot holds the data. -/
def store (st : SamTrtDecoder) (slot : Slot) (data : List Val) : SamTrtDecoder :=
  { st with _m_device_memory := st._m_device_memory.write slot data }

/-- Lines 534-539 of `get_mask`: the dims of the two point bindings and the input
shapes of the execution context are set to the shapes of this call. -/
def set_point_shapes (st : SamTrtDecoder) (points_shape labels_shape : List Int) :
    SamTrtDecoder :=
  let st := { st with _m_point_coords_binding_dims := points_shape,
                      _m_point_labels_binding_dims := labels_shape }
  let st := { st.issue (.setInputShape .point_coords points_shape) with
              context_point_coords_shape := points_shape }
  { st.issue (.setInputShape .point_labels labels_shape) with
    context_point_labels_shape := labels_shape }

/-- Lines 584-597 of `get_mask`: the seven tensor addresses are set. -/
def set_tensor_addresses (st : SamTrtDecoder) : SamTrtDecoder :=
  let st := st.issue (.setTensorAddress .image_embeddings)
  let st := st.issue (.setTensorAddress .point_coords)
  let st := st.issue (.setTensorAddress .point_labels)
  let st := st.issue (.setTensorAddress .mask_input)
  let st := st.issue (.setTensorAddress .has_mask_input)
  let st := st.issue (.setTensorAddress .low_res_masks)
  st.issue (.setTensorAddress .iou_predictions)

/-- What the engine reads in the current state. -/
def engine_inputs (st : SamTrtDecoder) : EngineInputs :=
  ⟨st._m_device_memory, st.context_point_coords_shape, st.context_point_labels_shape⟩

/-- Lines 630-639 of `get_mask` ("parse output mask"). -/
def parse_output_mask (cv : CvOps) (st : SamTrtDecoder) (low_res_mask_data : List Val)
    (iou_preds_data : List Val) (out_mask : Mat) : Call SamTrtDecoder Mat :=
  let best_mask_idx : Int := (max_element iou_preds_data : Nat)
  match decode_output_mask cv st low_res_mask_data best_mask_idx with
  | none => ⟨.thrown, st, out_mask⟩
  | some o_mask => ⟨.returned .OJBK, st, o_mask⟩

/-- Lines 582-639 of `get_mask` ("do inference" and "parse output mask"). -/
def do_inference (dev : TrtBackend) (cv : CvOps) (st : SamTrtDecoder) (out_mask : Mat) :
    Call SamTrtDecoder Mat :=
  let st := set_tensor_addresses st
  let inputs := engine_inputs st
  let st := st.issue (.enqueueV3 inputs)
  match dev.enqueueV3 inputs with
  | none => ⟨.returned .MODEL_RUN_SESSION_FAILED, st, out_mask⟩
  | some outputs =>
    let st := st.issue (.memcpyD2H .low_res_masks)
    if !dev.memcpyD2H_ok .low_res_masks then
      ⟨.returned .MODEL_RUN_SESSION_FAILED, st, out_mask⟩
    else
      let st := st.issue (.memcpyD2H .iou_predictions)
      if !dev.memcpyD2H_ok .iou_predictions then
        ⟨.returned .MODEL_RUN_SESSION_FAILED, st, out_mask⟩
      else
        let st := st.issue .streamSynchronize
        parse_output_mask cv st outputs.low_res_masks outputs.iou_predictions out_mask

/-- Lines 557-577 of `get_mask`: the zeroed mask prior and the cleared
has-mask flag are copied to the device, then inference runs. -/
def copy_mask_inputs (dev : TrtBackend) (cv : CvOps) (st : SamTrtDecoder) (out_mask : Mat) :
    Call SamTrtDecoder Mat :=
  -- init masks cuda memo
  let st := st.issue (.memcpyH2D .mask_input mask_tensor_values)
  if !dev.memcpyH2D_ok .mask_input mask_tensor_values then
    ⟨.returned .MODEL_RUN_SESSION_FAILED, st, out_mask⟩
  else
    let st := st.store .mask_input mask_tensor_values
    -- init has mask input tensor
    let st := st.issue (.memcpyH2D .has_mask_input has_mask_tensor_values)
    if !dev.memcpyH2D_ok .has_mask_input has_mask_tensor_values then
      ⟨.returned .MODEL_RUN_SESSION_FAILED, st, out_mask⟩
    else
      do_inference dev cv (st.store .has_mask_input has_mask_tensor_values) out_mask

/-- The function `SamTrtDecoder::Impl::get_mask`. -/
def get_mask (dev : TrtBackend) (cv : CvOps) (st : SamTrtDecoder)
    (point_coords : List Point2f) (point_labels : List Val) (out_mask : Mat) :
    Call SamTrtDecoder Mat :=
  -- init point coords and point labels cuda memo
  let total_points := total_points point_coords
  let total_labels := total_labels point_labels
  let points_shape : List Int := [1, ((total_points.length / 2 : Nat) : Int), 2]
  let labels_shape : List Int := [1, (total_labels.length : Int)]
  let st := set_point_shapes st points_shape labels_shape
  let st := st.issue (.memcpyH2D .point_coords total_points)
  if !dev.memcpyH2D_ok .point_coords total_points then
    ⟨.returned .MODEL_RUN_SESSION_FAILED, st, out_mask⟩
  else
    let st := st.store .point_coords total_points
    let st := st.issue (.memcpyH2D .point_labels total_labels)
    if !dev.memcpyH2D_ok .point_labels total_labels then
      ⟨.returned .MODEL_RUN_SESSION_FAILED, st, out_mask⟩
    else
      copy_mask_inputs dev cv (st.store .point_labels total_labels) out_mask

/-- What `get_mask` has put in front of the engine when it calls `enqueueV3`
(lines 525-577): the embedding uploaded by `decode`, the two point vectors, the
zeroed prior and flag, and the two shapes of this call. -/
def prompt_inputs (image_embeddings : List Val) (point_coords : List Point2f)
    (point_labels : List Val) : EngineInputs :=
  ⟨⟨image_embeddings, total_points point_coords, total_labels point_labels, mask_tensor_values,
      has_mask_tensor_values⟩,
    [1, (((total_points point_coords).length / 2 : Nat) : Int), 2],
    [1, ((total_labels point_labels).length : Int)]⟩

/-- The engine runs recorded in a device log, oldest first, each with what the
engine was handed. -/
def engine_calls : List DeviceOp → List EngineInputs
  | [] => []
  | .enqueueV3 inputs :: rest => inputs :: engine_calls rest
  | .setInputShape _ _ :: rest => engine_calls rest
  | .memcpyH2D _ _ :: rest => engine_calls rest
  | .setTensorAddress _ :: rest => engine_calls rest
  | .memcpyD2H _ :: rest => engine_calls rest
  | .streamSynchronize :: rest => engine_calls rest

/-- The shapes the decoder holds for the two dynamic point slots: the dims of the
two bindings and the input shapes of the execution context. -/
def point_shapes (st : SamTrtDecoder) : List Int × List Int × List Int × List Int :=
  (st._m_point_coords_binding_dims, st._m_point_labels_binding_dims,
    st.context_point_coords_shape, st.context_point_labels_shape)

/-- The shapes set on a slot with `setInputShape` in a device log, oldest first. -/
def shapes_set (slot : Slot) : List DeviceOp → List (List Int)
  | [] => []
  | .setInputShape s dims :: rest =>
    if s = slot then dims :: shapes_set slot rest else shapes_set slot rest
  | .memcpyH2D _ _ :: rest => shapes_set slot rest
  | .setTensorAddress _ :: rest => shapes_set slot rest
  | .enqueueV3 _ :: rest => shapes_set slot rest
  | .memcpyD2H _ :: rest => shapes_set slot rest
  | .streamSynchronize :: rest => shapes_set slot rest

/-- The host vectors whose copy to the device buffer of a slot was issued in a
device log, oldest first. -/
def copies_to (slot : Slot) : List DeviceOp → List (List Val)
  | [] => []
  | .memcpyH2D s data :: rest =>
    if s = slot then data :: copies_to slot rest else copies_to slot rest
  | .setInputShape _ _ :: rest => copies_to slot rest
  | .setTensorAddress _ :: rest => copies_to slot rest
  | .enqueueV3 _ :: rest => copies_to slot rest
  | .memcpyD2H _ :: rest => copies_to slot rest
  | .streamSynchronize :: rest => copies_to slot rest

/-- The wording of the spec for one `get_mask` call, "shapes are re-set per call
to the exact current point count": the call, which takes the decoder from
`before` to `after`, has set the shape (1, P, 2) on `point_coords` and (1, P) on
`point_labels`, once each, and P is the number of points it has copied to the
device: 2 P coordinate values and, unless that first copy has failed and ended
the call, P labels. -/
def exact_point_count (dev : TrtBackend) (before after : SamTrtDecoder) (P : Nat) : Prop :=
  point_shapes after = ([1, (P : Int), 2], [1, (P : Int)], [1, (P : Int), 2], [1, (P : Int)]) ∧
  shapes_set .point_coords after.device_log =
    shapes_set .point_coords before.device_log ++ [[1, (P : Int), 2]] ∧
  shapes_set .point_labels after.device_log =
    shapes_set .point_labels before.device_log ++ [[1, (P : Int)]] ∧
  ∃ total_points total_labels : List Val,
    total_points.length = 2 * P ∧ total_labels.length = P ∧
    copies_to .point_coords after.device_log =
      copies_to .point_coords before.device_log ++ [total_points] ∧
    copies_to .point_labels after.device_log =
      copies_to .point_labels before.device_log ++
        (if dev.memcpyH2D_ok .point_coords total_points then [total_labels] else [])

/-- The prompt `decode` builds for one box: top-left point, bottom-right point
and the point (0, 0). -/
def bbox_point_coords (bbox : Rect2f) : List Point2f := [bbox.tl, bbox.br, ⟨0, 0⟩]

/-- The labels `decode` builds for one box: 2, 3 and -1. -/
def bbox_point_labels : List Val := [2, 3, -1]

/-- The loop "decode masks" of `decode` over boxes. -/
def decode_bboxes_loop (dev : TrtBackend) (cv : CvOps) :
    SamTrtDecoder → List Rect2f → List Mat → Call SamTrtDecoder (List Mat)
  | st, [], predicted_masks => ⟨.returned .OJBK, st, predicted_masks⟩
  | st, bbox :: rest, predicted_masks =>
    let r := get_mask dev cv st (bbox_point_coords bbox) bbox_point_labels Mat.empty_mat
    match r.completion with
    | .thrown => ⟨.thrown, r.state, predicted_masks⟩
    | .returned status =>
      if status ≠ .OK then ⟨.returned status, r.state, predicted_masks⟩
      else decode_bboxes_loop dev cv r.state rest (predicted_masks ++ [r.out])

/-- The copy of the embedding to the device that opens both `decode` overloads:
the state once the copy has been issued and has succeeded. -/
def upload_embedding (st : SamTrtDecoder) (image_embeddings : List Val) : SamTrtDecoder :=
  (st.issue (.memcpyH2D .image_embeddings image_embeddings)).store .image_embeddings
    image_embeddings

/-- The function `SamTrtDecoder::Impl::decode` over boxes. -/
def decode (dev : TrtBackend) (cv : CvOps) (st : SamTrtDecoder) (image_embeddings : List Val)
    (bboxes : List Rect2f) (predicted_masks : List Mat) : Call SamTrtDecoder (List Mat) :=
  -- init image embedding cuda memo copy
  if !dev.memcpyH2D_ok .image_embeddings image_embeddings then
    ⟨.returned .MODEL_RUN_SESSION_FAILED,
      st.issue (.memcpyH2D .image_embeddings image_embeddings), predicted_masks⟩
  else
    -- decode masks
    decode_bboxes_loop dev cv (upload_embedding st image_embeddings) bboxes predicted_masks

/-- The loop "decode masks" of `decode` over point sets. -/
def decode_points_loop (dev : TrtBackend) (cv : CvOps) :
    SamTrtDecoder → List (List Point2f) → List Mat → Call SamTrtDecoder (List Mat)
  | st, [], predicted_masks => ⟨.returned .OJBK, st, predicted_masks⟩
  | st, point_coords :: rest, predicted_masks =>
    let point_labels : List Val := List.replicate point_coords.length 1
    let r := get_mask dev cv st point_coords point_labels Mat.empty_mat
    match r.completion with
    | .thrown => ⟨.thrown, r.state, predicted_masks⟩
    | .returned status =>
      if status ≠ .OK then ⟨.returned status, r.state, predicted_masks⟩
      else decode_points_loop dev cv r.state rest (predicted_masks ++ [r.out])

/-- The function `SamTrtDecoder::Impl::decode` over point sets. -/
def decode_points (dev : TrtBackend) (cv : CvOps) (st : SamTrtDecoder)
    (image_embeddings : List Val) (points : List (List Point2f)) (predicted_masks : List Mat) :
    Call SamTrtDecoder (List Mat) :=
  if !dev.memcpyH2D_ok .image_embeddings image_embeddings then
    ⟨.returned .MODEL_RUN_SESSION_FAILED,
      st.issue (.memcpyH2D .image_embeddings image_embeddings), predicted_masks⟩
  else
    decode_points_loop dev cv (upload_embedding st image_embeddings) points predicted_masks

end SamTrtDecoder

/-! ## OpenCV calls of the encoder path -/

/-- A `cv::Scalar` with three given components; the fourth is 0. -/
def scalar3 (v0 v1 v2 : Val) (ch : Int) : Val :=
  if ch = 0 then v0 else if ch = 1 then v1 else if ch = 2 then v2 else 0

/-- The call `cv::cvtColor(src, dst, cv::COLOR_BGR2RGB)`: channels 0 and 2 are
swapped, the result has 3 channels; an empty source or one with neither 3 nor 4
channels raises `cv::Exception` (`none`). -/
def cv_cvtColor_BGR2RGB (src : Mat) : Option Mat :=
  if src.empty || !(decide (src.channels = 3) || decide (src.channels = 4)) then none
  else some ⟨src.rows, src.cols, 3, fun row col ch => src.px row col (2 - ch)⟩

/-- The call `cv::subtract(src, scalar, dst)`. -/
def cv_subtract (src : Mat) (s : Int → Val) : Mat :=
  { src with px := fun row col ch => src.px row col ch - s ch }

/-- The call `cv::divide(src, scalar, dst)`; only the three given components of
the scalars of `preprocess_image` are non-zero. -/
def cv_divide (src : Mat) (s : Int → Val) : Mat :=
  { src with px := fun row col ch => src.px row col ch / s ch }

/-- The call `cv::copyMakeBorder(src, dst, top, bottom, left, right,
cv::BORDER_CONSTANT, value)`; a negative border raises `cv::Exception` (`none`). -/
def cv_copyMakeBorder (src : Mat) (top bottom left right : Int) (value : Val) : Option Mat :=
  if top < 0 ∨ bottom < 0 ∨ left < 0 ∨ right < 0 then none
  else some ⟨src.rows + top + bottom, src.cols + left + right, src.channels,
    fun row col ch =>
      if top ≤ row ∧ row < top + src.rows ∧ left ≤ col ∧ col < left + src.cols then
        src.px (row - top) (col - left) ch
      else value⟩

/-! ## SamSegmentor (sam_segmentor.cpp) -/

/-- A tensor handed to or returned by an onnxruntime session. -/
structure Tensor where
  data : List Val
  shape : List Int

/-- An `Ort::Value` returned by a session run. -/
structure OrtValue where
  is_tensor : Bool
  tensor : Tensor

/-- The three outputs requested from the decoder session, in the order of
`_m_decoder_output_names`. -/
structure DecoderOutputs where
  masks : Tensor
  iou_predictions : Tensor
  low_res_masks : Tensor

/-- The session runs the segmentor issues. -/
inductive SessionCall where
  | encoder_run (input_tensor : Tensor)
  | decoder_run (decoder_input_tensor : List Tensor)

/-- The onnxruntime side of the segmentor. -/
structure OrtBackend where
  /-- whether `Ort::Value::CreateTensor` yields a value with `IsTensor()` and `HasValue()` -/
  create_tensor_ok : List Val → List Int → Bool
  /-- the call `_m_encoder_sess->Run`: `none` when it raises `Ort::Exception` -/
  encoder_run : Tensor → Option (List OrtValue)
  /-- the call `_m_decoder_sess->Run`: `none` when it raises `Ort::Exception` -/
  decoder_run : List Tensor → Option DecoderOutputs

/-- What a loaded `Ort::Session` reports of its model. -/
structure OrtSession where
  /-- `GetInputCount()` -/
  input_count : Nat
  /-- `GetOutputCount()` -/
  output_count : Nat
  /-- `GetInputTypeInfo(0).GetTensorTypeAndShapeInfo().GetShape()` -/
  input_shape : List Int
  /-- `GetOutputTypeInfo(0).GetTensorTypeAndShapeInfo().GetShape()` -/
  output_shape : List Int
  deriving DecidableEq, Repr

/-- A model section of the toml configuration as `init` reads it: each key it
accesses is absent (`none`) or present with a value of the type it is read as;
reading an absent key raises. -/
structure ModelSection where
  model_file_path : Option String
  compute_backend : Option String
  gpu_device_id : Option Int
  model_threads_num : Option Int

/-- The toml configuration handed to `SamSegmentor::init`. -/
structure SamConfig where
  SAM_VIT_ENCODER : Option ModelSection
  SAM_VIT_DECODER : Option ModelSection

/-- The session options that `init` sets before it creates a session. -/
structure SessionOptions where
  /-- the argument of `SetIntraOpNumThreads` -/
  intra_op_num_threads : Int
  /-- the device id of the CUDA execution provider, when one is appended -/
  cuda_device_id : Option Int
  deriving DecidableEq, Repr

/-- The environment of `init`: the file system and the onnxruntime loader. -/
structure OrtLoader where
  /-- `FilePathUtil::is_file_exist` (common/file_path_util.h, not among the sources) -/
  is_file_exist : String → Bool
  /-- the constructor of `Ort::Session`: `none` when it raises `Ort::Exception` -/
  create_session : String → SessionOptions → Option OrtSession

/-- The members of `SamSegmentor::Impl` that `init` and the predict path read or
write; `session_log` records the session runs issued so far. -/
structure SamSegmentor where
  _m_encoder_model_path : String := ""
  _m_decoder_model_path : String := ""
  _m_encoder_sess : Option OrtSession := none
  _m_decoder_sess : Option OrtSession := none
  _m_encoder_input_shape : List Int
  _m_encoder_output_shape : List Int
  _m_ori_image_size : Size
  _m_successfully_init_model : Bool := false
  session_log : List SessionCall

namespace SamSegmentor

/-- Record a session run. -/
def issue (st : SamSegmentor) (c : SessionCall) : SamSegmentor :=
  { st with session_log := st.session_log ++ [c] }

/-- The part of the segmentor state that `get_mask` reads. -/
def view (st : SamSegmentor) : List Int × Size :=
  (st._m_encoder_output_shape, st._m_ori_image_size)

/-- The scale, target extent and padding computed by `preprocess_image`. -/
structure PadGeometry where
  scale : Val
  target_size : Size
  pad_h : Int
  pad_w : Int

/-- Lines 324-331 and 342-343 of `preprocess_image`, evaluated in exact
arithmetic; the evaluation in binary32 is `pad_geometry_f32`. For a longer side
of 0, where the code divides by zero, the quotient is taken as 0. -/
def pad_geometry (st : SamSegmentor) (input_image_size : Size) : PadGeometry :=
  let input_node_h : Int := st._m_encoder_input_shape.getD 2 0
  let input_node_w : Int := st._m_encoder_input_shape.getD 3 0
  let ori_img_width : Val := input_image_size.width
  let ori_img_height : Val := input_image_size.height
  let long_side := max input_image_size.height input_image_size.width
  let scale : Val := (input_node_h : Val) / (long_side : Val)
  let target_size : Size := ⟨trunc (scale * ori_img_width), trunc (scale * ori_img_height)⟩
  -- pad image
  let pad_h := input_node_h - target_size.height
  let pad_w := input_node_w - target_size.width
  ⟨scale, target_size, pad_h, pad_w⟩

/-- Lines 324-331 and 342-343 of `preprocess_image` with every `float` operation
rounded to binary32, as the code computes them: the conversions of the
extents, the quotient `scale` and the two products. `none` when the longer
side is 0: the quotient is then not a finite value and its conversion to `int`
is undefined. -/
def pad_geometry_f32 (st : SamSegmentor) (input_image_size : Size) : Option PadGeometry :=
  let input_node_h : Int := static_cast_int (st._m_encoder_input_shape.getD 2 0)
  let input_node_w : Int := static_cast_int (st._m_encoder_input_shape.getD 3 0)
  let ori_img_width : Val := float32 input_image_size.width
  let ori_img_height : Val := float32 input_image_size.height
  let long_side := max input_image_size.height input_image_size.width
  if long_side = 0 then none
  else
    let scale : Val := float32 (float32 input_node_h / float32 long_side)
    let target_size : Size :=
      ⟨trunc (float32 (scale * ori_img_width)), trunc (float32 (scale * ori_img_height))⟩
    -- pad image
    let pad_h := input_node_h - target_size.height
    let pad_w := input_node_w - target_size.width
    some ⟨scale, target_size, pad_h, pad_w⟩

/-- The function `SamSegmentor::Impl::preprocess_image`; `none` when one of the
OpenCV calls raises. The result of `cvtColor` is overwritten by `resize`, whose
source is `input_image`. -/
def preprocess_image (cv : CvOps) (st : SamSegmentor) (input_image : Mat) : Option Mat :=
  let g := pad_geometry st input_image.size
  match cv_cvtColor_BGR2RGB input_image with
  | none => none
  | some _ =>
    match cv_resize cv.inter_linear input_image g.target_size with
    | none => none
    | some result =>
      -- convertTo(CV_32FC3) changes the depth only
      let result := cv_subtract result (scalar3 123.675 116.28 103.53)
      let result := cv_divide result (scalar3 58.395 57.12 57.375)
      cv_copyMakeBorder result 0 g.pad_h 0 g.pad_w 0

/-- The function `SamSegmentor::Impl::transform_bboxes` with every `float`
operation rounded to binary32, as the code computes them: the conversions of
the extents and of the box, the quotient `scale` and the four products. `none`
when the longer side is 0: the quotient is then not a finite value. -/
def transform_bboxes_f32 (st : SamSegmentor) (bboxes : List Rect) : Option (List Rect2f) :=
  let ori_img_h : Val := float32 st._m_ori_image_size.height
  let ori_img_w : Val := float32 st._m_ori_image_size.width
  let long_side := max ori_img_h ori_img_w
  let input_tensor_h : Val := float32 ((st._m_encoder_input_shape.getD 2 0 : Int) : Val)
  if long_side = 0 then none
  else
    let scale : Val := float32 (input_tensor_h / long_side)
    some (bboxes.map fun box =>
      let new_box : Rect2f :=
        ⟨float32 box.x, float32 box.y, float32 box.width, float32 box.height⟩
      ⟨float32 (new_box.x * scale), float32 (new_box.y * scale),
        float32 (new_box.width * scale), float32 (new_box.height * scale)⟩)

/-- The function `SamSegmentor::Impl::transform_bboxes`, evaluated in exact
arithmetic; the evaluation in binary32 is `transform_bboxes_f32`. For a longer
side of 0, where the code divides by zero, the quotient is taken as 0. -/
def transform_bboxes (st : SamSegmentor) (bboxes : List Rect) : List Rect2f :=
  let ori_img_h : Val := st._m_ori_image_size.height
  let ori_img_w : Val := st._m_ori_image_size.width
  let long_side := max ori_img_h ori_img_w
  let input_tensor_h : Val := ((st._m_encoder_input_shape.getD 2 0 : Int) : Val)
  let scale : Val := input_tensor_h / long_side
  bboxes.map fun box =>
    let new_box : Rect2f := ⟨box.x, box.y, box.width, box.height⟩
    ⟨new_box.x * scale, new_box.y * scale, new_box.width * scale, new_box.height * scale⟩

/-- The function `SamSegmentor::Impl::encode_image_embeddings`; `embeds_size`,
the product of the encoder output shape, is far below the `int` range. -/
def encode_image_embeddings (ort : OrtBackend) (cv : CvOps) (st : SamSegmentor)
    (input_image : Mat) (image_embeddings : List Val) : Call SamSegmentor (List Val) :=
  -- preprocess image
  match preprocess_image cv st input_image with
  | none => ⟨.thrown, st, image_embeddings⟩
  | some preprocessed_image =>
    let input_tensor_values := cv.convert_to_chw_vec preprocessed_image
    -- run encoder
    if !ort.create_tensor_ok input_tensor_values st._m_encoder_input_shape then
      ⟨.returned .MODEL_RUN_SESSION_FAILED, st, image_embeddings⟩
    else
      let input_tensor : Tensor := ⟨input_tensor_values, st._m_encoder_input_shape⟩
      let st := st.issue (.encoder_run input_tensor)
      match ort.encoder_run input_tensor with
      | none => ⟨.thrown, st, image_embeddings⟩
      | some output_tensors =>
        match output_tensors with
        | [front] =>
          if !front.is_tensor then ⟨.returned .MODEL_RUN_SESSION_FAILED, st, image_embeddings⟩
          else
            let embeds_size : Int := st._m_encoder_output_shape.foldl (fun a b => a * b) 1
            ⟨.returned .OJBK, st,
              (List.range embeds_size.toNat).map fun idx => front.tensor.data.getD idx 0⟩
        | _ => ⟨.returned .MODEL_RUN_SESSION_FAILED, st, image_embeddings⟩

/-- The function `SamSegmentor::Impl::get_embedding`. -/
def get_embedding (ort : OrtBackend) (cv : CvOps) (st : SamSegmentor) (input_image : Mat)
    (image_embeddings : List Val) : Call SamSegmentor (List Val) :=
  encode_image_embeddings ort cv st input_image image_embeddings

/-- The host vector `total_points` of `get_mask`: the two corners, then 0, 0. -/
def total_points (bbox : Rect2f) : List Val :=
  let tl_pt := bbox.tl
  let tl_x := tl_pt.x
  let tl_y := tl_pt.y
  let br_x := tl_x + bbox.width
  let br_y := tl_y + bbox.height
  [tl_x, tl_y, br_x, br_y, 0, 0]

/-- The host vector `total_labels` of `get_mask`. -/
def total_labels : List Val := [2, 3, -1]

/-- Lines 548-562 of `get_mask`: the mask read from the first output tensor;
`none` when an OpenCV call raises. -/
def read_output_mask (cv : CvOps) (st : SamSegmentor) (masks : Tensor) : Option Mat :=
  let masks_preds_value := masks.data
  let output_mask_shape := masks.shape
  let output_mask_h : Int := output_mask_shape.getD 2 0
  let output_mask_w : Int := output_mask_shape.getD 3 0
  if output_mask_w < 0 ∨ output_mask_h < 0 then none
  else
    let mask : Mat := ⟨output_mask_h, output_mask_w, 1, fun row col _ =>
      if masks_preds_value.getD (row * output_mask_w + col).toNat 0 > 0 then 255 else 0⟩
    if (⟨output_mask_w, output_mask_h⟩ : Size) ≠ st._m_ori_image_size then
      cv_resize cv.inter_nearest mask st._m_ori_image_size
    else some mask

/-- The logits `get_mask` reads from the first output tensor, as a matrix: the
value at (row, col) is `masks_preds_value[row * mask.cols + col]`. -/
def mask_logits (masks : Tensor) : Mat :=
  ⟨masks.shape.getD 2 0, masks.shape.getD 3 0, 1, fun row col _ =>
    masks.data.getD (row * masks.shape.getD 3 0 + col).toNat 0⟩

/-- The logit behind the pixel (row, col) of the mask `get_mask` returns: that of
the logit matrix itself when its extent is the original image size, and that of
the matrix resized to the original image size by `cv::INTER_NEAREST` otherwise. -/
def logit_at (cv : CvOps) (st : SamSegmentor) (masks : Tensor) (row col ch : Int) : Val :=
  if (⟨masks.shape.getD 3 0, masks.shape.getD 2 0⟩ : Size) = st._m_ori_image_size then
    (mask_logits masks).px row col ch
  else cv.inter_nearest (mask_logits masks) st._m_ori_image_size row col ch

/-- Lines 544-564 of `get_mask` ("run decoder"). -/
def run_decoder (ort : OrtBackend) (cv : CvOps) (st : SamSegmentor)
    (decoder_input_tensor : List Tensor) (out_mask : Mat) : Call SamSegmentor Mat :=
  let st := st.issue (.decoder_run decoder_input_tensor)
  match ort.decoder_run decoder_input_tensor with
  | none => ⟨.thrown, st, out_mask⟩
  | some output_tensors =>
    match read_output_mask cv st output_tensors.masks with
    | none => ⟨.thrown, st, out_mask⟩
    | some mask => ⟨.returned .OJBK, st, mask⟩

/-- The vector `decoder_input_tensor` of `get_mask`: the six input tensors of the
decoder session, in the order of `_m_decoder_input_names`. -/
def decoder_input_tensor (st : SamSegmentor) (image_embeddings : List Val) (bbox : Rect2f) :
    List Tensor :=
  [ ⟨image_embeddings, st._m_encoder_output_shape⟩,
    ⟨total_points bbox, [1, (((total_points bbox).length / 2 : Nat) : Int), 2]⟩,
    ⟨total_labels, [1, (total_labels.length : Int)]⟩,
    ⟨mask_tensor_values, [1, 1, 256, 256]⟩,
    ⟨has_mask_tensor_values, [1]⟩,
    ⟨[(st._m_ori_image_size.width : Val), (st._m_ori_image_size.height : Val)], [2]⟩ ]

/-- The function `SamSegmentor::Impl::get_mask`. -/
def get_mask (ort : OrtBackend) (cv : CvOps) (st : SamSegmentor) (image_embeddings : List Val)
    (bbox : Rect2f) (out_mask : Mat) : Call SamSegmentor Mat :=
  -- init points tensor and label tensor
  let total_points := total_points bbox
  let total_labels := total_labels
  let point_tensor_shape : List Int := [1, ((total_points.length / 2 : Nat) : Int), 2]
  if !ort.create_tensor_ok total_points point_tensor_shape then
    ⟨.returned .MODEL_RUN_SESSION_FAILED, st, out_mask⟩
  else
  let point_labels_tensor_shape : List Int := [1, (total_labels.length : Int)]
  if !ort.create_tensor_ok total_labels point_labels_tensor_shape then
    ⟨.returned .MODEL_RUN_SESSION_FAILED, st, out_mask⟩
  else
  -- init mask input tensor
  let mask_tensor_shape : List Int := [1, 1, 256, 256]
  if !ort.create_tensor_ok mask_tensor_values mask_tensor_shape then
    ⟨.returned .MODEL_RUN_SESSION_FAILED, st, out_mask⟩
  else
  -- init has mask input tensor
  let has_mask_tensor_shape : List Int := [1]
  if !ort.create_tensor_ok has_mask_tensor_values has_mask_tensor_shape then
    ⟨.returned .MODEL_RUN_SESSION_FAILED, st, out_mask⟩
  else
  -- init ori image size input tensor
  let ori_image_size_tensor_values : List Val :=
    [(st._m_ori_image_size.width : Val), (st._m_ori_image_size.height : Val)]
  let ori_image_size_tensor_shape : List Int := [2]
  if !ort.create_tensor_ok ori_image_size_tensor_values ori_image_size_tensor_shape then
    ⟨.returned .MODEL_RUN_SESSION_FAILED, st, out_mask⟩
  else
  -- run decoder
  run_decoder ort cv st (decoder_input_tensor st image_embeddings bbox) out_mask

/-- The wording of the spec for candidate `k`: the `k`-th mask of a decoder output
of shape (1, K, H, W), binarized at zero. -/
def candidate_mask (masks : Tensor) (k : Nat) : Mat :=
  let h : Int := masks.shape.getD 2 0
  let w : Int := masks.shape.getD 3 0
  ⟨h, w, 1, fun row col _ =>
    if masks.data.getD ((k : Int) * h * w + row * w + col).toNat 0 > 0 then 255 else 0⟩

/-- The function `SamSegmentor::Impl::get_masks`. -/
def get_masks (ort : OrtBackend) (cv : CvOps) :
    SamSegmentor → List Val → List Rect2f → List Mat → Call SamSegmentor (List Mat)
  | st, _, [], out_masks => ⟨.returned .OJBK, st, out_masks⟩
  | st, image_embeddings, bbox :: rest, out_masks =>
    let r := get_mask ort cv st image_embeddings bbox Mat.empty_mat
    match r.completion with
    | .thrown => ⟨.thrown, r.state, out_masks⟩
    | .returned status_code =>
      if status_code ≠ .OJBK then ⟨.returned status_code, r.state, out_masks⟩
      else get_masks ort cv r.state image_embeddings rest (out_masks ++ [r.out])

/-- The function `SamSegmentor::Impl::predict`. -/
def predict (ort : OrtBackend) (cv : CvOps) (st : SamSegmentor) (input_image : Mat)
    (bboxes : List Rect) (predicted_masks : List Mat) : Call SamSegmentor (List Mat) :=
  -- fetch origin image size
  let st := { st with _m_ori_image_size := input_image.size }
  if bboxes.isEmpty then ⟨.returned .MODEL_RUN_SESSION_FAILED, st, predicted_masks⟩
  else
    -- encode image embeddings
    let e := encode_image_embeddings ort cv st input_image []
    match e.completion with
    | .thrown => ⟨.thrown, e.state, predicted_masks⟩
    | .returned status =>
      if status ≠ .OJBK then ⟨.returned status, e.state, predicted_masks⟩
      else
        -- transform bboxes
        let transformed_bboxes := transform_bboxes e.state bboxes
        -- decoder masks
        let d := get_masks ort cv e.state e.out transformed_bboxes predicted_masks
        match d.completion with
        | .thrown => ⟨.thrown, d.state, d.out⟩
        | .returned status =>
          if status ≠ .OJBK then ⟨.returned status, d.state, d.out⟩
          else ⟨.returned .OJBK, d.state, d.out⟩

/-- Lines 189-203 (encoder) and 233-246 (decoder) of `init`: the session options
read from a model section; `none` when a key that is read is absent. The thread
count is stored in a `uint16_t`, the device id in a `uint8_t`. -/
def session_options (cfg_section : ModelSection) : Option SessionOptions :=
  match cfg_section.compute_backend with
  | none => none
  | some device =>
    let use_gpu : Bool := decide (device = "cuda")
    match (if use_gpu then cfg_section.gpu_device_id.map fun id => some (id % 256)
           else some none) with
    | none => none
    | some cuda_device_id =>
      match cfg_section.model_threads_num with
      | none => none
      | some threads => some ⟨threads % 65536, cuda_device_id⟩

/-- Lines 225-255 of `init` ("init sam decoder configs"). -/
def init_decoder (env : OrtLoader) (st : SamSegmentor) (cfg : SamConfig) :
    Call SamSegmentor Unit :=
  match cfg.SAM_VIT_DECODER with
  | none => ⟨.thrown, st, ()⟩
  | some sam_decoder_cfg =>
    match sam_decoder_cfg.model_file_path with
    | none => ⟨.thrown, st, ()⟩
    | some path =>
      let st := { st with _m_decoder_model_path := path }
      if !env.is_file_exist path then
        ⟨.returned .MODEL_INIT_FAILED, { st with _m_successfully_init_model := false }, ()⟩
      else
        match session_options sam_decoder_cfg with
        | none => ⟨.thrown, st, ()⟩
        | some options =>
          match env.create_session path options with
          | none => ⟨.thrown, st, ()⟩
          | some sess =>
            ⟨.returned .OJBK,
              { st with _m_decoder_sess := some sess, _m_successfully_init_model := true }, ()⟩

/-- The function `SamSegmentor::Impl::init`. -/
def init (env : OrtLoader) (st : SamSegmentor) (cfg : SamConfig) : Call SamSegmentor Unit :=
  -- init sam encoder configs
  match cfg.SAM_VIT_ENCODER with
  | none => ⟨.thrown, st, ()⟩
  | some sam_encoder_cfg =>
    match sam_encoder_cfg.model_file_path with
    | none => ⟨.thrown, st, ()⟩
    | some path =>
      let st := { st with _m_encoder_model_path := path }
      if !env.is_file_exist path then
        ⟨.returned .MODEL_INIT_FAILED, { st with _m_successfully_init_model := false }, ()⟩
      else
        match session_options sam_encoder_cfg with
        | none => ⟨.thrown, st, ()⟩
        | some options =>
          match env.create_session path options with
          | none => ⟨.thrown, st, ()⟩
          | some sess =>
            let st := { st with _m_encoder_sess := some sess }
            if sess.input_count ≠ 1 ∨ sess.output_count ≠ 1 then
              ⟨.returned .MODEL_INIT_FAILED, { st with _m_successfully_init_model := false }, ()⟩
            else
              let st := { st with _m_encoder_input_shape := sess.input_shape,
                                  _m_encoder_output_shape := sess.output_shape }
              if st._m_encoder_input_shape.length ≠ 4 ∨ st._m_encoder_output_shape.length ≠ 4 then
                ⟨.returned .MODEL_INIT_FAILED, st, ()⟩
              else init_decoder env st cfg

/-- The member function `is_successfully_initialized`. -/
def is_successfully_initialized (st : SamSegmentor) : Bool := st._m_successfully_init_model

end SamSegmentor

/-! ## EnlightenGan (enlightengan.inl) -/

/-- The type `enlightengan_impl::internal_input`: the decoded image. -/
structure internal_input where
  input_image : Mat

/-- The type `std_enhancement_output` (models/model_io_define.h is not among the
sources): the member that the sources read and write. -/
structure std_enhancement_output where
  enhancement_result : Mat

/-- The two input tensors of the session. -/
inductive MnnInput where
  | input_src
  | input_gray
  deriving DecidableEq, Repr

/-- The MNN calls `run` issues, in the order of issue. -/
inductive MnnCall where
  | resizeTensor (tensor : MnnInput) (dims : List Int)
  | resizeSession
  | runSession (input_src input_gray : List Val)

/-- The MNN session behind the model. -/
structure MnnBackend where
  /-- the host data of the output tensor after `runSession`, for a session of the
  given input size and the host data copied to the two input tensors -/
  runSession : Size → List Val → List Val → List Val

/-- The call `cv::cvtColor(src, dst, cv::COLOR_BGRA2RGB)`: the alpha channel, if
any, is dropped and channels 0 and 2 are swapped; an empty source or one with
neither 3 nor 4 channels raises `cv::Exception` (`none`). -/
def cv_cvtColor_BGRA2RGB (src : Mat) : Option Mat :=
  if src.empty || !(decide (src.channels = 3) || decide (src.channels = 4)) then none
  else some ⟨src.rows, src.cols, 3, fun row col ch => src.px row col (2 - ch)⟩

/-- The call `cv::cvtColor(src, dst, cv::COLOR_RGB2BGR)`, the same conversion code
as `cv::COLOR_BGR2RGB`. -/
def cv_cvtColor_RGB2BGR (src : Mat) : Option Mat := cv_cvtColor_BGR2RGB src

/-- The floats behind `mat.data` of a continuous single-channel matrix, in
row-major order. -/
def Mat.data_vec (m : Mat) : List Val :=
  (List.range (m.rows * m.cols).toNat).map fun i => m.px ((i : Int) / m.cols) ((i : Int) % m.cols) 0

/-- The `ENLIGHTENGAN` section of the model configuration as `init` reads it:
each key is absent (`none`) or present with a value of the type it is read as. -/
structure EnlightenGanSection where
  model_threads_num : Option Int
  model_file_path : Option String
  compute_backend : Option String
  backend_precision_mode : Option Int
  backend_power_mode : Option Int

/-- The toml model configuration handed to `EnlightenGan::init`. -/
structure EnlightenGanConfig where
  ENLIGHTENGAN : Option EnlightenGanSection

/-- The values of `MNNForwardType` that `init` selects. -/
inductive MNNForwardType where
  | MNN_FORWARD_CPU
  | MNN_FORWARD_CUDA
  deriving DecidableEq, Repr

/-- The `MNN::ScheduleConfig` that `init` fills, with the two modes of its
`BackendConfig`: `none` stands for `Precision_Normal` and for `Power_Normal`. -/
structure ScheduleConfig where
  forward_type : MNNForwardType
  numThread : Int
  precision : Option Int
  power : Option Int
  deriving DecidableEq, Repr

/-- The environment of `EnlightenGan::init`: the file system and what MNN
answers for a model file. -/
structure MnnLoader where
  /-- `FilePathUtil::is_file_exist` (common/file_path_util.h, not among the sources) -/
  is_file_exist : String → Bool
  /-- whether `MNN::Interpreter::createFromFile` returns an interpreter, not `nullptr` -/
  createFromFile : String → Bool
  /-- whether `createSession` returns a session, not `nullptr` -/
  createSession : String → ScheduleConfig → Bool
  /-- the tensor `getSessionInput(_m_session, "input_src")`: `none` for `nullptr`,
  else its `width()` and `height()` -/
  input_src : String → Option Size
  /-- whether `getSessionInput(_m_session, "input_gray")` is not `nullptr` -/
  input_gray : String → Bool
  /-- whether `getSessionOutput(_m_session, "output")` is not `nullptr` -/
  output : String → Bool

/-- The members of `EnlightenGan::Impl` that `init` and `run` write and the
claims read; `session_log` records the MNN calls that `run` has issued. The
interpreter, the session and the tensors are behind `MnnBackend`. -/
structure EnlightenGan where
  _m_model_file_path : String := ""
  _m_threads_nums : Int := 4
  _m_input_size_host : Size := ⟨0, 0⟩
  _m_successfully_initialized : Bool := false
  session_log : List MnnCall := []

namespace EnlightenGan

/-- Record an MNN call. -/
def issue (st : EnlightenGan) (c : MnnCall) : EnlightenGan :=
  { st with session_log := st.session_log ++ [c] }

/-- The member function `is_successfully_initialized`. -/
def is_successfully_initialized (st : EnlightenGan) : Bool := st._m_successfully_initialized

/-- Lines 352-357 of `run`: the session is resized for the image. The quotient
`height / 16` is a quotient of two `int`s, so `std::ceil` is applied to an
integer. -/
def resize_for_image (st : EnlightenGan) (input_image : Mat) : EnlightenGan :=
  let height : Int := Int.tdiv input_image.size.height 16 * 16
  let width : Int := Int.tdiv input_image.size.width 16 * 16
  let st := { st with _m_input_size_host := ⟨width, height⟩ }
  let st := st.issue (.resizeTensor .input_src [1, 3, height, width])
  let st := st.issue (.resizeTensor .input_gray [1, 1, height, width])
  st.issue .resizeSession

/-- The function `EnlightenGan::Impl::preprocess_image`: the pair `output_src`,
`output_gray`; `none` when an OpenCV call raises. The image that is resized is
`input_image`. -/
def preprocess_image (cv : CvOps) (st : EnlightenGan) (input_image : Mat) : Option (Mat × Mat) :=
  -- resize image
  match (if input_image.channels = 4 then cv_cvtColor_BGRA2RGB input_image
         else cv_cvtColor_BGR2RGB input_image) with
  | none => none
  | some output_src =>
    match (if input_image.size ≠ st._m_input_size_host then
             cv_resize cv.inter_linear input_image st._m_input_size_host
           else some output_src) with
    | none => none
    | some output_src =>
      -- normalize (convertTo changes the depth only)
      let output_src := cv_divide output_src (fun _ => 255)
      let output_src := cv_subtract output_src (scalar3 0.5 0.5 0.5)
      let output_src := cv_divide output_src (scalar3 0.5 0.5 0.5)
      -- make gray output
      let output_gray : Mat := ⟨output_src.rows, output_src.cols, 1, fun row col _ =>
        1 - (0.299 * (output_src.px row col 0 + 1) + 0.587 * (output_src.px row col 1 + 1) +
          0.114 * (output_src.px row col 2 + 1)) * 0.5⟩
      some (output_src, output_gray)

/-- Lines 391-398 of `run`: an output value of the network as a byte. -/
def output_pixel (x : Val) : Int :=
  let pix_val_f : Val := (x + 1) * 255 / 2
  let pix_val_f : Val := if pix_val_f < 0 then 0 else pix_val_f
  let pix_val_f : Val := if pix_val_f ≥ 255 then 255 else pix_val_f
  trunc pix_val_f

/-- Lines 383-405 of `run`: the matrix `result_image` over `output_img_data`; the
byte at (row, col, c) comes from `host_data[chw_idx]`. -/
def result_image (st : EnlightenGan) (host_data : List Val) : Mat :=
  ⟨st._m_input_size_host.height, st._m_input_size_host.width, 3, fun row col c =>
    let chw_idx := c * st._m_input_size_host.height * st._m_input_size_host.width +
      row * st._m_input_size_host.width + col
    (output_pixel (host_data.getD chw_idx.toNat 0) : Val)⟩

/-- Lines 404-423 of `run`: the output image from `result_image`; `none` when an
OpenCV call raises. -/
def make_output (cv : CvOps) (input_image result_image : Mat) : Option std_enhancement_output :=
  match cv_cvtColor_RGB2BGR result_image with
  | none => none
  | some enhancement_result =>
    match (if enhancement_result.size ≠ input_image.size then
             cv_resize cv.inter_linear enhancement_result input_image.size
           else some enhancement_result) with
    | none => none
    | some enhancement_result =>
      -- refine output image
      if input_image.channels = 4 then
        some ⟨⟨enhancement_result.rows, enhancement_result.cols, 4, fun row col ch =>
          if ch = 3 then input_image.px row col 3 else enhancement_result.px row col ch⟩⟩
      else some ⟨enhancement_result⟩

/-- Lines 359-425 of `run`: preprocessing, the session run and the decoding of
the output tensor. The two `memcpy` calls copy as many floats as the input
tensors hold. -/
def run_session (mnn : MnnBackend) (cv : CvOps) (st : EnlightenGan) (input_image : Mat)
    (out : std_enhancement_output) : Call EnlightenGan std_enhancement_output :=
  match preprocess_image cv st input_image with
  | none => ⟨.thrown, st, out⟩
  | some (input_src, input_gray) =>
    let input_src_chw_data := cv.convert_to_chw_vec input_src
    -- run session
    let volume : Int := st._m_input_size_host.height * st._m_input_size_host.width
    let src_data := input_src_chw_data.take (3 * volume).toNat
    let gray_data := input_gray.data_vec.take volume.toNat
    let st := st.issue (.runSession src_data gray_data)
    -- decode output tensor
    let host_data := mnn.runSession st._m_input_size_host src_data gray_data
    match make_output cv input_image (result_image st host_data) with
    | none => ⟨.thrown, st, out⟩
    | some o => ⟨.returned .OK, st, o⟩

/-- The function `EnlightenGan::Impl::run`, from the decoded image on (the
decoding, `transform_input`, yields an empty image when it fails). -/
def run (mnn : MnnBackend) (cv : CvOps) (st : EnlightenGan) (internal_in : internal_input)
    (out : std_enhancement_output) : Call EnlightenGan std_enhancement_output :=
  if internal_in.input_image.empty then ⟨.returned .MODEL_EMPTY_INPUT_IMAGE, st, out⟩
  else
    -- preprocess image
    if internal_in.input_image.empty ∨ internal_in.input_image.size.height < 10 ∨
        internal_in.input_image.size.width < 10 then
      ⟨.returned .MODEL_EMPTY_INPUT_IMAGE, st, out⟩
    else if internal_in.input_image.channels ≠ 3 ∧ internal_in.input_image.channels ≠ 4 then
      ⟨.returned .MODEL_RUN_SESSION_FAILED, st, out⟩
    else if internal_in.input_image.size ≠ st._m_input_size_host then
      run_session mnn cv (resize_for_image st internal_in.input_image) internal_in.input_image
        out
    else run_session mnn cv st internal_in.input_image out

/-- Lines 250-264 of `init`: the forward type from the key `compute_backend`. -/
def forward_type (compute_backend : Option String) : MNNForwardType :=
  match compute_backend with
  | none => .MNN_FORWARD_CPU
  | some compute_backend =>
    if compute_backend = "cuda" then .MNN_FORWARD_CUDA
    else if compute_backend = "cpu" then .MNN_FORWARD_CPU
    else .MNN_FORWARD_CPU

/-- Lines 290-318 of `init`: the three tensors are fetched and tested, then the
input size is read and the flag is set. -/
def init_tensors (env : MnnLoader) (st : EnlightenGan) : Call EnlightenGan Unit :=
  match env.input_src st._m_model_file_path with
  | none => ⟨.returned .MODEL_INIT_FAILED, { st with _m_successfully_initialized := false }, ()⟩
  | some _m_input_tensor_src =>
    if !env.input_gray st._m_model_file_path then
      ⟨.returned .MODEL_INIT_FAILED, { st with _m_successfully_initialized := false }, ()⟩
    else if !env.output st._m_model_file_path then
      ⟨.returned .MODEL_INIT_FAILED, { st with _m_successfully_initialized := false }, ()⟩
    else
      ⟨.returned .OK,
        { st with _m_input_size_host := ⟨_m_input_tensor_src.width, _m_input_tensor_src.height⟩,
                  _m_successfully_initialized := true }, ()⟩

/-- Lines 215-221 of `init` ("init threads"): the value given to
`_m_threads_nums`. -/
def init_threads (cfg_content : EnlightenGanSection) : Int :=
  match cfg_content.model_threads_num with
  | none => 4
  | some model_threads_num => static_cast_int model_threads_num

/-- The function `EnlightenGan::Impl::init`. -/
def init (env : MnnLoader) (st : EnlightenGan) (config : EnlightenGanConfig) :
    Call EnlightenGan Unit :=
  match config.ENLIGHTENGAN with
  | none => ⟨.returned .MODEL_INIT_FAILED, { st with _m_successfully_initialized := false }, ()⟩
  | some cfg_content =>
    -- init threads
    let st := { st with _m_threads_nums := init_threads cfg_content }
    -- init interpreter
    match cfg_content.model_file_path with
    | none => ⟨.returned .MODEL_INIT_FAILED, { st with _m_successfully_initialized := false }, ()⟩
    | some model_file_path =>
      let st := { st with _m_model_file_path := model_file_path }
      if !env.is_file_exist st._m_model_file_path then
        ⟨.returned .MODEL_INIT_FAILED, { st with _m_successfully_initialized := false }, ()⟩
      else if !env.createFromFile st._m_model_file_path then
        ⟨.returned .MODEL_INIT_FAILED, { st with _m_successfully_initialized := false }, ()⟩
      else
        -- init session
        let mnn_config : ScheduleConfig :=
          ⟨forward_type cfg_content.compute_backend, st._m_threads_nums,
            cfg_content.backend_precision_mode, cfg_content.backend_power_mode⟩
        if !env.createSession st._m_model_file_path mnn_config then
          ⟨.returned .MODEL_INIT_FAILED, { st with _m_successfully_initialized := false }, ()⟩
        else init_tensors env st

end EnlightenGan

/-! ## EnlightenGanServer (enlighten_gan_server.cpp) -/

/-- The `ENLIGHTEN_GAN_SERVER` section of the server configuration as `init`
reads it: each key is absent (`none`) or present with a value of the type it is
read as; reading an absent key with `at` raises. -/
structure ServerSection where
  worker_nums : Option Int
  model_run_timeout : Option Int
  server_url : Option String
  max_connections : Option Int
  peer_resp_timeout : Option Int
  compute_threads : Option Int
  handler_threads : Option Int

/-- The `ENLIGHTEN_GAN` section of the server configuration. -/
structure ModelPathSection where
  model_config_file_path : Option String

/-- The toml configuration handed to `EnlightenGanServer::init`. -/
structure ServerConfig where
  ENLIGHTEN_GAN_SERVER : Option ServerSection
  ENLIGHTEN_GAN : Option ModelPathSection

/-- The environment of the server's `init`. -/
structure ServerEnv where
  /-- the file system and MNN -/
  loader : MnnLoader
  /-- the call `toml::parse(model_cfg_path)`: `none` when it raises -/
  parse : String → Option EnlightenGanConfig
  /-- the call `create_enlightengan_enhancementor<base64_input,
  std_enhancement_output>(name)` (factory/enhancement_task.h, not among the
  sources): the model it returns -/
  create_enlightengan_enhancementor : String → EnlightenGan

/-- A worker of the working queue: the model, and the name it was created under. -/
structure Worker where
  name : String
  model : EnlightenGan

/-- The members of `EnlightenGanServer::Impl` that `init` writes; they are
declared in its base `BaseAiServerImpl` (server/base_server_impl.h, not among
the sources). -/
structure EnlightenGanServer where
  _m_working_queue : List Worker
  _m_model_run_timeout : Int
  _m_server_uri : String
  max_connection_nums : Int
  peer_resp_timeout : Int
  compute_threads : Int
  handler_threads : Int
  _m_successfully_initialized : Bool

namespace EnlightenGanServer

/-- The call `_m_working_queue.enqueue(std::move(worker))`. -/
def enqueue (st : EnlightenGanServer) (worker : Worker) : EnlightenGanServer :=
  { st with _m_working_queue := st._m_working_queue ++ [worker] }

/-- Lines 86-98 of `init`: the loop over `index`; the list holds the values of
`index` still to come. It ends with `OK` when the loop is left at its end. -/
def init_workers (env : ServerEnv) (model_cfg : EnlightenGanConfig) :
    List Nat → EnlightenGanServer → Call EnlightenGanServer Unit
  | [], st => ⟨.returned .OK, st, ()⟩
  | index :: rest, st =>
    let name := "worker_" ++ toString (index + 1)
    let worker := env.create_enlightengan_enhancementor name
    if !worker.is_successfully_initialized then
      let r := EnlightenGan.init env.loader worker model_cfg
      match r.completion with
      | .thrown => ⟨.thrown, st, ()⟩
      | .returned status =>
        if status ≠ .OK then
          ⟨.returned .SERVER_INIT_FAILED, { st with _m_successfully_initialized := false }, ()⟩
        else init_workers env model_cfg rest (st.enqueue ⟨name, r.state⟩)
    else init_workers env model_cfg rest (st.enqueue ⟨name, worker⟩)

/-- Lines 100-105 of `init` ("init worker run timeout"): the value given to
`_m_model_run_timeout`, in ms. -/
def init_run_timeout (server_section : ServerSection) : Int :=
  match server_section.model_run_timeout with
  | none => 500
  | some model_run_timeout => static_cast_int model_run_timeout

/-- Lines 100-124 of `init`: the run timeout, the server uri and the server
parameters. The product `static_cast<int>(...) * 1000` is a product of two
`int`s: its value is the mathematical one reduced to the range of `int`. -/
def init_server_params (st : EnlightenGanServer) (server_section : ServerSection) :
    Call EnlightenGanServer Unit :=
  -- init worker run timeout
  let st := { st with _m_model_run_timeout := init_run_timeout server_section }
  -- init server uri
  match server_section.server_url with
  | none => ⟨.returned .SERVER_INIT_FAILED, { st with _m_successfully_initialized := false }, ()⟩
  | some server_url =>
    let st := { st with _m_server_uri := server_url }
    -- init server params
    match server_section.max_connections with
    | none => ⟨.thrown, st, ()⟩
    | some max_connections =>
      let st := { st with max_connection_nums := static_cast_int max_connections }
      match server_section.peer_resp_timeout with
      | none => ⟨.thrown, st, ()⟩
      | some peer_resp_timeout =>
        let st :=
          { st with peer_resp_timeout := static_cast_int (static_cast_int peer_resp_timeout * 1000) }
        match server_section.compute_threads with
        | none => ⟨.thrown, st, ()⟩
        | some compute_threads =>
          let st := { st with compute_threads := static_cast_int compute_threads }
          match server_section.handler_threads with
          | none => ⟨.thrown, st, ()⟩
          | some handler_threads =>
            ⟨.returned .OK,
              { st with handler_threads := static_cast_int handler_threads,
                        _m_successfully_initialized := true }, ()⟩

/-- The function `EnlightenGanServer::Impl::init`. At `LOG(FATAL)` the process
ends: the call does not return, which is recorded as `thrown`. -/
def init (env : ServerEnv) (st : EnlightenGanServer) (config : ServerConfig) :
    Call EnlightenGanServer Unit :=
  -- init working queue
  match config.ENLIGHTEN_GAN_SERVER with
  | none => ⟨.thrown, st, ()⟩
  | some server_section =>
    match server_section.worker_nums with
    | none => ⟨.thrown, st, ()⟩
    | some worker_nums =>
      let worker_nums := static_cast_int worker_nums
      match config.ENLIGHTEN_GAN.bind fun s => s.model_config_file_path with
      | none => ⟨.thrown, st, ()⟩
      | some model_cfg_path =>
        if !env.loader.is_file_exist model_cfg_path then ⟨.thrown, st, ()⟩
        else
          match env.parse model_cfg_path with
          | none => ⟨.thrown, st, ()⟩
          | some model_cfg =>
            let r := init_workers env model_cfg (List.range worker_nums.toNat) st
            match r.completion with
            | .thrown => r
            | .returned status =>
              if status ≠ .OK then r else init_server_params r.state server_section

/-- The member function `is_successfully_initialized`. -/
def is_successfully_initialized (st : EnlightenGanServer) : Bool :=
  st._m_successfully_initialized

end EnlightenGanServer

/-! ## The response body of the enhancement server -/

/-- What `make_response_body` takes from code that is not among the sources: the
integer values of the enumerators of `StatusCode` and `error_code_to_str`
(common/status_code.h), the JPEG encoder behind `cv::imencode` and
`Base64::base64_encode` (common/base64.h). -/
structure ResponseEnv where
  /-- the value `static_cast<int>(status)` -/
  status_value : StatusCode → Int
  error_code_to_str : Int → String
  /-- the buffer that `cv::imencode(".jpg", image, buffer)` fills; `none` when
  the call raises `cv::Exception` -/
  imencode_jpg : Mat → Option (List Nat)
  base64_encode : List Nat → String

/-- The calls made on the `rapidjson::Writer`. -/
inductive WriterCall where
  | StartObject
  | EndObject
  | Key (name : String)
  | String (value : String)
  | Int (value : Int)

/-- A JSON value built of what the writer is asked to write. -/
inductive Json where
  | string (value : String)
  | int (value : Int)
  | object (members : List (String × Json))

/-- An object that the writer has started and not ended: its members so far,
and the key that waits for its value. -/
structure OpenObject where
  members : List (String × Json)
  key : Option String

/-- The JSON value written by a sequence of writer calls, read with the stack
of the objects that are open; `none` when the calls do not make up one JSON
object. -/
def written_value : List WriterCall → List OpenObject → Option Json
  | [], _ => none
  | .StartObject :: rest, stack => written_value rest (⟨[], none⟩ :: stack)
  | .Key name :: rest, top :: stack =>
    match top.key with
    | some _ => none
    | none => written_value rest (⟨top.members, some name⟩ :: stack)
  | .String value :: rest, top :: stack =>
    match top.key with
    | none => none
    | some key => written_value rest (⟨top.members ++ [(key, .string value)], none⟩ :: stack)
  | .Int value :: rest, top :: stack =>
    match top.key with
    | none => none
    | some key => written_value rest (⟨top.members ++ [(key, .int value)], none⟩ :: stack)
  | .EndObject :: rest, top :: stack =>
    match top.key, stack with
    | some _, _ => none
    | none, [] => if rest.isEmpty then some (.object top.members) else none
    | none, parent :: stack =>
      match parent.key with
      | none => none
      | some key =>
        written_value rest (⟨parent.members ++ [(key, .object top.members)], none⟩ :: stack)
  | .Key _ :: _, [] => none
  | .String _ :: _, [] => none
  | .Int _ :: _, [] => none
  | .EndObject :: _, [] => none

/-- The argument `s.c_str()` as `Writer::String(const Ch*)` reads it: the
characters before the first NUL. -/
def c_str (s : String) : String := ⟨s.data.takeWhile fun c => c ≠ Char.ofNat 0⟩

/-- The function `EnlightenGanServer::Impl::make_response_body`: the calls it
makes on the writer; the string it returns is what the writer has written for
them. The result is `none` when `cv::imencode` raises: the call is left by the
exception. -/
def EnlightenGanServer.make_response_body (env : ResponseEnv) (task_id : String)
    (status : StatusCode) (model_output : std_enhancement_output) : Option (List WriterCall) :=
  let code : Int := env.status_value status
  let msg : String := if status = .OK then "success" else env.error_code_to_str code
  let calls : List WriterCall :=
    [ .StartObject,
      -- write req id
      .Key "req_id", .String (c_str task_id),
      -- write code
      .Key "code", .Int code,
      -- write msg
      .Key "msg", .String (c_str msg),
      -- write output
      .Key "data", .StartObject, .Key "enhance_result" ]
  if model_output.enhancement_result.empty then
    some (calls ++ [.String "", .EndObject, .EndObject])
  else
    match env.imencode_jpg model_output.enhancement_result with
    | none => none
    | some imencode_buffer =>
      let output_image_data := env.base64_encode imencode_buffer
      some (calls ++ [.String (c_str output_image_data), .EndObject, .EndObject])

/-! ## The worker pool -/

/-- Modelled from the spec: the Worker Pool of sections 3 and 4.1. The pool and
the request handling that uses it (`BaseAiServerImpl::serve_process`,
server/base_server_impl.h) are not among the sources. The pool is "a bounded,
concurrency-safe collection of pre-initialized Model Workers": the workers that
are available, and the workers that are checked out, each "exclusively owned by
at most one in-flight request", here named by a request id. -/
structure WorkerPool where
  available : List Worker
  checked_out : List (Nat × Worker)

/-- Modelled from the spec: what happens to the pool in the course of request
cycles (sections 4.1 and 4.2; `serve_process` is not among the sources).
`acquire`: a request asks for a worker. `finish`: the request handling of a
request that holds a worker is left on one of its exit paths ("success,
pipeline failure, or unexpected fault"), with the model of its worker in the
state in which the run has left it. -/
inductive PoolEvent where
  | acquire (request : Nat)
  | finish (request : Nat) (model : EnlightenGan)

namespace WorkerPool

/-- Modelled from the spec: the pool "built once at server init" from the working
queue (the pool type is not among the sources): every worker is available. -/
def of_queue (working_queue : List Worker) : WorkerPool := ⟨working_queue, []⟩

/-- Modelled from the spec: `acquire(deadline) -> Worker | TimeoutError` of
section 4.1 (not among the sources): the request gets a worker that is
available, which is then checked out to it; when no worker is available up to
the deadline the result is `TimeoutError` (`none`) and the pool is as it was. -/
def acquire (pool : WorkerPool) (request : Nat) : WorkerPool × Option Worker :=
  match pool.available with
  | [] => (pool, none)
  | worker :: rest => (⟨rest, pool.checked_out ++ [(request, worker)]⟩, some worker)

/-- Modelled from the spec: `release(worker)` of section 4.1 (not among the
sources): it "unconditionally returns the worker to the pool". -/
def release (pool : WorkerPool) (worker : Worker) : WorkerPool :=
  { pool with available := pool.available ++ [worker] }

/-- The worker that a request holds, taken off the list of the workers that are
checked out; `none` when the request holds no worker. -/
def take_out (request : Nat) : List (Nat × Worker) → Option (Worker × List (Nat × Worker))
  | [] => none
  | (r, worker) :: rest =>
    if r = request then some (worker, rest)
    else
      match take_out request rest with
      | none => none
      | some (found, rest) => some (found, (r, worker) :: rest)

/-- Modelled from the spec: one step of the request lifecycle of section 4.2
("acquire worker ... run Segmentation Pipeline ... release worker on every
path"; `serve_process` is not among the sources). A request that asks for a
worker acquires one or times out; a request that holds a worker and leaves the
request handling, on whatever exit path, releases it. -/
def step (pool : WorkerPool) : PoolEvent → WorkerPool
  | .acquire request => (pool.acquire request).1
  | .finish request model =>
    match take_out request pool.checked_out with
    | none => pool
    | some (worker, rest) => release { pool with checked_out := rest } ⟨worker.name, model⟩

/-- Modelled from the spec: the pool after a sequence of steps of request cycles
(not among the sources). -/
def run (pool : WorkerPool) (events : List PoolEvent) : WorkerPool := events.foldl step pool

/-- The names of all the workers of the pool, available or checked out. -/
def worker_names (pool : WorkerPool) : List String :=
  pool.available.map Worker.name ++ pool.checked_out.map fun entry => entry.2.name

/-- Modelled from the spec: the request cycles of a sequence of steps that have
begun and not ended (`serve_process` is not among the sources). A cycle begins
when the request asks for a worker and ends when the request handling is left;
`pending` holds the requests whose cycle was under way before the sequence. A
sequence of request cycles, successful or failed, is a sequence after which no
cycle is under way. -/
def open_requests : List PoolEvent → List Nat → List Nat
  | [], pending => pending
  | .acquire request :: rest, pending => open_requests rest (request :: pending)
  | .finish request _ :: rest, pending => open_requests rest (pending.erase request)

end WorkerPool

/-- The part of the segmentor state that `init` fixes and the predict path only
reads: the two encoder shapes. -/
def SamSegmentor.model_shapes (st : SamSegmentor) : List Int × List Int :=
  (st._m_encoder_input_shape, st._m_encoder_output_shape)

/-- A call on the segmentor through its public functions of the predict path. -/
inductive SegmentorCall where
  | predict (input_image : Mat) (bboxes : List Rect) (predicted_masks : List Mat)
  | get_embedding (input_image : Mat) (image_embeddings : List Val)

/-- The state in which a sequence of calls leaves the segmentor. -/
def SamSegmentor.after_calls (ort : OrtBackend) (cv : CvOps) :
    SamSegmentor → List SegmentorCall → SamSegmentor
  | st, [] => st
  | st, .predict input_image bboxes predicted_masks :: rest =>
    after_calls ort cv (SamSegmentor.predict ort cv st input_image bboxes predicted_masks).state
      rest
  | st, .get_embedding input_image image_embeddings :: rest =>
    after_calls ort cv
      (SamSegmentor.get_embedding ort cv st input_image image_embeddings).state rest

/-! ## Example inputs -/

/-- Nearest-neighbour sampling, the resampling kernel of the examples. -/
def nearest_kernel (src : Mat) (dsize : Size) (row col ch : Int) : Val :=
  src.px (row * src.rows / dsize.height) (col * src.cols / dsize.width) ch

/-- Channel-major flattening of a matrix. -/
def chw_vec (m : Mat) : List Val :=
  (List.range (m.channels * m.rows * m.cols).toNat).map fun i =>
    m.px (((i : Int) / m.cols) % m.rows) ((i : Int) % m.cols) ((i : Int) / (m.rows * m.cols))

/-- The OpenCV side of the examples. -/
def example_cv : CvOps := ⟨nearest_kernel, nearest_kernel, chw_vec⟩

/-- A decoder set up for a 100 x 100 image and a 1024 x 1024 encoder. -/
def example_decoder : SamTrtDecoder :=
  { _m_device_memory := ⟨[], [], [], [], []⟩
    _m_point_coords_binding_dims := [1, 128, 2]
    _m_point_labels_binding_dims := [1, 128]
    context_point_coords_shape := [1, 128, 2]
    context_point_labels_shape := [1, 128]
    _m_max_decoder_point_counts := 128
    _m_ori_image_size := ⟨100, 100⟩
    _m_encoder_input_size := ⟨1024, 1024⟩
    _m_successfully_initialized := true
    device_log := [] }

/-- An embedding (shortened). -/
def example_embedding : List Val := [1, 2, 3, 4]

/-- Four candidate masks of one constant logit. -/
def constant_low_res (v : Val) : List Val := List.replicate (4 * 256 * 256) v

/-- Engine outputs of the examples: the logit is the first prompt coordinate
minus 20, the second and third candidates share the top confidence. -/
def example_outputs (inputs : EngineInputs) : EngineOutputs :=
  ⟨constant_low_res (inputs.memory.point_coords.headD 0 - 20), [1 / 5, 9 / 10, 9 / 10, 1 / 10]⟩

/-- A device on which every call succeeds. -/
def example_device : TrtBackend :=
  ⟨fun _ _ => true, fun inputs => some (example_outputs inputs), fun _ => true⟩

/-- A device whose engine run fails for the prompt that starts at x = 20. -/
def example_device_run_fault : TrtBackend :=
  ⟨fun _ _ => true,
    fun inputs =>
      if inputs.memory.point_coords.headD 0 = 20 then none else some (example_outputs inputs),
    fun _ => true⟩

/-- A device on which the upload of the embedding fails. -/
def example_device_upload_fault : TrtBackend :=
  ⟨fun slot _ => decide (slot ≠ .image_embeddings), fun inputs => some (example_outputs inputs),
    fun _ => true⟩

/-- Three box prompts. -/
def box1 : Rect2f := ⟨10, 10, 40, 40⟩

/-- The second box prompt. -/
def box2 : Rect2f := ⟨20, 20, 40, 40⟩

/-- The third box prompt. -/
def box3 : Rect2f := ⟨30, 30, 40, 40⟩

/-- Three point-set prompts. -/
def points1 : List Point2f := [⟨10, 10⟩, ⟨40, 40⟩]

/-- The second point-set prompt. -/
def points2 : List Point2f := [⟨20, 20⟩]

/-- The third point-set prompt. -/
def points3 : List Point2f := [⟨30, 30⟩, ⟨35, 30⟩, ⟨30, 35⟩]

/-- A segmentor with a 1024 x 1024 encoder, holding a 2 x 2 image. -/
def example_segmentor : SamSegmentor :=
  { _m_encoder_input_shape := [1, 3, 1024, 1024]
    _m_encoder_output_shape := [1, 256, 64, 64]
    _m_ori_image_size := ⟨2, 2⟩
    _m_successfully_init_model := true
    session_log := [] }

/-- Two candidate masks of extent 2 x 2: the first is negative everywhere, the
second positive everywhere. -/
def example_masks : Tensor := ⟨[-1, -1, -1, -1, 1, 1, 1, 1], [1, 2, 2, 2]⟩

/-- The confidences of the two candidates: the second is the larger. -/
def example_iou_predictions : Tensor := ⟨[1 / 10, 9 / 10], [1, 2]⟩

/-- The low-resolution output of the two candidates. -/
def example_low_res_masks : Tensor := ⟨List.replicate (2 * 256 * 256) 0, [1, 2, 256, 256]⟩

/-- The decoder outputs of the examples. -/
def example_decoder_outputs : DecoderOutputs :=
  ⟨example_masks, example_iou_predictions, example_low_res_masks⟩

/-- The encoder output of the examples. -/
def example_encoder_outputs : List OrtValue :=
  [⟨true, ⟨List.replicate (256 * 64 * 64) 0, [1, 256, 64, 64]⟩⟩]

/-- Sessions on which every call succeeds. -/
def example_sessions : OrtBackend :=
  ⟨fun _ _ => true, fun _ => some example_encoder_outputs, fun _ => some example_decoder_outputs⟩

/-- Sessions on which the point tensor of the prompt that starts at x = 20
cannot be created. -/
def example_sessions_tensor_fault : OrtBackend :=
  ⟨fun data _ => decide (data.headD 0 ≠ 20), fun _ => some example_encoder_outputs,
    fun _ => some example_decoder_outputs⟩

/-- A point-set prompt of 128 points. -/
def points128 : List Point2f := List.replicate 128 ⟨1, 1⟩

/-- An image of the given extent and channel count, of one grey level. -/
def grey_image (rows cols channels : Int) : Mat := ⟨rows, cols, channels, fun _ _ _ => 128⟩

/-- An initialized enhancement model whose session has the input size 16 x 16. -/
def example_enlightengan : EnlightenGan :=
  { _m_input_size_host := ⟨16, 16⟩, _m_successfully_initialized := true }

/-- An MNN session whose output tensor repeats its `input_src` tensor. -/
def example_mnn : MnnBackend := ⟨fun _ input_src _ => input_src⟩

/-- A model section that names a model file, to be run on the CPU with 4 threads. -/
def cpu_section (path : String) : ModelSection :=
  { model_file_path := some path, compute_backend := some "cpu", gpu_device_id := none,
    model_threads_num := some 4 }

/-- A loader for which every file exists; the model "encoder_rank3.onnx" has an
input of rank 3, every other model an input and an output of rank 4. -/
def example_loader : OrtLoader :=
  { is_file_exist := fun _ => true
    create_session := fun path _ =>
      if path = "encoder_rank3.onnx" then some ⟨1, 1, [3, 1024, 1024], [1, 256, 64, 64]⟩
      else some ⟨1, 1, [1, 3, 1024, 1024], [1, 256, 64, 64]⟩ }

/-- A segmentor as constructed: nothing loaded, the flag cleared. -/
def fresh_segmentor : SamSegmentor :=
  { _m_encoder_input_shape := [], _m_encoder_output_shape := [], _m_ori_image_size := ⟨0, 0⟩,
    session_log := [] }

/-- A file system and an MNN for which every model file loads, with a session
input of 16 x 16. -/
def example_mnn_loader : MnnLoader :=
  { is_file_exist := fun _ => true
    createFromFile := fun _ => true
    createSession := fun _ _ => true
    input_src := fun _ => some ⟨16, 16⟩
    input_gray := fun _ => true
    output := fun _ => true }

/-- A model configuration that names a model file. -/
def example_model_config : EnlightenGanConfig :=
  ⟨some { model_threads_num := some 4, model_file_path := some "enlightengan.mnn",
          compute_backend := some "cpu", backend_precision_mode := none,
          backend_power_mode := none }⟩

/-- An environment in which every worker is created fresh and initializes. -/
def example_server_env : ServerEnv :=
  { loader := example_mnn_loader
    parse := fun _ => some example_model_config
    create_enlightengan_enhancementor := fun _ => {} }

/-- A server configuration with all the keys `init` reads, for the given worker
count and, when given, run timeout. -/
def server_config (worker_nums : Int) (model_run_timeout : Option Int) : ServerConfig :=
  { ENLIGHTEN_GAN_SERVER := some
      { worker_nums := some worker_nums, model_run_timeout := model_run_timeout,
        server_url := some "/enlighten_gan", max_connections := some 200,
        peer_resp_timeout := some 30, compute_threads := some 4, handler_threads := some 50 }
    ENLIGHTEN_GAN := some ⟨some "enlightengan.toml"⟩ }

/-- A server as constructed: nothing enqueued, the flag cleared. -/
def fresh_server : EnlightenGanServer :=
  { _m_working_queue := [], _m_model_run_timeout := 0, _m_server_uri := "",
    max_connection_nums := 0, peer_resp_timeout := 0, compute_threads := 0,
    handler_threads := 0, _m_successfully_initialized := false }

/-- Status values with `OK` = 0, messages that name the code, an encoder that
writes a two-byte stub and a transport encoding that is empty for no bytes only. -/
def example_response_env : ResponseEnv :=
  { status_value := fun status =>
      match status with
      | .OK => 0
      | .MODEL_INIT_FAILED => 1
      | .MODEL_EMPTY_INPUT_IMAGE => 2
      | .MODEL_RUN_SESSION_FAILED => 3
      | .SERVER_INIT_FAILED => 4
    error_code_to_str := fun code => "error " ++ toString code
    imencode_jpg := fun _ => some [255, 216]
    base64_encode := fun bytes => if bytes.isEmpty then "" else "/9g=" }

/-- A 2 x 2 image in BGR order of one colour: blue 10, green 20, red 30. -/
def example_bgr_image : Mat := ⟨2, 2, 3, fun _ _ ch => scalar3 10 20 30 ch⟩

/-! ## Truncation and scaling in exact arithmetic -/

theorem trunc_intCast (z : Int) : trunc (z : Val) = z := by
  unfold trunc
  split <;> simp

theorem trunc_of_nonneg (q : Val) (h : 0 ≤ q) : trunc q = ⌊q⌋ := by
  unfold trunc
  rw [if_pos h]

/-- In exact arithmetic a scaled side lies between 0 and the encoder edge. -/
theorem scaled_side_bounds (E L s : Int) (hE : 0 ≤ E) (hL : 1 ≤ L) (hs0 : 0 ≤ s) (hs : s ≤ L) :
    0 ≤ trunc ((E : Val) / (L : Val) * (s : Val)) ∧
    trunc ((E : Val) / (L : Val) * (s : Val)) ≤ E := by
  have hLpos : (0 : Val) < (L : Val) := by exact_mod_cast (by omega : (0 : Int) < L)
  have hE' : (0 : Val) ≤ (E : Val) := by exact_mod_cast hE
  have hs0' : (0 : Val) ≤ (s : Val) := by exact_mod_cast hs0
  have hs' : (s : Val) ≤ (L : Val) := by exact_mod_cast hs
  have hq0 : 0 ≤ (E : Val) / (L : Val) * (s : Val) :=
    mul_nonneg (div_nonneg hE' (le_of_lt hLpos)) hs0'
  have hqE : (E : Val) / (L : Val) * (s : Val) ≤ (E : Val) := by
    rw [div_mul_eq_mul_div, div_le_iff₀ hLpos]
    exact mul_le_mul_of_nonneg_left hs' hE'
  rw [trunc_of_nonneg _ hq0]
  refine ⟨Int.floor_nonneg.mpr hq0, ?_⟩
  have : ((⌊(E : Val) / (L : Val) * (s : Val)⌋ : Int) : Val) ≤ (E : Val) :=
    le_trans (Int.floor_le _) hqE
  exact_mod_cast this


/-! ## Frame and loop lemmas for SamTrtDecoder -/

namespace SamTrtDecoder

theorem view_issue (st : SamTrtDecoder) (op : DeviceOp) : view (st.issue op) = view st := rfl

theorem view_store (st : SamTrtDecoder) (slot : Slot) (data : List Val)
    (h : slot ≠ .image_embeddings) : view (st.store slot data) = view st := by
  cases slot <;> first | rfl | exact absurd rfl h

theorem view_set_point_shapes (st : SamTrtDecoder) (a b : List Int) :
    view (set_point_shapes st a b) = view st := rfl

theorem view_set_tensor_addresses (st : SamTrtDecoder) :
    view (set_tensor_addresses st) = view st := by
  unfold set_tensor_addresses
  simp only [view_issue]

theorem engine_inputs_issue (st : SamTrtDecoder) (op : DeviceOp) :
    engine_inputs (st.issue op) = engine_inputs st := rfl

theorem engine_inputs_set_tensor_addresses (st : SamTrtDecoder) :
    engine_inputs (set_tensor_addresses st) = engine_inputs st := by
  unfold set_tensor_addresses
  simp only [engine_inputs_issue]

theorem engine_inputs_store (st : SamTrtDecoder) (slot : Slot) (data : List Val) :
    engine_inputs (st.store slot data) =
      ⟨(engine_inputs st).memory.write slot data, (engine_inputs st).point_coords_shape,
        (engine_inputs st).point_labels_shape⟩ := rfl

theorem engine_inputs_set_point_shapes (st : SamTrtDecoder) (a b : List Int) :
    engine_inputs (set_point_shapes st a b) = ⟨(engine_inputs st).memory, a, b⟩ := rfl

theorem decode_output_mask_congr (cv : CvOps) (st st' : SamTrtDecoder) (h : view st = view st')
    (lr : List Val) (i : Int) : decode_output_mask cv st lr i = decode_output_mask cv st' lr i := by
  simp only [view, Prod.mk.injEq] at h
  obtain ⟨_, h2, h3⟩ := h
  simp only [decode_output_mask, crop_geometry, h2, h3]

theorem parse_output_mask_state (cv : CvOps) (st : SamTrtDecoder) (lr iou : List Val) (om : Mat) :
    (parse_output_mask cv st lr iou om).state = st := by
  unfold parse_output_mask
  dsimp only
  split <;> rfl

theorem parse_output_mask_congr (cv : CvOps) (st st' : SamTrtDecoder) (h : view st = view st')
    (lr iou : List Val) (om : Mat) :
    (parse_output_mask cv st lr iou om).completion = (parse_output_mask cv st' lr iou om).completion ∧
    (parse_output_mask cv st lr iou om).out = (parse_output_mask cv st' lr iou om).out := by
  unfold parse_output_mask
  dsimp only
  rw [decode_output_mask_congr cv st st' h]
  split <;> exact ⟨rfl, rfl⟩

theorem do_inference_view (dev : TrtBackend) (cv : CvOps) (st : SamTrtDecoder) (om : Mat) :
    view (do_inference dev cv st om).state = view st := by
  unfold do_inference
  dsimp only
  split
  · simp only [view_issue, view_set_tensor_addresses]
  · split
    · simp only [view_issue, view_set_tensor_addresses]
    · split
      · simp only [view_issue, view_set_tensor_addresses]
      · simp only [parse_output_mask_state, view_issue, view_set_tensor_addresses]

theorem do_inference_congr (dev : TrtBackend) (cv : CvOps) (st st' : SamTrtDecoder)
    (hv : view st = view st') (he : engine_inputs st = engine_inputs st') (om : Mat) :
    (do_inference dev cv st om).completion = (do_inference dev cv st' om).completion ∧
    (do_inference dev cv st om).out = (do_inference dev cv st' om).out := by
  unfold do_inference
  dsimp only
  rw [engine_inputs_set_tensor_addresses, engine_inputs_set_tensor_addresses, he]
  split
  · exact ⟨rfl, rfl⟩
  · split
    · exact ⟨rfl, rfl⟩
    · split
      · exact ⟨rfl, rfl⟩
      · apply parse_output_mask_congr
        simp only [view_issue, view_set_tensor_addresses, hv]

theorem copy_mask_inputs_view (dev : TrtBackend) (cv : CvOps) (st : SamTrtDecoder) (om : Mat) :
    view (copy_mask_inputs dev cv st om).state = view st := by
  unfold copy_mask_inputs
  dsimp only
  split
  · rfl
  · split
    · rw [view_issue, view_store _ _ _ (by decide), view_issue]
    · rw [do_inference_view, view_store _ _ _ (by decide), view_issue,
        view_store _ _ _ (by decide), view_issue]

theorem copy_mask_inputs_congr (dev : TrtBackend) (cv : CvOps) (st st' : SamTrtDecoder)
    (hv : view st = view st')
    (hc : st._m_device_memory.point_coords = st'._m_device_memory.point_coords)
    (hl : st._m_device_memory.point_labels = st'._m_device_memory.point_labels)
    (hcs : st.context_point_coords_shape = st'.context_point_coords_shape)
    (hls : st.context_point_labels_shape = st'.context_point_labels_shape) (om : Mat) :
    (copy_mask_inputs dev cv st om).completion = (copy_mask_inputs dev cv st' om).completion ∧
    (copy_mask_inputs dev cv st om).out = (copy_mask_inputs dev cv st' om).out := by
  unfold copy_mask_inputs
  dsimp only
  split
  · exact ⟨rfl, rfl⟩
  · split
    · exact ⟨rfl, rfl⟩
    · apply do_inference_congr
      · rw [view_store _ _ _ (by decide), view_issue, view_store _ _ _ (by decide), view_issue,
          view_store _ _ _ (by decide), view_issue, view_store _ _ _ (by decide), view_issue, hv]
      · simp only [view, Prod.mk.injEq] at hv
        simp only [engine_inputs_store, engine_inputs_issue]
        simp only [engine_inputs, DeviceMemory.write, hv.1, hc, hl, hcs, hls]

theorem get_mask_view (dev : TrtBackend) (cv : CvOps) (st : SamTrtDecoder)
    (pc : List Point2f) (pl : List Val) (om : Mat) :
    view (get_mask dev cv st pc pl om).state = view st := by
  unfold get_mask
  dsimp only
  split
  · rfl
  · split
    · rw [view_issue, view_store _ _ _ (by decide), view_issue, view_set_point_shapes]
    · rw [copy_mask_inputs_view, view_store _ _ _ (by decide), view_issue,
        view_store _ _ _ (by decide), view_issue, view_set_point_shapes]

theorem get_mask_congr (dev : TrtBackend) (cv : CvOps) (st st' : SamTrtDecoder)
    (hv : view st = view st') (pc : List Point2f) (pl : List Val) (om : Mat) :
    (get_mask dev cv st pc pl om).completion = (get_mask dev cv st' pc pl om).completion ∧
    (get_mask dev cv st pc pl om).out = (get_mask dev cv st' pc pl om).out := by
  unfold get_mask
  dsimp only
  split
  · exact ⟨rfl, rfl⟩
  · split
    · exact ⟨rfl, rfl⟩
    · apply copy_mask_inputs_congr
      · rw [view_store _ _ _ (by decide), view_issue, view_store _ _ _ (by decide), view_issue,
          view_set_point_shapes, view_store _ _ _ (by decide), view_issue,
          view_store _ _ _ (by decide), view_issue, view_set_point_shapes, hv]
      all_goals rfl


theorem decode_output_mask_size (cv : CvOps) (st : SamTrtDecoder) (lr : List Val) (i : Int)
    (m : Mat) (h : decode_output_mask cv st lr i = some m) :
    m.cols = st._m_ori_image_size.width ∧ m.rows = st._m_ori_image_size.height := by
  unfold decode_output_mask at h
  dsimp only at h
  split at h
  · exact absurd h (by simp)
  · split at h
    · exact absurd h (by simp)
    · split at h
      · exact absurd h (by simp)
      · cases h
        exact ⟨rfl, rfl⟩

theorem parse_output_mask_size (cv : CvOps) (st : SamTrtDecoder) (lr iou : List Val) (om : Mat)
    (h : (parse_output_mask cv st lr iou om).completion = .returned .OK) :
    (parse_output_mask cv st lr iou om).out.cols = st._m_ori_image_size.width ∧
    (parse_output_mask cv st lr iou om).out.rows = st._m_ori_image_size.height := by
  unfold parse_output_mask at h ⊢
  dsimp only at h ⊢
  split at h
  · exact absurd h (by simp)
  · rename_i o_mask heq
    exact decode_output_mask_size cv st lr _ o_mask heq

theorem ori_of_view (st st' : SamTrtDecoder) (h : view st = view st') :
    st._m_ori_image_size = st'._m_ori_image_size := by
  simp only [view, Prod.mk.injEq] at h
  exact h.2.1

theorem do_inference_size (dev : TrtBackend) (cv : CvOps) (st : SamTrtDecoder) (om : Mat)
    (h : (do_inference dev cv st om).completion = .returned .OK) :
    (do_inference dev cv st om).out.cols = st._m_ori_image_size.width ∧
    (do_inference dev cv st om).out.rows = st._m_ori_image_size.height := by
  unfold do_inference at h ⊢
  dsimp only at h ⊢
  split at h
  · exact absurd h (by simp)
  · split at h
    · exact absurd h (by simp)
    · split at h
      · exact absurd h (by simp)
      · rename_i outputs heq h1 h2
        simp only [heq, h1, h2, if_false]
        have := parse_output_mask_size _ _ _ _ _ h
        rw [ori_of_view _ st (by simp only [view_issue, view_set_tensor_addresses])] at this
        exact this


theorem copy_mask_inputs_size (dev : TrtBackend) (cv : CvOps) (st : SamTrtDecoder) (om : Mat)
    (h : (copy_mask_inputs dev cv st om).completion = .returned .OK) :
    (copy_mask_inputs dev cv st om).out.cols = st._m_ori_image_size.width ∧
    (copy_mask_inputs dev cv st om).out.rows = st._m_ori_image_size.height := by
  unfold copy_mask_inputs at h ⊢
  dsimp only at h ⊢
  split at h
  · exact absurd h (by simp)
  · split at h
    · exact absurd h (by simp)
    · rename_i h1 h2
      rw [if_neg h1, if_neg h2]
      have := do_inference_size _ _ _ _ h
      rw [ori_of_view _ st (by
        rw [view_store _ _ _ (by decide), view_issue, view_store _ _ _ (by decide),
          view_issue])] at this
      exact this

theorem get_mask_size (dev : TrtBackend) (cv : CvOps) (st : SamTrtDecoder)
    (pc : List Point2f) (pl : List Val) (om : Mat)
    (h : (get_mask dev cv st pc pl om).completion = .returned .OK) :
    (get_mask dev cv st pc pl om).out.cols = st._m_ori_image_size.width ∧
    (get_mask dev cv st pc pl om).out.rows = st._m_ori_image_size.height := by
  unfold get_mask at h ⊢
  dsimp only at h ⊢
  split at h
  · exact absurd h (by simp)
  · split at h
    · exact absurd h (by simp)
    · rename_i h1 h2
      rw [if_neg h1, if_neg h2]
      have := copy_mask_inputs_size _ _ _ _ h
      rw [ori_of_view _ st (by
        rw [view_store _ _ _ (by decide), view_issue, view_store _ _ _ (by decide),
          view_issue, view_set_point_shapes])] at this
      exact this

theorem decode_bboxes_loop_ok (dev : TrtBackend) (cv : CvOps) (st0 : SamTrtDecoder) :
    ∀ (bboxes : List Rect2f) (st : SamTrtDecoder) (prior : List Mat), view st = view st0 →
      (∀ b ∈ bboxes, (get_mask dev cv st0 (bbox_point_coords b) bbox_point_labels
        Mat.empty_mat).completion = .returned .OK) →
      (decode_bboxes_loop dev cv st bboxes prior).completion = .returned .OK ∧
      (decode_bboxes_loop dev cv st bboxes prior).out =
        prior ++ bboxes.map fun b =>
          (get_mask dev cv st0 (bbox_point_coords b) bbox_point_labels Mat.empty_mat).out := by
  intro bboxes
  induction bboxes with
  | nil => intro st prior _ _; simp [decode_bboxes_loop]
  | cons b rest ih =>
    intro st prior hv hok
    have hb := hok b (List.mem_cons_self _ _)
    obtain ⟨hc, ho⟩ := get_mask_congr dev cv st st0 hv (bbox_point_coords b) bbox_point_labels
      Mat.empty_mat
    have hv' := (get_mask_view dev cv st (bbox_point_coords b) bbox_point_labels
      Mat.empty_mat).trans hv
    have := ih _ (prior ++ [(get_mask dev cv st (bbox_point_coords b) bbox_point_labels
      Mat.empty_mat).out]) hv' (fun b' hb' => hok b' (List.mem_cons_of_mem _ hb'))
    simp only [decode_bboxes_loop, hc, hb, ne_eq, not_true_eq_false, if_false]
    rw [this.1, this.2, ho]
    simp

theorem decode_bboxes_loop_fail (dev : TrtBackend) (cv : CvOps) (st0 : SamTrtDecoder)
    (k : Rect2f) (post : List Rect2f) (s : StatusCode) (hs : s ≠ .OK)
    (hk : (get_mask dev cv st0 (bbox_point_coords k) bbox_point_labels
        Mat.empty_mat).completion = .returned s) :
    ∀ (pre : List Rect2f) (st : SamTrtDecoder) (prior : List Mat), view st = view st0 →
      (∀ b ∈ pre, (get_mask dev cv st0 (bbox_point_coords b) bbox_point_labels
        Mat.empty_mat).completion = .returned .OK) →
      (decode_bboxes_loop dev cv st (pre ++ k :: post) prior).completion = .returned s ∧
      (decode_bboxes_loop dev cv st (pre ++ k :: post) prior).out =
        prior ++ pre.map fun b =>
          (get_mask dev cv st0 (bbox_point_coords b) bbox_point_labels Mat.empty_mat).out := by
  intro pre
  induction pre with
  | nil =>
    intro st prior hv _
    obtain ⟨hc, -⟩ := get_mask_congr dev cv st st0 hv (bbox_point_coords k) bbox_point_labels
      Mat.empty_mat
    simp [decode_bboxes_loop, hc, hk, hs]
  | cons b rest ih =>
    intro st prior hv hok
    have hb := hok b (List.mem_cons_self _ _)
    obtain ⟨hc, ho⟩ := get_mask_congr dev cv st st0 hv (bbox_point_coords b) bbox_point_labels
      Mat.empty_mat
    have hv' := (get_mask_view dev cv st (bbox_point_coords b) bbox_point_labels
      Mat.empty_mat).trans hv
    have := ih _ (prior ++ [(get_mask dev cv st (bbox_point_coords b) bbox_point_labels
      Mat.empty_mat).out]) hv' (fun b' hb' => hok b' (List.mem_cons_of_mem _ hb'))
    simp only [List.cons_append, decode_bboxes_loop, hc, hb, ne_eq, not_true_eq_false, if_false]
    refine ⟨this.1, this.2.trans ?_⟩
    rw [ho]
    simp


theorem engine_calls_append (a b : List DeviceOp) :
    engine_calls (a ++ b) = engine_calls a ++ engine_calls b := by
  induction a with
  | nil => rfl
  | cons op rest ih => cases op <;> simp [engine_calls, ih]

theorem log_issue (st : SamTrtDecoder) (op : DeviceOp) :
    (st.issue op).device_log = st.device_log ++ [op] := rfl

theorem log_store (st : SamTrtDecoder) (slot : Slot) (data : List Val) :
    (st.store slot data).device_log = st.device_log := rfl

theorem log_set_point_shapes (st : SamTrtDecoder) (a b : List Int) :
    (set_point_shapes st a b).device_log =
      st.device_log ++ [.setInputShape .point_coords a, .setInputShape .point_labels b] := by
  simp [set_point_shapes, issue]

theorem log_set_tensor_addresses (st : SamTrtDecoder) :
    (set_tensor_addresses st).device_log = st.device_log ++
      [.setTensorAddress .image_embeddings, .setTensorAddress .point_coords,
       .setTensorAddress .point_labels, .setTensorAddress .mask_input,
       .setTensorAddress .has_mask_input, .setTensorAddress .low_res_masks,
       .setTensorAddress .iou_predictions] := by
  simp [set_tensor_addresses, issue]

/-- With both point copies successful, `get_mask` continues in a state that
holds the prompt of this call. -/
theorem get_mask_reaches_copy_mask_inputs (dev : TrtBackend) (cv : CvOps) (st : SamTrtDecoder)
    (pc : List Point2f) (pl : List Val) (om : Mat)
    (h1 : dev.memcpyH2D_ok .point_coords (total_points pc) = true)
    (h2 : dev.memcpyH2D_ok .point_labels (total_labels pl) = true) :
    ∃ st1, get_mask dev cv st pc pl om = copy_mask_inputs dev cv st1 om ∧ view st1 = view st ∧
      engine_calls st1.device_log = engine_calls st.device_log ∧
      (engine_inputs st1).memory.point_coords = total_points pc ∧
      (engine_inputs st1).memory.point_labels = total_labels pl ∧
      (engine_inputs st1).point_coords_shape =
        [1, (((total_points pc).length / 2 : Nat) : Int), 2] ∧
      (engine_inputs st1).point_labels_shape = [1, ((total_labels pl).length : Int)] := by
  unfold get_mask
  dsimp only
  rw [if_neg (by simp [h1]), if_neg (by simp [h2])]
  refine ⟨_, rfl, ?_, ?_, rfl, rfl, rfl, rfl⟩
  · rw [view_store _ _ _ (by decide), view_issue, view_store _ _ _ (by decide), view_issue,
      view_set_point_shapes]
  · simp [log_store, log_issue, log_set_point_shapes, engine_calls_append, engine_calls]

/-- With both prior copies successful, `copy_mask_inputs` continues with
inference in a state whose device memory holds the zeroed prior and flag. -/
theorem copy_mask_inputs_reaches_do_inference (dev : TrtBackend) (cv : CvOps)
    (st : SamTrtDecoder) (om : Mat)
    (h3 : dev.memcpyH2D_ok .mask_input mask_tensor_values = true)
    (h4 : dev.memcpyH2D_ok .has_mask_input has_mask_tensor_values = true) :
    ∃ st2, copy_mask_inputs dev cv st om = do_inference dev cv st2 om ∧ view st2 = view st ∧
      engine_calls st2.device_log = engine_calls st.device_log ∧
      engine_inputs st2 =
        ⟨⟨(engine_inputs st).memory.image_embeddings, (engine_inputs st).memory.point_coords,
            (engine_inputs st).memory.point_labels, mask_tensor_values, has_mask_tensor_values⟩,
          (engine_inputs st).point_coords_shape, (engine_inputs st).point_labels_shape⟩ := by
  unfold copy_mask_inputs
  dsimp only
  rw [if_neg (by simp [h3]), if_neg (by simp [h4])]
  refine ⟨_, rfl, ?_, ?_, rfl⟩
  · rw [view_store _ _ _ (by decide), view_issue, view_store _ _ _ (by decide), view_issue]
  · simp [log_store, log_issue, engine_calls_append, engine_calls]

/-- Once the four input copies have succeeded, `get_mask` is `do_inference` in a
state in which the engine faces `prompt_inputs`. -/
theorem get_mask_reaches_do_inference (dev : TrtBackend) (cv : CvOps) (st : SamTrtDecoder)
    (pc : List Point2f) (pl : List Val) (om : Mat)
    (h1 : dev.memcpyH2D_ok .point_coords (total_points pc) = true)
    (h2 : dev.memcpyH2D_ok .point_labels (total_labels pl) = true)
    (h3 : dev.memcpyH2D_ok .mask_input mask_tensor_values = true)
    (h4 : dev.memcpyH2D_ok .has_mask_input has_mask_tensor_values = true) :
    ∃ st2, get_mask dev cv st pc pl om = do_inference dev cv st2 om ∧ view st2 = view st ∧
      engine_calls st2.device_log = engine_calls st.device_log ∧
      engine_inputs st2 = prompt_inputs st._m_device_memory.image_embeddings pc pl := by
  obtain ⟨st1, e1, v1, l1, a, b, c, d⟩ := get_mask_reaches_copy_mask_inputs dev cv st pc pl om h1 h2
  obtain ⟨st2, e2, v2, l2, i2⟩ := copy_mask_inputs_reaches_do_inference dev cv st1 om h3 h4
  refine ⟨st2, e1.trans e2, v2.trans v1, l2.trans l1, ?_⟩
  rw [i2, a, b, c, d]
  have : (engine_inputs st1).memory.image_embeddings = st._m_device_memory.image_embeddings := by
    have := congrArg Prod.fst v1
    exact this
  rw [this]
  rfl


theorem do_inference_engine_calls (dev : TrtBackend) (cv : CvOps) (st : SamTrtDecoder)
    (om : Mat) :
    engine_calls (do_inference dev cv st om).state.device_log =
      engine_calls st.device_log ++ [engine_inputs st] := by
  unfold do_inference
  dsimp only
  rw [engine_inputs_set_tensor_addresses]
  split
  · simp [log_issue, log_set_tensor_addresses, engine_calls_append, engine_calls]
  · split
    · simp [log_issue, log_set_tensor_addresses, engine_calls_append, engine_calls]
    · split
      · simp [log_issue, log_set_tensor_addresses, engine_calls_append, engine_calls]
      · rw [parse_output_mask_state]
        simp [log_issue, log_set_tensor_addresses, engine_calls_append, engine_calls]

theorem do_inference_of_ok (dev : TrtBackend) (cv : CvOps) (st : SamTrtDecoder) (om : Mat)
    (o : EngineOutputs) (he : dev.enqueueV3 (engine_inputs st) = some o)
    (h6 : dev.memcpyD2H_ok .low_res_masks = true)
    (h7 : dev.memcpyD2H_ok .iou_predictions = true) :
    (do_inference dev cv st om).completion =
      (parse_output_mask cv st o.low_res_masks o.iou_predictions om).completion ∧
    (do_inference dev cv st om).out =
      (parse_output_mask cv st o.low_res_masks o.iou_predictions om).out := by
  unfold do_inference
  dsimp only
  rw [engine_inputs_set_tensor_addresses, he]
  dsimp only
  rw [if_neg (by simp [h6]), if_neg (by simp [h7])]
  apply parse_output_mask_congr
  simp only [view_issue, view_set_tensor_addresses]

theorem do_inference_of_fault (dev : TrtBackend) (cv : CvOps) (st : SamTrtDecoder) (om : Mat)
    (he : dev.enqueueV3 (engine_inputs st) = none) :
    (do_inference dev cv st om).completion = .returned .MODEL_RUN_SESSION_FAILED ∧
    (do_inference dev cv st om).out = om := by
  unfold do_inference
  dsimp only
  rw [engine_inputs_set_tensor_addresses, he]
  exact ⟨rfl, rfl⟩

theorem get_mask_engine_calls (dev : TrtBackend) (cv : CvOps) (st : SamTrtDecoder)
    (pc : List Point2f) (pl : List Val) (om : Mat)
    (h1 : dev.memcpyH2D_ok .point_coords (total_points pc) = true)
    (h2 : dev.memcpyH2D_ok .point_labels (total_labels pl) = true)
    (h3 : dev.memcpyH2D_ok .mask_input mask_tensor_values = true)
    (h4 : dev.memcpyH2D_ok .has_mask_input has_mask_tensor_values = true) :
    engine_calls (get_mask dev cv st pc pl om).state.device_log =
      engine_calls st.device_log ++ [prompt_inputs st._m_device_memory.image_embeddings pc pl] := by
  obtain ⟨st2, e, -, l, i⟩ := get_mask_reaches_do_inference dev cv st pc pl om h1 h2 h3 h4
  rw [e, do_inference_engine_calls, l, i]

theorem get_mask_of_ok (dev : TrtBackend) (cv : CvOps) (st : SamTrtDecoder)
    (pc : List Point2f) (pl : List Val) (om : Mat) (o : EngineOutputs)
    (h1 : dev.memcpyH2D_ok .point_coords (total_points pc) = true)
    (h2 : dev.memcpyH2D_ok .point_labels (total_labels pl) = true)
    (h3 : dev.memcpyH2D_ok .mask_input mask_tensor_values = true)
    (h4 : dev.memcpyH2D_ok .has_mask_input has_mask_tensor_values = true)
    (he : dev.enqueueV3 (prompt_inputs st._m_device_memory.image_embeddings pc pl) = some o)
    (h6 : dev.memcpyD2H_ok .low_res_masks = true)
    (h7 : dev.memcpyD2H_ok .iou_predictions = true) :
    (get_mask dev cv st pc pl om).completion =
      (parse_output_mask cv st o.low_res_masks o.iou_predictions om).completion ∧
    (get_mask dev cv st pc pl om).out =
      (parse_output_mask cv st o.low_res_masks o.iou_predictions om).out := by
  obtain ⟨st2, e, v, -, i⟩ := get_mask_reaches_do_inference dev cv st pc pl om h1 h2 h3 h4
  rw [e]
  obtain ⟨c1, c2⟩ := do_inference_of_ok dev cv st2 om o (by rw [i]; exact he) h6 h7
  obtain ⟨p1, p2⟩ := parse_output_mask_congr cv st2 st v o.low_res_masks o.iou_predictions om
  exact ⟨c1.trans p1, c2.trans p2⟩

theorem get_mask_of_fault (dev : TrtBackend) (cv : CvOps) (st : SamTrtDecoder)
    (pc : List Point2f) (pl : List Val) (om : Mat)
    (h1 : dev.memcpyH2D_ok .point_coords (total_points pc) = true)
    (h2 : dev.memcpyH2D_ok .point_labels (total_labels pl) = true)
    (h3 : dev.memcpyH2D_ok .mask_input mask_tensor_values = true)
    (h4 : dev.memcpyH2D_ok .has_mask_input has_mask_tensor_values = true)
    (he : dev.enqueueV3 (prompt_inputs st._m_device_memory.image_embeddings pc pl) = none) :
    (get_mask dev cv st pc pl om).completion = .returned .MODEL_RUN_SESSION_FAILED ∧
    (get_mask dev cv st pc pl om).out = om := by
  obtain ⟨st2, e, -, -, i⟩ := get_mask_reaches_do_inference dev cv st pc pl om h1 h2 h3 h4
  rw [e]
  exact do_inference_of_fault dev cv st2 om (by rw [i]; exact he)


theorem parse_output_mask_of_some (cv : CvOps) (st : SamTrtDecoder) (lr iou : List Val)
    (om m : Mat) (h : decode_output_mask cv st lr ((max_element iou : Nat) : Int) = some m) :
    (parse_output_mask cv st lr iou om).completion = .returned .OK ∧
    (parse_output_mask cv st lr iou om).out = m := by
  unfold parse_output_mask
  dsimp only
  rw [h]
  exact ⟨rfl, rfl⟩

theorem crop_geometry_example (st : SamTrtDecoder) (h1 : st._m_ori_image_size = ⟨100, 100⟩)
    (h2 : st._m_encoder_input_size = ⟨1024, 1024⟩) :
    crop_geometry st = ⟨1024 / 100, ⟨1024, 1024⟩, 0, 0, ⟨0, 0, 1024, 1024⟩⟩ := by
  have h : ((1024 : Int) : Val) / ((100 : Int) : Val) * ((100 : Int) : Val) =
      ((1024 : Int) : Val) := by norm_num
  simp only [crop_geometry, h1, h2, max_self, h, trunc_intCast]
  norm_num

theorem decode_output_mask_example (st : SamTrtDecoder) (h1 : st._m_ori_image_size = ⟨100, 100⟩)
    (h2 : st._m_encoder_input_size = ⟨1024, 1024⟩) (lr : List Val) (i : Int) :
    ∃ m, decode_output_mask example_cv st lr i = some m ∧
      m.px 0 0 0 = if lr.getD (low_res_index i 0 0).toNat 0 > 0 then 255 else 0 := by
  unfold decode_output_mask
  rw [crop_geometry_example st h1 h2]
  simp [cv_resize, Mat.empty, Mat.roi, h1, h2, example_cv, nearest_kernel]

end SamTrtDecoder

/-! ## Frame and loop lemmas for SamSegmentor -/

namespace SamSegmentor

theorem seg_view_issue (st : SamSegmentor) (c : SessionCall) : view (st.issue c) = view st := rfl

theorem read_output_mask_congr (cv : CvOps) (st st' : SamSegmentor) (h : view st = view st')
    (masks : Tensor) : read_output_mask cv st masks = read_output_mask cv st' masks := by
  simp only [view, Prod.mk.injEq] at h
  simp only [read_output_mask, h.2]

theorem read_output_mask_size (cv : CvOps) (st : SamSegmentor) (masks : Tensor) (m : Mat)
    (h : read_output_mask cv st masks = some m) :
    m.cols = st._m_ori_image_size.width ∧ m.rows = st._m_ori_image_size.height := by
  unfold read_output_mask at h
  dsimp only at h
  split at h
  · exact absurd h (by simp)
  · split at h
    · unfold cv_resize at h
      split at h
      · exact absurd h (by simp)
      · cases h
        exact ⟨rfl, rfl⟩
    · rename_i hsz
      cases h
      have hsz' := not_not.mp hsz
      exact ⟨congrArg Size.width hsz', congrArg Size.height hsz'⟩

theorem run_decoder_view (ort : OrtBackend) (cv : CvOps) (st : SamSegmentor)
    (inputs : List Tensor) (om : Mat) : view (run_decoder ort cv st inputs om).state = view st := by
  unfold run_decoder
  dsimp only
  split
  · rfl
  · split <;> rfl

theorem run_decoder_congr (ort : OrtBackend) (cv : CvOps) (st st' : SamSegmentor)
    (h : view st = view st') (inputs : List Tensor) (om : Mat) :
    (run_decoder ort cv st inputs om).completion = (run_decoder ort cv st' inputs om).completion ∧
    (run_decoder ort cv st inputs om).out = (run_decoder ort cv st' inputs om).out := by
  unfold run_decoder
  dsimp only
  split
  · exact ⟨rfl, rfl⟩
  · rw [read_output_mask_congr cv (st.issue (.decoder_run inputs))
      (st'.issue (.decoder_run inputs)) (by rw [seg_view_issue, seg_view_issue, h])]
    split <;> exact ⟨rfl, rfl⟩

theorem run_decoder_size (ort : OrtBackend) (cv : CvOps) (st : SamSegmentor)
    (inputs : List Tensor) (om : Mat)
    (h : (run_decoder ort cv st inputs om).completion = .returned .OK) :
    (run_decoder ort cv st inputs om).out.cols = st._m_ori_image_size.width ∧
    (run_decoder ort cv st inputs om).out.rows = st._m_ori_image_size.height := by
  unfold run_decoder at h ⊢
  dsimp only at h ⊢
  split at h
  · exact absurd h (by simp)
  · split at h
    · exact absurd h (by simp)
    · rename_i mask heq
      exact read_output_mask_size cv _ _ mask heq

theorem seg_get_mask_view (ort : OrtBackend) (cv : CvOps) (st : SamSegmentor) (emb : List Val)
    (bbox : Rect2f) (om : Mat) : view (get_mask ort cv st emb bbox om).state = view st := by
  unfold get_mask
  dsimp only
  repeat' split
  all_goals first | rfl | exact run_decoder_view _ _ _ _ _

theorem seg_get_mask_congr (ort : OrtBackend) (cv : CvOps) (st st' : SamSegmentor)
    (h : view st = view st') (emb : List Val) (bbox : Rect2f) (om : Mat) :
    (get_mask ort cv st emb bbox om).completion = (get_mask ort cv st' emb bbox om).completion ∧
    (get_mask ort cv st emb bbox om).out = (get_mask ort cv st' emb bbox om).out := by
  have h' := h
  simp only [view, Prod.mk.injEq] at h'
  have hin : decoder_input_tensor st emb bbox = decoder_input_tensor st' emb bbox := by
    simp only [decoder_input_tensor, h'.1, h'.2]
  unfold get_mask
  dsimp only
  rw [hin, h'.2]
  repeat' split
  all_goals first | exact ⟨rfl, rfl⟩ | exact run_decoder_congr _ _ _ _ h _ _

theorem seg_get_mask_size (ort : OrtBackend) (cv : CvOps) (st : SamSegmentor) (emb : List Val)
    (bbox : Rect2f) (om : Mat)
    (h : (get_mask ort cv st emb bbox om).completion = .returned .OK) :
    (get_mask ort cv st emb bbox om).out.cols = st._m_ori_image_size.width ∧
    (get_mask ort cv st emb bbox om).out.rows = st._m_ori_image_size.height := by
  unfold get_mask at h ⊢
  dsimp only at h ⊢
  split at h
  · exact absurd h (by simp)
  · split at h
    · exact absurd h (by simp)
    · split at h
      · exact absurd h (by simp)
      · split at h
        · exact absurd h (by simp)
        · split at h
          · exact absurd h (by simp)
          · rename_i h1 h2 h3 h4 h5
            rw [if_neg h1, if_neg h2, if_neg h3, if_neg h4, if_neg h5]
            exact run_decoder_size _ _ _ _ _ h

theorem get_masks_ok (ort : OrtBackend) (cv : CvOps) (st0 : SamSegmentor) (emb : List Val) :
    ∀ (bboxes : List Rect2f) (st : SamSegmentor) (prior : List Mat), view st = view st0 →
      (∀ b ∈ bboxes, (get_mask ort cv st0 emb b Mat.empty_mat).completion = .returned .OK) →
      (get_masks ort cv st emb bboxes prior).completion = .returned .OK ∧
      (get_masks ort cv st emb bboxes prior).out =
        prior ++ bboxes.map fun b => (get_mask ort cv st0 emb b Mat.empty_mat).out := by
  intro bboxes
  induction bboxes with
  | nil => intro st prior _ _; simp [get_masks]
  | cons b rest ih =>
    intro st prior hv hok
    have hb := hok b (List.mem_cons_self _ _)
    obtain ⟨hc, ho⟩ := seg_get_mask_congr ort cv st st0 hv emb b Mat.empty_mat
    have hv' := (seg_get_mask_view ort cv st emb b Mat.empty_mat).trans hv
    have := ih _ (prior ++ [(get_mask ort cv st emb b Mat.empty_mat).out]) hv'
      (fun b' hb' => hok b' (List.mem_cons_of_mem _ hb'))
    simp only [get_masks, hc, hb, ne_eq, not_true_eq_false, if_false]
    refine ⟨this.1, this.2.trans ?_⟩
    rw [ho]
    simp

theorem get_masks_fail (ort : OrtBackend) (cv : CvOps) (st0 : SamSegmentor) (emb : List Val)
    (k : Rect2f) (post : List Rect2f) (s : StatusCode) (hs : s ≠ .OK)
    (hk : (get_mask ort cv st0 emb k Mat.empty_mat).completion = .returned s) :
    ∀ (pre : List Rect2f) (st : SamSegmentor) (prior : List Mat), view st = view st0 →
      (∀ b ∈ pre, (get_mask ort cv st0 emb b Mat.empty_mat).completion = .returned .OK) →
      (get_masks ort cv st emb (pre ++ k :: post) prior).completion = .returned s ∧
      (get_masks ort cv st emb (pre ++ k :: post) prior).out =
        prior ++ pre.map fun b => (get_mask ort cv st0 emb b Mat.empty_mat).out := by
  intro pre
  induction pre with
  | nil =>
    intro st prior hv _
    obtain ⟨hc, -⟩ := seg_get_mask_congr ort cv st st0 hv emb k Mat.empty_mat
    simp [get_masks, hc, hk, hs]
  | cons b rest ih =>
    intro st prior hv hok
    have hb := hok b (List.mem_cons_self _ _)
    obtain ⟨hc, ho⟩ := seg_get_mask_congr ort cv st st0 hv emb b Mat.empty_mat
    have hv' := (seg_get_mask_view ort cv st emb b Mat.empty_mat).trans hv
    have := ih _ (prior ++ [(get_mask ort cv st emb b Mat.empty_mat).out]) hv'
      (fun b' hb' => hok b' (List.mem_cons_of_mem _ hb'))
    simp only [List.cons_append, get_masks, hc, hb, ne_eq, not_true_eq_false, if_false]
    refine ⟨this.1, this.2.trans ?_⟩
    rw [ho]
    simp

end SamSegmentor

/-! ## Statuses and monotonicity of the decode loops -/

namespace SamTrtDecoder

theorem parse_output_mask_status (cv : CvOps) (st : SamTrtDecoder) (lr iou : List Val)
    (om : Mat) (s : StatusCode) (h : (parse_output_mask cv st lr iou om).completion = .returned s) :
    s = .OK := by
  unfold parse_output_mask at h
  dsimp only at h
  split at h
  · exact absurd h (by simp)
  · simpa using h.symm

theorem do_inference_status (dev : TrtBackend) (cv : CvOps) (st : SamTrtDecoder) (om : Mat)
    (s : StatusCode) (h : (do_inference dev cv st om).completion = .returned s) :
    s = .OK ∨ s = .MODEL_RUN_SESSION_FAILED := by
  unfold do_inference at h
  dsimp only at h
  split at h
  · right; simpa using h.symm
  · split at h
    · right; simpa using h.symm
    · split at h
      · right; simpa using h.symm
      · left; exact parse_output_mask_status _ _ _ _ _ _ h

theorem copy_mask_inputs_status (dev : TrtBackend) (cv : CvOps) (st : SamTrtDecoder) (om : Mat)
    (s : StatusCode) (h : (copy_mask_inputs dev cv st om).completion = .returned s) :
    s = .OK ∨ s = .MODEL_RUN_SESSION_FAILED := by
  unfold copy_mask_inputs at h
  dsimp only at h
  split at h
  · right; simpa using h.symm
  · split at h
    · right; simpa using h.symm
    · exact do_inference_status _ _ _ _ _ h

/-- The only statuses `get_mask` returns are `OK` and the run-session failure. -/
theorem get_mask_status (dev : TrtBackend) (cv : CvOps) (st : SamTrtDecoder)
    (pc : List Point2f) (pl : List Val) (om : Mat) (s : StatusCode)
    (h : (get_mask dev cv st pc pl om).completion = .returned s) :
    s = .OK ∨ s = .MODEL_RUN_SESSION_FAILED := by
  unfold get_mask at h
  dsimp only at h
  split at h
  · right; simpa using h.symm
  · split at h
    · right; simpa using h.symm
    · exact copy_mask_inputs_status _ _ _ _ _ h

/-- The loop only appends to the output list. -/
theorem decode_bboxes_loop_prefix (dev : TrtBackend) (cv : CvOps) :
    ∀ (bboxes : List Rect2f) (st : SamTrtDecoder) (prior : List Mat),
      prior <+: (decode_bboxes_loop dev cv st bboxes prior).out := by
  intro bboxes
  induction bboxes with
  | nil => intro st prior; exact List.prefix_refl _
  | cons b rest ih =>
    intro st prior
    unfold decode_bboxes_loop
    dsimp only
    split
    · exact List.prefix_refl _
    · split
      · exact List.prefix_refl _
      · exact (List.prefix_append prior _).trans (ih _ _)

theorem decode_of_upload_ok (dev : TrtBackend) (cv : CvOps) (st : SamTrtDecoder)
    (emb : List Val) (bboxes : List Rect2f) (prior : List Mat)
    (h : dev.memcpyH2D_ok .image_embeddings emb = true) :
    decode dev cv st emb bboxes prior =
      decode_bboxes_loop dev cv (upload_embedding st emb) bboxes prior := by
  unfold decode
  rw [if_neg (by simp [h])]

theorem decode_of_upload_fault (dev : TrtBackend) (cv : CvOps) (st : SamTrtDecoder)
    (emb : List Val) (bboxes : List Rect2f) (prior : List Mat)
    (h : dev.memcpyH2D_ok .image_embeddings emb = false) :
    (decode dev cv st emb bboxes prior).completion = .returned .MODEL_RUN_SESSION_FAILED ∧
    (decode dev cv st emb bboxes prior).out = prior ∧
    engine_calls (decode dev cv st emb bboxes prior).state.device_log =
      engine_calls st.device_log := by
  unfold decode
  rw [if_pos (by simp [h])]
  refine ⟨rfl, rfl, ?_⟩
  simp [log_issue, engine_calls_append, engine_calls]

theorem decode_points_loop_fail (dev : TrtBackend) (cv : CvOps) (st0 : SamTrtDecoder)
    (k : List Point2f) (post : List (List Point2f)) (s : StatusCode) (hs : s ≠ .OK)
    (hk : (get_mask dev cv st0 k (List.replicate k.length 1) Mat.empty_mat).completion =
      .returned s) :
    ∀ (pre : List (List Point2f)) (st : SamTrtDecoder) (prior : List Mat), view st = view st0 →
      (∀ pts ∈ pre, (get_mask dev cv st0 pts (List.replicate pts.length 1)
        Mat.empty_mat).completion = .returned .OK) →
      (decode_points_loop dev cv st (pre ++ k :: post) prior).completion = .returned s ∧
      (decode_points_loop dev cv st (pre ++ k :: post) prior).out =
        prior ++ pre.map fun pts =>
          (get_mask dev cv st0 pts (List.replicate pts.length 1) Mat.empty_mat).out := by
  intro pre
  induction pre with
  | nil =>
    intro st prior hv _
    obtain ⟨hc, -⟩ := get_mask_congr dev cv st st0 hv k (List.replicate k.length 1)
      Mat.empty_mat
    simp [decode_points_loop, hc, hk, hs]
  | cons b rest ih =>
    intro st prior hv hok
    have hb := hok b (List.mem_cons_self _ _)
    obtain ⟨hc, ho⟩ := get_mask_congr dev cv st st0 hv b (List.replicate b.length 1)
      Mat.empty_mat
    have hv' := (get_mask_view dev cv st b (List.replicate b.length 1) Mat.empty_mat).trans hv
    have := ih _ (prior ++ [(get_mask dev cv st b (List.replicate b.length 1)
      Mat.empty_mat).out]) hv' (fun b' hb' => hok b' (List.mem_cons_of_mem _ hb'))
    simp only [List.cons_append, decode_points_loop, hc, hb, ne_eq, not_true_eq_false, if_false]
    refine ⟨this.1, this.2.trans ?_⟩
    rw [ho]
    simp

/-- The loop only appends to the output list. -/
theorem decode_points_loop_prefix (dev : TrtBackend) (cv : CvOps) :
    ∀ (points : List (List Point2f)) (st : SamTrtDecoder) (prior : List Mat),
      prior <+: (decode_points_loop dev cv st points prior).out := by
  intro points
  induction points with
  | nil => intro st prior; exact List.prefix_refl _
  | cons b rest ih =>
    intro st prior
    unfold decode_points_loop
    dsimp only
    split
    · exact List.prefix_refl _
    · split
      · exact List.prefix_refl _
      · exact (List.prefix_append prior _).trans (ih _ _)

theorem decode_points_of_upload_ok (dev : TrtBackend) (cv : CvOps) (st : SamTrtDecoder)
    (emb : List Val) (points : List (List Point2f)) (prior : List Mat)
    (h : dev.memcpyH2D_ok .image_embeddings emb = true) :
    decode_points dev cv st emb points prior =
      decode_points_loop dev cv (upload_embedding st emb) points prior := by
  unfold decode_points
  rw [if_neg (by simp [h])]

theorem decode_points_of_upload_fault (dev : TrtBackend) (cv : CvOps) (st : SamTrtDecoder)
    (emb : List Val) (points : List (List Point2f)) (prior : List Mat)
    (h : dev.memcpyH2D_ok .image_embeddings emb = false) :
    (decode_points dev cv st emb points prior).completion =
      .returned .MODEL_RUN_SESSION_FAILED ∧
    (decode_points dev cv st emb points prior).out = prior := by
  unfold decode_points
  rw [if_pos (by simp [h])]
  exact ⟨rfl, rfl⟩

end SamTrtDecoder

namespace SamSegmentor

/-- The loop only appends to the output list. -/
theorem get_masks_prefix (ort : OrtBackend) (cv : CvOps) (emb : List Val) :
    ∀ (bboxes : List Rect2f) (st : SamSegmentor) (prior : List Mat),
      prior <+: (get_masks ort cv st emb bboxes prior).out := by
  intro bboxes
  induction bboxes with
  | nil => intro st prior; exact List.prefix_refl _
  | cons b rest ih =>
    intro st prior
    unfold get_masks
    dsimp only
    split
    · exact List.prefix_refl _
    · split
      · exact List.prefix_refl _
      · exact (List.prefix_append prior _).trans (ih _ _)

end SamSegmentor

/-! ## What the engine is handed -/

namespace SamTrtDecoder

/-- Every `get_mask` call either fails before the engine is run, leaving the
recorded engine runs as they were, or runs the engine once, on `prompt_inputs`. -/
theorem get_mask_engine_calls_cases (dev : TrtBackend) (cv : CvOps) (st : SamTrtDecoder)
    (pc : List Point2f) (pl : List Val) (om : Mat) :
    (engine_calls (get_mask dev cv st pc pl om).state.device_log = engine_calls st.device_log ∧
      (get_mask dev cv st pc pl om).completion = .returned .MODEL_RUN_SESSION_FAILED) ∨
    engine_calls (get_mask dev cv st pc pl om).state.device_log =
      engine_calls st.device_log ++ [prompt_inputs st._m_device_memory.image_embeddings pc pl] := by
  cases h1 : dev.memcpyH2D_ok .point_coords (total_points pc) with
  | false =>
    left
    unfold get_mask
    dsimp only
    rw [if_pos (by simp [h1])]
    refine ⟨?_, rfl⟩
    simp [log_issue, log_set_point_shapes, engine_calls_append, engine_calls]
  | true =>
    cases h2 : dev.memcpyH2D_ok .point_labels (total_labels pl) with
    | false =>
      left
      unfold get_mask
      dsimp only
      rw [if_neg (by simp [h1]), if_pos (by simp [h2])]
      refine ⟨?_, rfl⟩
      simp [log_issue, log_store, log_set_point_shapes, engine_calls_append, engine_calls]
    | true =>
      obtain ⟨st1, e1, -, l1, -⟩ := get_mask_reaches_copy_mask_inputs dev cv st pc pl om h1 h2
      cases h3 : dev.memcpyH2D_ok .mask_input mask_tensor_values with
      | false =>
        left
        rw [e1]
        unfold copy_mask_inputs
        dsimp only
        rw [if_pos (by simp [h3])]
        refine ⟨?_, rfl⟩
        simp [log_issue, engine_calls_append, engine_calls, l1]
      | true =>
        cases h4 : dev.memcpyH2D_ok .has_mask_input has_mask_tensor_values with
        | false =>
          left
          rw [e1]
          unfold copy_mask_inputs
          dsimp only
          rw [if_neg (by simp [h3]), if_pos (by simp [h4])]
          refine ⟨?_, rfl⟩
          simp [log_issue, log_store, engine_calls_append, engine_calls, l1]
        | true =>
          right
          exact get_mask_engine_calls dev cv st pc pl om h1 h2 h3 h4

/-- A `get_mask` call that returns `OK` has run the engine on `prompt_inputs`. -/
theorem get_mask_engine_calls_of_ok (dev : TrtBackend) (cv : CvOps) (st : SamTrtDecoder)
    (pc : List Point2f) (pl : List Val) (om : Mat)
    (h : (get_mask dev cv st pc pl om).completion = .returned .OK) :
    engine_calls (get_mask dev cv st pc pl om).state.device_log =
      engine_calls st.device_log ++ [prompt_inputs st._m_device_memory.image_embeddings pc pl] := by
  rcases get_mask_engine_calls_cases dev cv st pc pl om with ⟨-, hf⟩ | hc
  · rw [hf] at h
    exact absurd h (by simp)
  · exact hc

theorem embedding_of_view {st st' : SamTrtDecoder} (h : view st = view st') :
    st._m_device_memory.image_embeddings = st'._m_device_memory.image_embeddings :=
  congrArg Prod.fst h

/-- The engine runs of the loop over point sets: one run per prompt of an
initial segment of the prompt list, in order, each on `prompt_inputs` of the
prompt with every label 1; the segment is the whole list when the loop
returns `OK`. -/
theorem decode_points_loop_engine_calls (dev : TrtBackend) (cv : CvOps) :
    ∀ (points : List (List Point2f)) (st : SamTrtDecoder) (prior : List Mat),
      ∃ k, k ≤ points.length ∧
        engine_calls (decode_points_loop dev cv st points prior).state.device_log =
          engine_calls st.device_log ++ (points.take k).map (fun pts =>
            prompt_inputs st._m_device_memory.image_embeddings pts
              (List.replicate pts.length 1)) ∧
        ((decode_points_loop dev cv st points prior).completion = .returned .OK →
          k = points.length) := by
  intro points
  induction points with
  | nil => intro st prior; exact ⟨0, le_refl _, by simp [decode_points_loop], fun _ => rfl⟩
  | cons pts rest ih =>
    intro st prior
    have hcases := get_mask_engine_calls_cases dev cv st pts (List.replicate pts.length 1)
      Mat.empty_mat
    have hv := get_mask_view dev cv st pts (List.replicate pts.length 1) Mat.empty_mat
    unfold decode_points_loop
    dsimp only
    split
    · rcases hcases with ⟨h, -⟩ | h
      · exact ⟨0, Nat.zero_le _, by simp [h], fun hc => by simp at hc⟩
      · exact ⟨1, by simp, by simp [h], fun hc => by simp at hc⟩
    · rename_i status hst
      split
      · rename_i hne
        rcases hcases with ⟨h, -⟩ | h
        · exact ⟨0, Nat.zero_le _, by simp [h], fun hc => by simp [hne] at hc⟩
        · exact ⟨1, by simp, by simp [h], fun hc => by simp [hne] at hc⟩
      · rename_i hok
        have hok' : status = .OK := not_not.mp hok
        rw [hok'] at hst
        have hcall := get_mask_engine_calls_of_ok dev cv st pts _ Mat.empty_mat hst
        obtain ⟨k, hk, hlog, hall⟩ := ih (get_mask dev cv st pts (List.replicate pts.length 1)
          Mat.empty_mat).state (prior ++ [(get_mask dev cv st pts
            (List.replicate pts.length 1) Mat.empty_mat).out])
        refine ⟨k + 1, by simpa using hk, ?_, fun hc => by simp [hall hc]⟩
        rw [hlog, hcall, embedding_of_view hv]
        simp

/-- The engine runs of the loop over boxes when every prompt is decoded: one run
per box, in order, each on `prompt_inputs` of the prompt built for the box. -/
theorem decode_bboxes_loop_engine_calls (dev : TrtBackend) (cv : CvOps) :
    ∀ (bboxes : List Rect2f) (st : SamTrtDecoder) (prior : List Mat),
      (decode_bboxes_loop dev cv st bboxes prior).completion = .returned .OK →
      engine_calls (decode_bboxes_loop dev cv st bboxes prior).state.device_log =
        engine_calls st.device_log ++ bboxes.map (fun b =>
          prompt_inputs st._m_device_memory.image_embeddings (bbox_point_coords b)
            bbox_point_labels) := by
  intro bboxes
  induction bboxes with
  | nil => intro st prior _; simp [decode_bboxes_loop]
  | cons b rest ih =>
    intro st prior
    have hv := get_mask_view dev cv st (bbox_point_coords b) bbox_point_labels Mat.empty_mat
    unfold decode_bboxes_loop
    dsimp only
    split
    · intro hc; simp at hc
    · rename_i status hst
      split
      · rename_i hne
        intro hc
        simp [hne] at hc
      · rename_i hok
        have hok' : status = .OK := not_not.mp hok
        rw [hok'] at hst
        intro hc
        rw [ih _ _ hc, get_mask_engine_calls_of_ok dev cv st _ _ Mat.empty_mat hst,
          embedding_of_view hv]
        simp

end SamTrtDecoder

/-! ## The scan of `std::max_element` -/

theorem getD_append_left (pre xs : List Val) (j : Nat) (h : j < pre.length) :
    (pre ++ xs).getD j 0 = pre.getD j 0 := by
  simp [List.getD_eq_getElem?_getD, List.getElem?_append_left h]

theorem getD_append_length (pre xs : List Val) (x : Val) :
    (pre ++ x :: xs).getD pre.length 0 = x := by
  rw [List.getD_eq_getElem?_getD, List.getElem?_append_right (le_refl _)]
  simp

/-- The invariant of the scan of `std::max_element`: with `best` the first
index of the largest value of the part `pre` already scanned, the scan of the
rest ends at the first index of the largest value of the whole range. -/
theorem max_element_from_spec (xs : List Val) :
    ∀ (pre : List Val) (best : Nat), best < pre.length →
      (∀ j, j < pre.length → pre.getD j 0 ≤ pre.getD best 0) →
      (∀ j, j < best → pre.getD j 0 < pre.getD best 0) →
      max_element_from best (pre.getD best 0) pre.length xs < (pre ++ xs).length ∧
      (∀ j, j < (pre ++ xs).length → (pre ++ xs).getD j 0 ≤
        (pre ++ xs).getD (max_element_from best (pre.getD best 0) pre.length xs) 0) ∧
      (∀ j, j < max_element_from best (pre.getD best 0) pre.length xs →
        (pre ++ xs).getD j 0 <
          (pre ++ xs).getD (max_element_from best (pre.getD best 0) pre.length xs) 0) := by
  induction xs with
  | nil =>
    intro pre best hb hmax hfirst
    simp only [max_element_from, List.append_nil]
    exact ⟨hb, hmax, hfirst⟩
  | cons x rest ih =>
    intro pre best hb hmax hfirst
    have hlen : (pre ++ [x]).length = pre.length + 1 := by simp
    have happ : pre ++ x :: rest = (pre ++ [x]) ++ rest := by simp
    have hx : (pre ++ [x]).getD pre.length 0 = x := getD_append_length pre [] x
    have hold : ∀ j, j < pre.length → (pre ++ [x]).getD j 0 = pre.getD j 0 :=
      fun j hj => getD_append_left pre [x] j hj
    unfold max_element_from
    split
    · rename_i hlt
      have := ih (pre ++ [x]) pre.length (by rw [hlen]; exact Nat.lt_succ_self _)
        (by
          intro j hj
          rw [hlen] at hj
          rw [hx]
          rcases Nat.lt_succ_iff_lt_or_eq.mp hj with h | h
          · rw [hold j h]; exact le_of_lt (lt_of_le_of_lt (hmax j h) hlt)
          · rw [h, hx])
        (by
          intro j hj
          rw [hx, hold j hj]
          exact lt_of_le_of_lt (hmax j hj) hlt)
      rw [hx, hlen] at this
      rw [happ]
      exact this
    · rename_i hnlt
      have hbest : (pre ++ [x]).getD best 0 = pre.getD best 0 := hold best hb
      have := ih (pre ++ [x]) best (by rw [hlen]; exact Nat.lt_succ_of_lt hb)
        (by
          intro j hj
          rw [hlen] at hj
          rw [hbest]
          rcases Nat.lt_succ_iff_lt_or_eq.mp hj with h | h
          · rw [hold j h]; exact hmax j h
          · rw [h, hx]; exact not_lt.mp hnlt)
        (by
          intro j hj
          rw [hbest, hold j (lt_trans hj hb)]
          exact hfirst j hj)
      rw [hbest, hlen] at this
      rw [happ]
      exact this

/-- On a non-empty range `max_element` is the first index of the largest value. -/
theorem max_element_first_index_of_maximum (conf : List Val) (hne : conf ≠ []) :
    first_index_of_maximum conf (max_element conf) := by
  cases conf with
  | nil => exact absurd rfl hne
  | cons x rest =>
    have h := max_element_from_spec rest [x] 0 (by simp)
      (by intro j hj; have : j = 0 := by simpa using hj
          rw [this])
      (by intro j hj; exact absurd hj (Nat.not_lt_zero _))
    have h0 : ([x] : List Val).getD 0 0 = x := rfl
    rw [h0] at h
    have hl : ([x] : List Val).length = 1 := rfl
    rw [hl] at h
    obtain ⟨h1, h2, h3⟩ := h
    refine ⟨h1, h2, ?_⟩
    intro i' hi' hall
    have := hall (max_element (x :: rest)) h1
    exact absurd (h3 i' hi') (not_lt.mpr this)


/-! ## Evaluation of the examples -/

theorem constant_low_res_getD (v : Val) (i : Nat) (h : i < 4 * 256 * 256) :
    (constant_low_res v).getD i 0 = v := by
  unfold constant_low_res
  rw [List.getD_eq_getElem?_getD, List.getElem?_replicate, if_pos h]
  rfl

theorem example_best_mask_idx : max_element [1 / 5, 9 / 10, 9 / 10, 1 / 10] = 1 := by
  norm_num [max_element, max_element_from]

/-- On a device whose calls succeed for a prompt, the compiled-GPU `get_mask` of
the examples returns `OK`, and the top-left pixel of its mask is foreground
exactly when the first coordinate of the prompt exceeds 20. -/
theorem example_get_mask_prompt_ok (dev : TrtBackend) (st : SamTrtDecoder)
    (pc : List Point2f) (pl : List Val)
    (hdev : ∀ slot data, slot ≠ .image_embeddings → dev.memcpyH2D_ok slot data = true)
    (hrun : dev.enqueueV3 (SamTrtDecoder.prompt_inputs st._m_device_memory.image_embeddings
      pc pl) =
        some (example_outputs (SamTrtDecoder.prompt_inputs st._m_device_memory.image_embeddings
          pc pl)))
    (hback : ∀ slot, dev.memcpyD2H_ok slot = true)
    (h1 : st._m_ori_image_size = ⟨100, 100⟩) (h2 : st._m_encoder_input_size = ⟨1024, 1024⟩) :
    (SamTrtDecoder.get_mask dev example_cv st pc pl Mat.empty_mat).completion = .returned .OK ∧
    (SamTrtDecoder.get_mask dev example_cv st pc pl Mat.empty_mat).out.px 0 0 0 =
      if (SamTrtDecoder.total_points pc).headD 0 - 20 > 0 then 255 else 0 := by
  obtain ⟨m, hm, hpx⟩ := SamTrtDecoder.decode_output_mask_example st h1 h2
    (example_outputs (SamTrtDecoder.prompt_inputs st._m_device_memory.image_embeddings
      pc pl)).low_res_masks
    ((max_element (example_outputs (SamTrtDecoder.prompt_inputs
      st._m_device_memory.image_embeddings pc pl)).iou_predictions : Nat) : Int)
  obtain ⟨g1, g2⟩ := SamTrtDecoder.get_mask_of_ok dev example_cv st pc pl Mat.empty_mat _
    (hdev _ _ (by decide)) (hdev _ _ (by decide)) (hdev _ _ (by decide)) (hdev _ _ (by decide))
    hrun (hback _) (hback _)
  obtain ⟨p1, p2⟩ := SamTrtDecoder.parse_output_mask_of_some example_cv st _ _ Mat.empty_mat m hm
  refine ⟨g1.trans p1, ?_⟩
  rw [g2, p2, hpx]
  have hidx : (SamTrtDecoder.low_res_index ((max_element (example_outputs
      (SamTrtDecoder.prompt_inputs st._m_device_memory.image_embeddings pc pl)).iou_predictions :
      Nat) : Int) 0 0).toNat = 65536 := by
    simp only [example_outputs, example_best_mask_idx, SamTrtDecoder.low_res_index]
    norm_num [static_cast_int]
    rfl
  rw [hidx]
  simp only [example_outputs]
  have hlt : (65536 : Nat) < 4 * 256 * 256 := by norm_num
  have hg : (constant_low_res ((SamTrtDecoder.total_points pc).headD 0 - 20)).getD 65536 0 =
      (SamTrtDecoder.total_points pc).headD 0 - 20 := constant_low_res_getD _ 65536 hlt
  show (if (constant_low_res ((SamTrtDecoder.total_points pc).headD 0 - 20)).getD 65536 0 > 0
    then (255 : Val) else 0) = _
  rw [hg]

/-- The box instance of `example_get_mask_prompt_ok`: the top-left pixel is
foreground exactly when the box starts right of x = 20. -/
theorem example_get_mask_ok (dev : TrtBackend) (st : SamTrtDecoder) (b : Rect2f)
    (hdev : ∀ slot data, slot ≠ .image_embeddings → dev.memcpyH2D_ok slot data = true)
    (hrun : dev.enqueueV3 (SamTrtDecoder.prompt_inputs st._m_device_memory.image_embeddings
      (SamTrtDecoder.bbox_point_coords b) SamTrtDecoder.bbox_point_labels) =
        some (example_outputs (SamTrtDecoder.prompt_inputs st._m_device_memory.image_embeddings
          (SamTrtDecoder.bbox_point_coords b) SamTrtDecoder.bbox_point_labels)))
    (hback : ∀ slot, dev.memcpyD2H_ok slot = true)
    (h1 : st._m_ori_image_size = ⟨100, 100⟩) (h2 : st._m_encoder_input_size = ⟨1024, 1024⟩) :
    (SamTrtDecoder.get_mask dev example_cv st (SamTrtDecoder.bbox_point_coords b)
      SamTrtDecoder.bbox_point_labels Mat.empty_mat).completion = .returned .OK ∧
    (SamTrtDecoder.get_mask dev example_cv st (SamTrtDecoder.bbox_point_coords b)
      SamTrtDecoder.bbox_point_labels Mat.empty_mat).out.px 0 0 0 =
        if b.x - 20 > 0 then 255 else 0 :=
  example_get_mask_prompt_ok dev st (SamTrtDecoder.bbox_point_coords b)
    SamTrtDecoder.bbox_point_labels hdev hrun hback h1 h2


theorem SamSegmentor.ori_issue (st : SamSegmentor) (c : SessionCall) :
    (st.issue c)._m_ori_image_size = st._m_ori_image_size := rfl

theorem mask_tensor_values_head : mask_tensor_values.headD 0 = 0 := rfl

theorem has_mask_tensor_values_head : has_mask_tensor_values.headD 0 = 0 := rfl

/-- On the examples the graph-runtime `get_mask` returns `OK` with the
binarized first candidate, provided the five tensors can be created. -/
theorem example_seg_get_mask (ort : OrtBackend) (seg : SamSegmentor) (emb : List Val)
    (b : Rect2f)
    (hcreate : ∀ data shape, data.headD 0 ≠ 20 → ort.create_tensor_ok data shape = true)
    (hb : b.x ≠ 20)
    (hrun : ∀ inputs, ort.decoder_run inputs = some example_decoder_outputs)
    (hori : seg._m_ori_image_size = ⟨2, 2⟩) :
    (SamSegmentor.get_mask ort example_cv seg emb b Mat.empty_mat).completion = .returned .OK ∧
    ∀ row col, (SamSegmentor.get_mask ort example_cv seg emb b Mat.empty_mat).out.px row col 0 =
      if example_masks.data.getD (row * 2 + col).toNat 0 > 0 then 255 else 0 := by
  have c1 := hcreate (SamSegmentor.total_points b)
    [1, (((SamSegmentor.total_points b).length / 2 : Nat) : Int), 2] hb
  have c2 := hcreate SamSegmentor.total_labels [1, (SamSegmentor.total_labels.length : Int)]
    (by norm_num [SamSegmentor.total_labels])
  have c3 := hcreate mask_tensor_values [1, 1, 256, 256]
    (by rw [mask_tensor_values_head]; norm_num)
  have c4 := hcreate has_mask_tensor_values [1] (by rw [has_mask_tensor_values_head]; norm_num)
  have c5 := hcreate [(seg._m_ori_image_size.width : Val), (seg._m_ori_image_size.height : Val)]
    [2] (by rw [hori]; norm_num)
  unfold SamSegmentor.get_mask
  simp only [c1, c2, c3, c4, c5, Bool.not_true, Bool.false_eq_true, if_false]
  unfold SamSegmentor.run_decoder
  simp only [hrun]
  simp [SamSegmentor.read_output_mask, example_decoder_outputs, example_masks, hori,
    SamSegmentor.ori_issue]

/-- The graph-runtime `get_mask` returns the run-session failure when the point
tensor cannot be created. -/
theorem seg_get_mask_of_tensor_fault (ort : OrtBackend) (cv : CvOps) (seg : SamSegmentor)
    (emb : List Val) (b : Rect2f) (om : Mat)
    (h : ort.create_tensor_ok (SamSegmentor.total_points b)
      [1, (((SamSegmentor.total_points b).length / 2 : Nat) : Int), 2] = false) :
    (SamSegmentor.get_mask ort cv seg emb b om).completion =
      .returned .MODEL_RUN_SESSION_FAILED := by
  unfold SamSegmentor.get_mask
  simp only [h, Bool.not_false, if_true]



/-- The compiled-GPU `get_mask` of the examples fails for the box that starts at
x = 20 on the device whose engine run fails there. -/
theorem example_get_mask_run_fault (st : SamTrtDecoder) :
    (SamTrtDecoder.get_mask example_device_run_fault example_cv st
      (SamTrtDecoder.bbox_point_coords box2) SamTrtDecoder.bbox_point_labels
      Mat.empty_mat).completion = .returned .MODEL_RUN_SESSION_FAILED :=
  (SamTrtDecoder.get_mask_of_fault example_device_run_fault example_cv st _ _ _ rfl rfl rfl rfl
    (by
      unfold example_device_run_fault
      dsimp only
      exact if_pos rfl)).1

/-- The compiled-GPU `get_mask` of the examples succeeds for a box that does not
start at x = 20 on the device whose engine run fails there. -/
theorem example_get_mask_no_fault (st : SamTrtDecoder) (b : Rect2f) (hb : b.x ≠ 20)
    (h1 : st._m_ori_image_size = ⟨100, 100⟩) (h2 : st._m_encoder_input_size = ⟨1024, 1024⟩) :
    (SamTrtDecoder.get_mask example_device_run_fault example_cv st
      (SamTrtDecoder.bbox_point_coords b) SamTrtDecoder.bbox_point_labels
      Mat.empty_mat).completion = .returned .OK ∧
    (SamTrtDecoder.get_mask example_device_run_fault example_cv st
      (SamTrtDecoder.bbox_point_coords b) SamTrtDecoder.bbox_point_labels
      Mat.empty_mat).out.px 0 0 0 = if b.x - 20 > 0 then 255 else 0 :=
  example_get_mask_ok example_device_run_fault st b (fun _ _ _ => rfl)
    (by
      unfold example_device_run_fault
      dsimp only
      exact if_neg hb) (fun _ => rfl) h1 h2

/-- The compiled-GPU `get_mask` of the examples on the device whose engine run
fails for the prompt that starts at x = 20: it fails for the second point set and
decodes a point set that starts elsewhere. -/
theorem example_get_mask_points (st : SamTrtDecoder)
    (h1 : st._m_ori_image_size = ⟨100, 100⟩) (h2 : st._m_encoder_input_size = ⟨1024, 1024⟩) :
    (SamTrtDecoder.get_mask example_device_run_fault example_cv st points1
      (List.replicate points1.length 1) Mat.empty_mat).completion = .returned .OK ∧
    (SamTrtDecoder.get_mask example_device_run_fault example_cv st points2
      (List.replicate points2.length 1) Mat.empty_mat).completion =
        .returned .MODEL_RUN_SESSION_FAILED := by
  constructor
  · exact (example_get_mask_prompt_ok example_device_run_fault st points1 _ (fun _ _ _ => rfl)
      (by
        unfold example_device_run_fault
        dsimp only
        exact if_neg (by norm_num [SamTrtDecoder.prompt_inputs, SamTrtDecoder.total_points,
          points1]))
      (fun _ => rfl) h1 h2).1
  · exact (SamTrtDecoder.get_mask_of_fault example_device_run_fault example_cv st _ _ _ rfl rfl
      rfl rfl
      (by
        unfold example_device_run_fault
        dsimp only
        exact if_pos rfl)).1

/-- When the five checked tensors can be created and the decoder session
returns, the graph-runtime `get_mask` is completed by `read_output_mask` on the
masks output. -/
theorem seg_get_mask_of_run (ort : OrtBackend) (cv : CvOps) (st : SamSegmentor)
    (emb : List Val) (bbox : Rect2f) (om : Mat) (o : DecoderOutputs)
    (hc : ∀ t ∈ (SamSegmentor.decoder_input_tensor st emb bbox).tail,
      ort.create_tensor_ok t.data t.shape = true)
    (hrun : ort.decoder_run (SamSegmentor.decoder_input_tensor st emb bbox) = some o) :
    (SamSegmentor.get_mask ort cv st emb bbox om).completion =
      (match SamSegmentor.read_output_mask cv st o.masks with
        | none => Outcome.thrown
        | some _ => Outcome.returned StatusCode.OK) ∧
    (SamSegmentor.get_mask ort cv st emb bbox om).out =
      (match SamSegmentor.read_output_mask cv st o.masks with
        | none => om
        | some mask => mask) := by
  have c1 := hc ⟨SamSegmentor.total_points bbox,
    [1, (((SamSegmentor.total_points bbox).length / 2 : Nat) : Int), 2]⟩
    (by simp [SamSegmentor.decoder_input_tensor])
  have c2 := hc ⟨SamSegmentor.total_labels, [1, (SamSegmentor.total_labels.length : Int)]⟩
    (by simp [SamSegmentor.decoder_input_tensor])
  have c3 := hc ⟨mask_tensor_values, [1, 1, 256, 256]⟩
    (by simp [SamSegmentor.decoder_input_tensor])
  have c4 := hc ⟨has_mask_tensor_values, [1]⟩ (by simp [SamSegmentor.decoder_input_tensor])
  have c5 := hc ⟨[(st._m_ori_image_size.width : Val), (st._m_ori_image_size.height : Val)], [2]⟩
    (by simp [SamSegmentor.decoder_input_tensor])
  dsimp only at c1 c2 c3 c4 c5
  unfold SamSegmentor.get_mask
  simp only [c1, c2, c3, c4, c5, Bool.not_true, Bool.false_eq_true, if_false]
  unfold SamSegmentor.run_decoder
  simp only [hrun]
  rw [SamSegmentor.read_output_mask_congr cv (st.issue _) st (SamSegmentor.seg_view_issue _ _)]
  split <;> exact ⟨rfl, rfl⟩

/-- When the decoder session returns (the five checked tensors having been
created) with a masks output of extent h x w, the graph-runtime `get_mask` builds
its mask from the first candidate, whatever the confidences are: the mask is the
first candidate binarized at zero when h x w is the original image size, and its
nearest-neighbour resize to the original size otherwise; `iou_predictions` is
not consulted. The first candidate is the one of maximum confidence when there
is a single candidate. -/
theorem seg_get_mask_reads_first_candidate (ort : OrtBackend) (cv : CvOps) (st : SamSegmentor)
    (image_embeddings : List Val) (bbox : Rect2f) (out_mask : Mat) (o : DecoderOutputs)
    (hc : ∀ t ∈ (SamSegmentor.decoder_input_tensor st image_embeddings bbox).tail,
      ort.create_tensor_ok t.data t.shape = true)
    (hrun : ort.decoder_run (SamSegmentor.decoder_input_tensor st image_embeddings bbox) =
      some o)
    (hh : 0 ≤ o.masks.shape.getD 2 0) (hw : 0 ≤ o.masks.shape.getD 3 0) :
    ((⟨o.masks.shape.getD 3 0, o.masks.shape.getD 2 0⟩ : Size) = st._m_ori_image_size →
      (SamSegmentor.get_mask ort cv st image_embeddings bbox out_mask).completion =
        .returned .OK ∧
      (SamSegmentor.get_mask ort cv st image_embeddings bbox out_mask).out =
        SamSegmentor.candidate_mask o.masks 0) ∧
    ((⟨o.masks.shape.getD 3 0, o.masks.shape.getD 2 0⟩ : Size) ≠ st._m_ori_image_size →
      (SamSegmentor.get_mask ort cv st image_embeddings bbox out_mask).completion =
        (match cv_resize cv.inter_nearest (SamSegmentor.candidate_mask o.masks 0)
            st._m_ori_image_size with
          | none => Outcome.thrown
          | some _ => Outcome.returned StatusCode.OK) ∧
      (SamSegmentor.get_mask ort cv st image_embeddings bbox out_mask).out =
        (match cv_resize cv.inter_nearest (SamSegmentor.candidate_mask o.masks 0)
            st._m_ori_image_size with
          | none => out_mask
          | some mask => mask)) ∧
    (o.iou_predictions.data.length = 1 → max_element o.iou_predictions.data = 0) := by
  obtain ⟨g1, g2⟩ := seg_get_mask_of_run ort cv st image_embeddings bbox out_mask o hc hrun
  have hcand : SamSegmentor.candidate_mask o.masks 0 =
      ⟨o.masks.shape.getD 2 0, o.masks.shape.getD 3 0, 1, fun row col _ =>
        if o.masks.data.getD (row * o.masks.shape.getD 3 0 + col).toNat 0 > 0 then 255
        else 0⟩ := by
    simp [SamSegmentor.candidate_mask]
  have hread_eq : (⟨o.masks.shape.getD 3 0, o.masks.shape.getD 2 0⟩ : Size) =
      st._m_ori_image_size →
      SamSegmentor.read_output_mask cv st o.masks = some (SamSegmentor.candidate_mask o.masks 0) := by
    intro he
    unfold SamSegmentor.read_output_mask
    dsimp only
    rw [if_neg (by push_neg; exact ⟨hw, hh⟩), if_neg (not_not.mpr he), hcand]
  have hread_ne : (⟨o.masks.shape.getD 3 0, o.masks.shape.getD 2 0⟩ : Size) ≠
      st._m_ori_image_size →
      SamSegmentor.read_output_mask cv st o.masks =
        cv_resize cv.inter_nearest (SamSegmentor.candidate_mask o.masks 0)
          st._m_ori_image_size := by
    intro hne
    unfold SamSegmentor.read_output_mask
    dsimp only
    rw [if_neg (by push_neg; exact ⟨hw, hh⟩), if_pos hne, hcand]
  refine ⟨fun he => ?_, fun hne => ?_, fun hk => ?_⟩
  · rw [g1, g2, hread_eq he]
    exact ⟨rfl, rfl⟩
  · rw [g1, g2, hread_ne hne]
    exact ⟨rfl, rfl⟩
  · match hd : o.iou_predictions.data, hk with
    | [_], _ => rfl

/-! ## Batch decoding: count, order and extent of the masks -/

/-- C1 (amended): when the upload of the embedding succeeds and `get_mask`
returns `OK` for every box, `SamTrtDecoder::decode` returns `OK` and leaves in the
output list its prior contents followed by one mask per box, in the order of the
boxes, each with the width and height of the original image size set on the
decoder; `SamSegmentor::get_masks` does the same whenever its `get_mask` returns
`OK` for every box. -/
theorem decode_yields_one_mask_per_box (dev : TrtBackend) (ort : OrtBackend) (cv : CvOps)
    (st : SamTrtDecoder) (seg : SamSegmentor) (image_embeddings : List Val)
    (bboxes : List Rect2f) (prior : List Mat)
    (hupload : dev.memcpyH2D_ok .image_embeddings image_embeddings = true)
    (htrt : ∀ b ∈ bboxes, (SamTrtDecoder.get_mask dev cv
      (SamTrtDecoder.upload_embedding st image_embeddings) (SamTrtDecoder.bbox_point_coords b)
      SamTrtDecoder.bbox_point_labels Mat.empty_mat).completion = .returned .OK)
    (hort : ∀ b ∈ bboxes, (SamSegmentor.get_mask ort cv seg image_embeddings b
      Mat.empty_mat).completion = .returned .OK) :
    ((SamTrtDecoder.decode dev cv st image_embeddings bboxes prior).completion = .returned .OK ∧
      (SamTrtDecoder.decode dev cv st image_embeddings bboxes prior).out =
        prior ++ bboxes.map (fun b => (SamTrtDecoder.get_mask dev cv
          (SamTrtDecoder.upload_embedding st image_embeddings)
          (SamTrtDecoder.bbox_point_coords b) SamTrtDecoder.bbox_point_labels
          Mat.empty_mat).out) ∧
      (SamTrtDecoder.decode dev cv st image_embeddings bboxes prior).out.length =
        prior.length + bboxes.length ∧
      ∀ b ∈ bboxes,
        (SamTrtDecoder.get_mask dev cv (SamTrtDecoder.upload_embedding st image_embeddings)
          (SamTrtDecoder.bbox_point_coords b) SamTrtDecoder.bbox_point_labels
          Mat.empty_mat).out.cols = st._m_ori_image_size.width ∧
        (SamTrtDecoder.get_mask dev cv (SamTrtDecoder.upload_embedding st image_embeddings)
          (SamTrtDecoder.bbox_point_coords b) SamTrtDecoder.bbox_point_labels
          Mat.empty_mat).out.rows = st._m_ori_image_size.height) ∧
    ((SamSegmentor.get_masks ort cv seg image_embeddings bboxes prior).completion =
        .returned .OK ∧
      (SamSegmentor.get_masks ort cv seg image_embeddings bboxes prior).out =
        prior ++ bboxes.map (fun b =>
          (SamSegmentor.get_mask ort cv seg image_embeddings b Mat.empty_mat).out) ∧
      (SamSegmentor.get_masks ort cv seg image_embeddings bboxes prior).out.length =
        prior.length + bboxes.length ∧
      ∀ b ∈ bboxes,
        (SamSegmentor.get_mask ort cv seg image_embeddings b Mat.empty_mat).out.cols =
          seg._m_ori_image_size.width ∧
        (SamSegmentor.get_mask ort cv seg image_embeddings b Mat.empty_mat).out.rows =
          seg._m_ori_image_size.height) := by
  have hdec : SamTrtDecoder.decode dev cv st image_embeddings bboxes prior =
      SamTrtDecoder.decode_bboxes_loop dev cv
        (SamTrtDecoder.upload_embedding st image_embeddings) bboxes prior := by
    unfold SamTrtDecoder.decode
    rw [if_neg (by simp [hupload])]
  obtain ⟨t1, t2⟩ := SamTrtDecoder.decode_bboxes_loop_ok dev cv
    (SamTrtDecoder.upload_embedding st image_embeddings) bboxes _ prior rfl htrt
  obtain ⟨s1, s2⟩ := SamSegmentor.get_masks_ok ort cv seg image_embeddings bboxes seg prior rfl
    hort
  refine ⟨⟨?_, ?_, ?_, ?_⟩, ⟨s1, s2, ?_, ?_⟩⟩
  · rw [hdec]; exact t1
  · rw [hdec]; exact t2
  · rw [hdec, t2]; simp
  · intro b hb
    exact SamTrtDecoder.get_mask_size dev cv _ _ _ _ (htrt b hb)
  · rw [s2]; simp
  · intro b hb
    exact SamSegmentor.seg_get_mask_size ort cv seg _ _ _ (hort b hb)

/-- C1 (amended), at two boxes on the example device and the example sessions. -/
theorem decode_yields_one_mask_per_box_witness :
    ((SamTrtDecoder.decode example_device example_cv example_decoder example_embedding
        [box1, box3] []).completion = .returned .OK ∧
      (SamTrtDecoder.decode example_device example_cv example_decoder example_embedding
        [box1, box3] []).out.length = 2) ∧
    ((SamSegmentor.get_masks example_sessions example_cv example_segmentor example_embedding
        [box1, box3] []).completion = .returned .OK ∧
      (SamSegmentor.get_masks example_sessions example_cv example_segmentor example_embedding
        [box1, box3] []).out.length = 2) := by
  have h := decode_yields_one_mask_per_box example_device example_sessions example_cv
    example_decoder example_segmentor example_embedding [box1, box3] [] rfl
    (fun b _ => (example_get_mask_ok example_device _ b (fun _ _ _ => rfl) rfl (fun _ => rfl)
      rfl rfl).1)
    (fun b hb => (example_seg_get_mask example_sessions example_segmentor example_embedding b
      (fun _ _ _ => rfl)
      (by
        simp only [List.mem_cons, List.mem_singleton, List.not_mem_nil, or_false] at hb
        rcases hb with rfl | rfl <;> norm_num [box1, box3])
      (fun _ => rfl) rfl).1)
  exact ⟨⟨h.1.1, h.1.2.2.1⟩, ⟨h.2.1, h.2.2.2.1⟩⟩

/-- C1, counterexample: on a device where the upload of the embedding fails,
`get_mask` would return `OK` for the one box prompt, yet `decode` returns the
run-session failure and appends no mask; with no prompt at all (so that no
`get_mask` call can fail) `decode` returns the failure as well. -/
theorem decode_upload_fault_counterexample :
    (∀ b ∈ [box1], (SamTrtDecoder.get_mask example_device_upload_fault example_cv
      (SamTrtDecoder.upload_embedding example_decoder example_embedding)
      (SamTrtDecoder.bbox_point_coords b) SamTrtDecoder.bbox_point_labels
      Mat.empty_mat).completion = .returned .OK) ∧
    (SamTrtDecoder.decode example_device_upload_fault example_cv example_decoder
      example_embedding [box1] []).completion ≠ .returned .OK ∧
    (SamTrtDecoder.decode example_device_upload_fault example_cv example_decoder
      example_embedding [box1] []).out.length = 0 ∧
    (SamTrtDecoder.decode example_device_upload_fault example_cv example_decoder
      example_embedding [] []).completion = .returned .MODEL_RUN_SESSION_FAILED := by
  refine ⟨fun b _ => (example_get_mask_ok example_device_upload_fault _ b
    (fun slot _ h => by simp [example_device_upload_fault, h]) rfl (fun _ => rfl) rfl rfl).1,
    ?_, ?_, ?_⟩
  · rw [(SamTrtDecoder.decode_of_upload_fault _ _ _ _ _ _ rfl).1]
    simp
  · rw [(SamTrtDecoder.decode_of_upload_fault _ _ _ _ _ _ rfl).2.1]
    rfl
  · exact (SamTrtDecoder.decode_of_upload_fault _ _ _ _ _ _ rfl).1


/-! ## Batch decoding: a failing prompt -/

/-- C2 (amended): in a decode over three box prompts in which the upload of the
embedding succeeds, `get_mask` returns `OK` for prompt #1 and the run-session
failure for prompt #2 (prompt #3 would succeed), `SamTrtDecoder::decode` returns
that failure and its output list is exactly the prior contents followed by the
mask of prompt #1: prompt #3 is never decoded and no mask is added for it; the
same holds for `SamSegmentor::get_masks`. -/
theorem decode_stops_at_failing_prompt (dev : TrtBackend) (ort : OrtBackend) (cv : CvOps)
    (st : SamTrtDecoder) (seg : SamSegmentor) (image_embeddings : List Val)
    (b1 b2 b3 : Rect2f) (prior : List Mat)
    (hupload : dev.memcpyH2D_ok .image_embeddings image_embeddings = true)
    (h1 : (SamTrtDecoder.get_mask dev cv (SamTrtDecoder.upload_embedding st image_embeddings)
      (SamTrtDecoder.bbox_point_coords b1) SamTrtDecoder.bbox_point_labels
      Mat.empty_mat).completion = .returned .OK)
    (h2 : (SamTrtDecoder.get_mask dev cv (SamTrtDecoder.upload_embedding st image_embeddings)
      (SamTrtDecoder.bbox_point_coords b2) SamTrtDecoder.bbox_point_labels
      Mat.empty_mat).completion = .returned .MODEL_RUN_SESSION_FAILED)
    (_h3 : (SamTrtDecoder.get_mask dev cv (SamTrtDecoder.upload_embedding st image_embeddings)
      (SamTrtDecoder.bbox_point_coords b3) SamTrtDecoder.bbox_point_labels
      Mat.empty_mat).completion = .returned .OK)
    (g1 : (SamSegmentor.get_mask ort cv seg image_embeddings b1 Mat.empty_mat).completion =
      .returned .OK)
    (g2 : (SamSegmentor.get_mask ort cv seg image_embeddings b2 Mat.empty_mat).completion =
      .returned .MODEL_RUN_SESSION_FAILED)
    (_g3 : (SamSegmentor.get_mask ort cv seg image_embeddings b3 Mat.empty_mat).completion =
      .returned .OK) :
    ((SamTrtDecoder.decode dev cv st image_embeddings [b1, b2, b3] prior).completion =
        .returned .MODEL_RUN_SESSION_FAILED ∧
      (SamTrtDecoder.decode dev cv st image_embeddings [b1, b2, b3] prior).out =
        prior ++ [(SamTrtDecoder.get_mask dev cv
          (SamTrtDecoder.upload_embedding st image_embeddings)
          (SamTrtDecoder.bbox_point_coords b1) SamTrtDecoder.bbox_point_labels
          Mat.empty_mat).out]) ∧
    ((SamSegmentor.get_masks ort cv seg image_embeddings [b1, b2, b3] prior).completion =
        .returned .MODEL_RUN_SESSION_FAILED ∧
      (SamSegmentor.get_masks ort cv seg image_embeddings [b1, b2, b3] prior).out =
        prior ++ [(SamSegmentor.get_mask ort cv seg image_embeddings b1 Mat.empty_mat).out]) := by
  have t := SamTrtDecoder.decode_bboxes_loop_fail dev cv
    (SamTrtDecoder.upload_embedding st image_embeddings) b2 [b3] .MODEL_RUN_SESSION_FAILED
    (by decide) h2 [b1] _ prior rfl (fun b hb => by rw [List.mem_singleton.mp hb]; exact h1)
  have s := SamSegmentor.get_masks_fail ort cv seg image_embeddings b2 [b3]
    .MODEL_RUN_SESSION_FAILED (by decide) g2 [b1] seg prior rfl
    (fun b hb => by rw [List.mem_singleton.mp hb]; exact g1)
  rw [SamTrtDecoder.decode_of_upload_ok dev cv st image_embeddings _ prior hupload]
  exact ⟨t, s⟩

/-- C2 (amended), on the example device whose engine run fails for the second
prompt and the example sessions whose point tensor fails for it. -/
theorem decode_stops_at_failing_prompt_witness :
    ((SamTrtDecoder.decode example_device_run_fault example_cv example_decoder
        example_embedding [box1, box2, box3] []).completion =
        .returned .MODEL_RUN_SESSION_FAILED ∧
      (SamTrtDecoder.decode example_device_run_fault example_cv example_decoder
        example_embedding [box1, box2, box3] []).out.length = 1) ∧
    ((SamSegmentor.get_masks example_sessions_tensor_fault example_cv example_segmentor
        example_embedding [box1, box2, box3] []).completion =
        .returned .MODEL_RUN_SESSION_FAILED ∧
      (SamSegmentor.get_masks example_sessions_tensor_fault example_cv example_segmentor
        example_embedding [box1, box2, box3] []).out.length = 1) := by
  have h := decode_stops_at_failing_prompt example_device_run_fault
    example_sessions_tensor_fault example_cv example_decoder example_segmentor
    example_embedding box1 box2 box3 [] rfl
    (example_get_mask_no_fault _ box1 (by norm_num [box1]) rfl rfl).1
    (example_get_mask_run_fault _)
    (example_get_mask_no_fault _ box3 (by norm_num [box3]) rfl rfl).1
    (example_seg_get_mask example_sessions_tensor_fault example_segmentor example_embedding box1
      (fun _ _ hd => decide_eq_true hd) (by norm_num [box1])
      (fun _ => rfl) rfl).1
    (seg_get_mask_of_tensor_fault example_sessions_tensor_fault example_cv example_segmentor
      example_embedding box2 Mat.empty_mat
      (by simp [example_sessions_tensor_fault, SamSegmentor.total_points, Rect2f.tl, box2]))
    (example_seg_get_mask example_sessions_tensor_fault example_segmentor example_embedding box3
      (fun _ _ hd => decide_eq_true hd) (by norm_num [box3])
      (fun _ => rfl) rfl).1
  refine ⟨⟨h.1.1, ?_⟩, ⟨h.2.1, ?_⟩⟩
  · rw [h.1.2]; rfl
  · rw [h.2.2]; rfl

/-- C2, counterexample: on the example device the engine run fails for prompt #2
only; prompts #1 and #3 would be decoded (to different masks); the upload
succeeds; yet the mask of prompt #3 is not in the result of `decode`. -/
theorem batch_independence_counterexample :
    (SamTrtDecoder.get_mask example_device_run_fault example_cv
      (SamTrtDecoder.upload_embedding example_decoder example_embedding)
      (SamTrtDecoder.bbox_point_coords box1) SamTrtDecoder.bbox_point_labels
      Mat.empty_mat).completion = .returned .OK ∧
    (SamTrtDecoder.get_mask example_device_run_fault example_cv
      (SamTrtDecoder.upload_embedding example_decoder example_embedding)
      (SamTrtDecoder.bbox_point_coords box2) SamTrtDecoder.bbox_point_labels
      Mat.empty_mat).completion = .returned .MODEL_RUN_SESSION_FAILED ∧
    (SamTrtDecoder.get_mask example_device_run_fault example_cv
      (SamTrtDecoder.upload_embedding example_decoder example_embedding)
      (SamTrtDecoder.bbox_point_coords box3) SamTrtDecoder.bbox_point_labels
      Mat.empty_mat).completion = .returned .OK ∧
    ¬ ((SamTrtDecoder.get_mask example_device_run_fault example_cv
        (SamTrtDecoder.upload_embedding example_decoder example_embedding)
        (SamTrtDecoder.bbox_point_coords box1) SamTrtDecoder.bbox_point_labels
        Mat.empty_mat).out ∈
        (SamTrtDecoder.decode example_device_run_fault example_cv example_decoder
          example_embedding [box1, box2, box3] []).out ∧
      (SamTrtDecoder.get_mask example_device_run_fault example_cv
        (SamTrtDecoder.upload_embedding example_decoder example_embedding)
        (SamTrtDecoder.bbox_point_coords box3) SamTrtDecoder.bbox_point_labels
        Mat.empty_mat).out ∈
        (SamTrtDecoder.decode example_device_run_fault example_cv example_decoder
          example_embedding [box1, box2, box3] []).out) := by
  have e1 := example_get_mask_no_fault
    (SamTrtDecoder.upload_embedding example_decoder example_embedding) box1
    (by norm_num [box1]) rfl rfl
  have e2 := example_get_mask_run_fault
    (SamTrtDecoder.upload_embedding example_decoder example_embedding)
  have e3 := example_get_mask_no_fault
    (SamTrtDecoder.upload_embedding example_decoder example_embedding) box3
    (by norm_num [box3]) rfl rfl
  refine ⟨e1.1, e2, e3.1, ?_⟩
  have t := SamTrtDecoder.decode_bboxes_loop_fail example_device_run_fault example_cv
    (SamTrtDecoder.upload_embedding example_decoder example_embedding) box2 [box3]
    .MODEL_RUN_SESSION_FAILED (by decide) e2 [box1] _ [] rfl
    (fun b hb => by rw [List.mem_singleton.mp hb]; exact e1.1)
  have hout : (SamTrtDecoder.decode_bboxes_loop example_device_run_fault example_cv
      (SamTrtDecoder.upload_embedding example_decoder example_embedding) [box1, box2, box3]
      []).out = _ := t.2
  rw [SamTrtDecoder.decode_of_upload_ok _ _ _ _ _ _ rfl, hout]
  rintro ⟨-, h3⟩
  simp only [List.nil_append, List.map_cons, List.map_nil, List.mem_singleton] at h3
  have hpx := congrArg (fun m : Mat => m.px 0 0 0) h3
  simp only [e1.2, e3.2] at hpx
  norm_num [box1, box3] at hpx

/-- C3: if prompt k is the first prompt whose `get_mask` fails, with status `s`
(every prompt before it is decoded), then `SamTrtDecoder::decode` over boxes,
`SamTrtDecoder::decode` over point sets and `SamSegmentor::get_masks`, each on
its own prompt list and with its own failing prompt, return exactly `s`; the
two `decode` functions keep the prior contents of the output list as a prefix
and, the upload of the embedding having succeeded so that the prompts are
reached, leave the list as the prior contents followed, in order, by the masks
of the prompts before k; `get_masks` leaves the same list. -/
theorem first_failure_keeps_earlier_masks (dev : TrtBackend) (ort : OrtBackend) (cv : CvOps)
    (st : SamTrtDecoder) (seg : SamSegmentor) (image_embeddings : List Val)
    (prior : List Mat) :
    (∀ (pre : List Rect2f) (k : Rect2f) (post : List Rect2f) (s : StatusCode), s ≠ .OK →
      (∀ b ∈ pre, (SamTrtDecoder.get_mask dev cv
        (SamTrtDecoder.upload_embedding st image_embeddings) (SamTrtDecoder.bbox_point_coords b)
        SamTrtDecoder.bbox_point_labels Mat.empty_mat).completion = .returned .OK) →
      (SamTrtDecoder.get_mask dev cv (SamTrtDecoder.upload_embedding st image_embeddings)
        (SamTrtDecoder.bbox_point_coords k) SamTrtDecoder.bbox_point_labels
        Mat.empty_mat).completion = .returned s →
      (SamTrtDecoder.decode dev cv st image_embeddings (pre ++ k :: post) prior).completion =
        .returned s ∧
      prior <+: (SamTrtDecoder.decode dev cv st image_embeddings (pre ++ k :: post) prior).out ∧
      (dev.memcpyH2D_ok .image_embeddings image_embeddings = true →
        (SamTrtDecoder.decode dev cv st image_embeddings (pre ++ k :: post) prior).out =
          prior ++ pre.map (fun b => (SamTrtDecoder.get_mask dev cv
            (SamTrtDecoder.upload_embedding st image_embeddings)
            (SamTrtDecoder.bbox_point_coords b) SamTrtDecoder.bbox_point_labels
            Mat.empty_mat).out))) ∧
    (∀ (ppre : List (List Point2f)) (pk : List Point2f) (ppost : List (List Point2f))
      (sp : StatusCode), sp ≠ .OK →
      (∀ pts ∈ ppre, (SamTrtDecoder.get_mask dev cv
        (SamTrtDecoder.upload_embedding st image_embeddings) pts (List.replicate pts.length 1)
        Mat.empty_mat).completion = .returned .OK) →
      (SamTrtDecoder.get_mask dev cv (SamTrtDecoder.upload_embedding st image_embeddings)
        pk (List.replicate pk.length 1) Mat.empty_mat).completion = .returned sp →
      (SamTrtDecoder.decode_points dev cv st image_embeddings (ppre ++ pk :: ppost)
        prior).completion = .returned sp ∧
      prior <+: (SamTrtDecoder.decode_points dev cv st image_embeddings (ppre ++ pk :: ppost)
        prior).out ∧
      (dev.memcpyH2D_ok .image_embeddings image_embeddings = true →
        (SamTrtDecoder.decode_points dev cv st image_embeddings (ppre ++ pk :: ppost)
          prior).out =
          prior ++ ppre.map (fun pts => (SamTrtDecoder.get_mask dev cv
            (SamTrtDecoder.upload_embedding st image_embeddings) pts
            (List.replicate pts.length 1) Mat.empty_mat).out))) ∧
    (∀ (pre : List Rect2f) (k : Rect2f) (post : List Rect2f) (t : StatusCode), t ≠ .OK →
      (∀ b ∈ pre, (SamSegmentor.get_mask ort cv seg image_embeddings b
        Mat.empty_mat).completion = .returned .OK) →
      (SamSegmentor.get_mask ort cv seg image_embeddings k Mat.empty_mat).completion =
        .returned t →
      (SamSegmentor.get_masks ort cv seg image_embeddings (pre ++ k :: post) prior).completion =
        .returned t ∧
      (SamSegmentor.get_masks ort cv seg image_embeddings (pre ++ k :: post) prior).out =
        prior ++ pre.map (fun b =>
          (SamSegmentor.get_mask ort cv seg image_embeddings b Mat.empty_mat).out)) := by
  refine ⟨?_, ?_, ?_⟩
  · intro pre k post s hs hpre hk
    have loop := SamTrtDecoder.decode_bboxes_loop_fail dev cv
      (SamTrtDecoder.upload_embedding st image_embeddings) k post s hs hk pre _ prior rfl hpre
    cases hup : dev.memcpyH2D_ok .image_embeddings image_embeddings with
    | true =>
      rw [SamTrtDecoder.decode_of_upload_ok dev cv st image_embeddings _ prior hup]
      exact ⟨loop.1, SamTrtDecoder.decode_bboxes_loop_prefix dev cv _ _ _, fun _ => loop.2⟩
    | false =>
      obtain ⟨f1, f2, -⟩ := SamTrtDecoder.decode_of_upload_fault dev cv st image_embeddings
        (pre ++ k :: post) prior hup
      have hs' : s = .MODEL_RUN_SESSION_FAILED := by
        rcases SamTrtDecoder.get_mask_status dev cv _ _ _ _ s hk with h | h
        · exact absurd h hs
        · exact h
      exact ⟨by rw [f1, hs'], by rw [f2], fun h => absurd h (by simp)⟩
  · intro ppre pk ppost sp hsp hppre hpk
    have loop := SamTrtDecoder.decode_points_loop_fail dev cv
      (SamTrtDecoder.upload_embedding st image_embeddings) pk ppost sp hsp hpk ppre _ prior rfl
      hppre
    cases hup : dev.memcpyH2D_ok .image_embeddings image_embeddings with
    | true =>
      rw [SamTrtDecoder.decode_points_of_upload_ok dev cv st image_embeddings _ prior hup]
      exact ⟨loop.1, SamTrtDecoder.decode_points_loop_prefix dev cv _ _ _, fun _ => loop.2⟩
    | false =>
      obtain ⟨f1, f2⟩ := SamTrtDecoder.decode_points_of_upload_fault dev cv st image_embeddings
        (ppre ++ pk :: ppost) prior hup
      have hs' : sp = .MODEL_RUN_SESSION_FAILED := by
        rcases SamTrtDecoder.get_mask_status dev cv _ _ _ _ sp hpk with h | h
        · exact absurd h hsp
        · exact h
      exact ⟨by rw [f1, hs'], by rw [f2], fun h => absurd h (by simp)⟩
  · intro pre k post t ht gpre gk
    exact SamSegmentor.get_masks_fail ort cv seg image_embeddings k post t ht gk pre seg
      prior rfl gpre

/-- C3, on the example device whose engine run fails for the second of three
prompts and the example sessions whose point tensor fails for it. -/
theorem first_failure_keeps_earlier_masks_witness :
    ((SamTrtDecoder.decode example_device_run_fault example_cv example_decoder
        example_embedding ([box1] ++ box2 :: [box3]) []).completion =
        .returned .MODEL_RUN_SESSION_FAILED ∧
      (SamTrtDecoder.decode example_device_run_fault example_cv example_decoder
        example_embedding ([box1] ++ box2 :: [box3]) []).out.length = 1) ∧
    ((SamTrtDecoder.decode_points example_device_run_fault example_cv example_decoder
        example_embedding ([points1] ++ points2 :: [points3]) []).completion =
        .returned .MODEL_RUN_SESSION_FAILED ∧
      (SamTrtDecoder.decode_points example_device_run_fault example_cv example_decoder
        example_embedding ([points1] ++ points2 :: [points3]) []).out.length = 1) ∧
    ((SamSegmentor.get_masks example_sessions_tensor_fault example_cv example_segmentor
        example_embedding ([box1] ++ box2 :: [box3]) []).completion =
        .returned .MODEL_RUN_SESSION_FAILED ∧
      (SamSegmentor.get_masks example_sessions_tensor_fault example_cv example_segmentor
        example_embedding ([box1] ++ box2 :: [box3]) []).out.length = 1) := by
  have h := first_failure_keeps_earlier_masks example_device_run_fault
    example_sessions_tensor_fault example_cv example_decoder example_segmentor
    example_embedding []
  have hb := h.1 [box1] box2 [box3] .MODEL_RUN_SESSION_FAILED (by decide)
    (fun b hb => by
      rw [List.mem_singleton.mp hb]
      exact (example_get_mask_no_fault _ box1 (by norm_num [box1]) rfl rfl).1)
    (example_get_mask_run_fault _)
  have hp := h.2.1 [points1] points2 [points3] .MODEL_RUN_SESSION_FAILED (by decide)
    (fun pts hpts => by
      rw [List.mem_singleton.mp hpts]
      exact (example_get_mask_points _ rfl rfl).1)
    (example_get_mask_points _ rfl rfl).2
  have hg := h.2.2 [box1] box2 [box3] .MODEL_RUN_SESSION_FAILED (by decide)
    (fun b hb => by
      rw [List.mem_singleton.mp hb]
      exact (example_seg_get_mask example_sessions_tensor_fault example_segmentor
        example_embedding box1 (fun _ _ hd => decide_eq_true hd) (by norm_num [box1])
        (fun _ => rfl) rfl).1)
    (seg_get_mask_of_tensor_fault example_sessions_tensor_fault example_cv example_segmentor
      example_embedding box2 Mat.empty_mat
      (by simp [example_sessions_tensor_fault, SamSegmentor.total_points, Rect2f.tl, box2]))
  refine ⟨⟨hb.1, ?_⟩, ⟨hp.1, ?_⟩, ⟨hg.1, ?_⟩⟩
  · rw [hb.2.2 rfl]; rfl
  · rw [hp.2.2 rfl]; rfl
  · rw [hg.2]; rfl

/-! ## Empty prompt set -/

/-- C4: for every input image, `SamSegmentor::predict` called with an empty box
list returns a failure status (the run-session failure, not `OK`), issues no
encoder or decoder session run, and leaves `predicted_masks` as it was. -/
theorem predict_rejects_empty_boxes (ort : OrtBackend) (cv : CvOps) (st : SamSegmentor)
    (input_image : Mat) (predicted_masks : List Mat) :
    (SamSegmentor.predict ort cv st input_image [] predicted_masks).completion =
      .returned .MODEL_RUN_SESSION_FAILED ∧
    (SamSegmentor.predict ort cv st input_image [] predicted_masks).completion ≠
      .returned .OK ∧
    (SamSegmentor.predict ort cv st input_image [] predicted_masks).state.session_log =
      st.session_log ∧
    (SamSegmentor.predict ort cv st input_image [] predicted_masks).out = predicted_masks := by
  refine ⟨rfl, ?_, rfl, rfl⟩
  show Outcome.returned StatusCode.MODEL_RUN_SESSION_FAILED ≠ Outcome.returned StatusCode.OK
  simp

/-! ## Prompt encoding -/

/-- C5, at the box with corners (10, 10) and (50, 50): `decode` returns `OK`
after one engine run, and that run is handed four labeled points, the two
corners followed by two padding points: coordinates
[10, 10, 50, 50, 0, 0, 0, 0] under shape (1, 4, 2) and labels [2, 3, -1, -1]
under shape (1, 4); `decode` has appended (0, 0) / -1 and `get_mask` appends it
again. -/
theorem box_prompt_reaches_engine_with_two_padding_points :
    (SamTrtDecoder.decode example_device example_cv example_decoder example_embedding [box1]
      []).completion = .returned .OK ∧
    SamTrtDecoder.engine_calls (SamTrtDecoder.decode example_device example_cv example_decoder
      example_embedding [box1] []).state.device_log =
      [SamTrtDecoder.prompt_inputs example_embedding (SamTrtDecoder.bbox_point_coords box1)
        SamTrtDecoder.bbox_point_labels] ∧
    (SamTrtDecoder.prompt_inputs example_embedding (SamTrtDecoder.bbox_point_coords box1)
      SamTrtDecoder.bbox_point_labels).memory.point_coords = [10, 10, 50, 50, 0, 0, 0, 0] ∧
    (SamTrtDecoder.prompt_inputs example_embedding (SamTrtDecoder.bbox_point_coords box1)
      SamTrtDecoder.bbox_point_labels).point_coords_shape = [1, 4, 2] ∧
    (SamTrtDecoder.prompt_inputs example_embedding (SamTrtDecoder.bbox_point_coords box1)
      SamTrtDecoder.bbox_point_labels).memory.point_labels = [2, 3, -1, -1] ∧
    (SamTrtDecoder.prompt_inputs example_embedding (SamTrtDecoder.bbox_point_coords box1)
      SamTrtDecoder.bbox_point_labels).point_labels_shape = [1, 4] := by
  have hok : (SamTrtDecoder.decode_bboxes_loop example_device example_cv
      (SamTrtDecoder.upload_embedding example_decoder example_embedding) [box1]
      []).completion = .returned .OK :=
    (SamTrtDecoder.decode_bboxes_loop_ok example_device example_cv
      (SamTrtDecoder.upload_embedding example_decoder example_embedding) [box1] _ [] rfl
      (fun b _ => (example_get_mask_ok example_device _ b (fun _ _ _ => rfl) rfl (fun _ => rfl)
        rfl rfl).1)).1
  rw [SamTrtDecoder.decode_of_upload_ok _ _ _ _ _ _ rfl]
  refine ⟨hok, ?_, ?_, rfl, ?_, rfl⟩
  · rw [SamTrtDecoder.decode_bboxes_loop_engine_calls _ _ _ _ _ hok]
    rfl
  · norm_num [SamTrtDecoder.prompt_inputs, SamTrtDecoder.total_points,
      SamTrtDecoder.bbox_point_coords, Rect2f.tl, Rect2f.br, box1]
  · simp [SamTrtDecoder.prompt_inputs, SamTrtDecoder.total_labels,
      SamTrtDecoder.bbox_point_labels]

/-- C6: every engine run of `SamTrtDecoder::decode` over point sets is the run
for one prompt of the list, the runs following the order of the prompts (all of
them when `decode` returns `OK`); and for a prompt of n points the engine is
handed the n points in their order followed by the one padding point (0, 0),
2(n+1) coordinate values under shape (1, n+1, 2), with the labels n times 1
followed by the one label -1, n+1 values under shape (1, n+1). -/
theorem points_prompt_reaches_engine_with_one_padding_point (dev : TrtBackend) (cv : CvOps)
    (st : SamTrtDecoder) (image_embeddings : List Val) (points : List (List Point2f))
    (prior : List Mat) :
    (∃ k, k ≤ points.length ∧
      SamTrtDecoder.engine_calls
        (SamTrtDecoder.decode_points dev cv st image_embeddings points prior).state.device_log =
        SamTrtDecoder.engine_calls st.device_log ++ (points.take k).map (fun pts =>
          SamTrtDecoder.prompt_inputs image_embeddings pts (List.replicate pts.length 1)) ∧
      ((SamTrtDecoder.decode_points dev cv st image_embeddings points prior).completion =
        .returned .OK → k = points.length)) ∧
    ∀ pts : List Point2f,
      (SamTrtDecoder.prompt_inputs image_embeddings pts
        (List.replicate pts.length 1)).memory.point_coords =
          pts.flatMap (fun pt => [pt.x, pt.y]) ++ [0, 0] ∧
      (SamTrtDecoder.prompt_inputs image_embeddings pts
        (List.replicate pts.length 1)).memory.point_coords.length = 2 * (pts.length + 1) ∧
      (SamTrtDecoder.prompt_inputs image_embeddings pts
        (List.replicate pts.length 1)).point_coords_shape = [1, ((pts.length + 1 : Nat) : Int), 2] ∧
      (SamTrtDecoder.prompt_inputs image_embeddings pts
        (List.replicate pts.length 1)).memory.point_labels = List.replicate pts.length 1 ++ [-1] ∧
      (SamTrtDecoder.prompt_inputs image_embeddings pts
        (List.replicate pts.length 1)).memory.point_labels.length = pts.length + 1 ∧
      (SamTrtDecoder.prompt_inputs image_embeddings pts
        (List.replicate pts.length 1)).point_labels_shape = [1, ((pts.length + 1 : Nat) : Int)] := by
  have hflat : ∀ pts : List Point2f,
      pts.foldr (fun pt acc => pt.x :: pt.y :: acc) [] = pts.flatMap (fun pt => [pt.x, pt.y]) := by
    intro pts
    induction pts with
    | nil => rfl
    | cons p rest ih => simp [List.flatMap_cons, ih]
  have hlen : ∀ pts : List Point2f,
      (pts.flatMap (fun pt => [pt.x, pt.y])).length = 2 * pts.length := by
    intro pts
    induction pts with
    | nil => rfl
    | cons p rest ih => simp [List.flatMap_cons, ih]; omega
  constructor
  · cases hup : dev.memcpyH2D_ok .image_embeddings image_embeddings with
    | false =>
      refine ⟨0, Nat.zero_le _, ?_, ?_⟩
      · unfold SamTrtDecoder.decode_points
        rw [if_pos (by simp [hup])]
        simp [SamTrtDecoder.log_issue, SamTrtDecoder.engine_calls_append,
          SamTrtDecoder.engine_calls]
      · unfold SamTrtDecoder.decode_points
        rw [if_pos (by simp [hup])]
        intro hc
        simp at hc
    | true =>
      obtain ⟨k, hk, hlog, hall⟩ := SamTrtDecoder.decode_points_loop_engine_calls dev cv points
        (SamTrtDecoder.upload_embedding st image_embeddings) prior
      refine ⟨k, hk, ?_, ?_⟩
      · unfold SamTrtDecoder.decode_points
        rw [if_neg (by simp [hup]), hlog]
        have : SamTrtDecoder.engine_calls
            (SamTrtDecoder.upload_embedding st image_embeddings).device_log =
            SamTrtDecoder.engine_calls st.device_log := by
          simp [SamTrtDecoder.upload_embedding, SamTrtDecoder.log_store,
            SamTrtDecoder.log_issue, SamTrtDecoder.engine_calls_append,
            SamTrtDecoder.engine_calls]
        rw [this]
        rfl
      · unfold SamTrtDecoder.decode_points
        rw [if_neg (by simp [hup])]
        exact hall
  · intro pts
    have hc : (SamTrtDecoder.prompt_inputs image_embeddings pts
        (List.replicate pts.length 1)).memory.point_coords =
          pts.flatMap (fun pt => [pt.x, pt.y]) ++ [0, 0] := by
      show pts.foldr (fun (pt : Point2f) acc => pt.x :: pt.y :: acc) [] ++ [0, 0] = _
      rw [hflat]
    have hcl : (SamTrtDecoder.total_points pts).length = 2 * (pts.length + 1) := by
      show (pts.foldr (fun (pt : Point2f) acc => pt.x :: pt.y :: acc) [] ++ [0, 0]).length = _
      rw [hflat, List.length_append, hlen]
      simp
      omega
    refine ⟨hc, hcl, ?_, rfl, ?_, ?_⟩
    · show [1, (((SamTrtDecoder.total_points pts).length / 2 : Nat) : Int), 2] = _
      rw [hcl]
      simp
    · show (List.replicate pts.length (1 : Val) ++ [-1]).length = _
      simp
    · have hs : (SamTrtDecoder.prompt_inputs image_embeddings pts
          (List.replicate pts.length 1)).point_labels_shape =
          [1, (((SamTrtDecoder.total_labels (List.replicate pts.length 1)).length : Nat) : Int)] :=
        rfl
      rw [hs]
      simp [SamTrtDecoder.total_labels]

/-! ## Candidate selection -/

/-- C7: when a `get_mask` call reaches the engine and the engine returns a
non-empty confidence vector, the call is completed by `decode_output_mask` on
the index `i` that is the first index of a largest confidence: no confidence
exceeds the one at `i`, and no smaller index has that property. -/
theorem get_mask_selects_first_maximum (dev : TrtBackend) (cv : CvOps) (st : SamTrtDecoder)
    (point_coords : List Point2f) (point_labels : List Val) (out_mask : Mat)
    (outputs : EngineOutputs)
    (h1 : dev.memcpyH2D_ok .point_coords (SamTrtDecoder.total_points point_coords) = true)
    (h2 : dev.memcpyH2D_ok .point_labels (SamTrtDecoder.total_labels point_labels) = true)
    (h3 : dev.memcpyH2D_ok .mask_input mask_tensor_values = true)
    (h4 : dev.memcpyH2D_ok .has_mask_input has_mask_tensor_values = true)
    (hrun : dev.enqueueV3 (SamTrtDecoder.prompt_inputs st._m_device_memory.image_embeddings
      point_coords point_labels) = some outputs)
    (h6 : dev.memcpyD2H_ok .low_res_masks = true)
    (h7 : dev.memcpyD2H_ok .iou_predictions = true)
    (hne : outputs.iou_predictions ≠ []) :
    ∃ i : Nat, first_index_of_maximum outputs.iou_predictions i ∧
      (SamTrtDecoder.get_mask dev cv st point_coords point_labels out_mask).completion =
        (match SamTrtDecoder.decode_output_mask cv st outputs.low_res_masks (i : Int) with
          | none => Outcome.thrown
          | some _ => Outcome.returned StatusCode.OK) ∧
      (SamTrtDecoder.get_mask dev cv st point_coords point_labels out_mask).out =
        (match SamTrtDecoder.decode_output_mask cv st outputs.low_res_masks (i : Int) with
          | none => out_mask
          | some o_mask => o_mask) := by
  refine ⟨max_element outputs.iou_predictions,
    max_element_first_index_of_maximum outputs.iou_predictions hne, ?_⟩
  obtain ⟨g1, g2⟩ := SamTrtDecoder.get_mask_of_ok dev cv st point_coords point_labels out_mask
    outputs h1 h2 h3 h4 hrun h6 h7
  rw [g1, g2]
  unfold SamTrtDecoder.parse_output_mask
  dsimp only
  split <;> exact ⟨rfl, rfl⟩

/-- C7, on the example device: the confidences are 1/5, 9/10, 9/10, 1/10, and the
prompt of the first example box reaches the engine. -/
theorem get_mask_selects_first_maximum_witness :
    ∃ i : Nat, first_index_of_maximum [1 / 5, 9 / 10, 9 / 10, 1 / 10] i ∧
      (SamTrtDecoder.get_mask example_device example_cv example_decoder
        (SamTrtDecoder.bbox_point_coords box1) SamTrtDecoder.bbox_point_labels
        Mat.empty_mat).completion =
        (match SamTrtDecoder.decode_output_mask example_cv example_decoder
            (constant_low_res (10 - 20)) (i : Int) with
          | none => Outcome.thrown
          | some _ => Outcome.returned StatusCode.OK) ∧
      (SamTrtDecoder.get_mask example_device example_cv example_decoder
        (SamTrtDecoder.bbox_point_coords box1) SamTrtDecoder.bbox_point_labels
        Mat.empty_mat).out =
        (match SamTrtDecoder.decode_output_mask example_cv example_decoder
            (constant_low_res (10 - 20)) (i : Int) with
          | none => Mat.empty_mat
          | some o_mask => o_mask) :=
  get_mask_selects_first_maximum example_device example_cv example_decoder
    (SamTrtDecoder.bbox_point_coords box1) SamTrtDecoder.bbox_point_labels Mat.empty_mat
    ⟨constant_low_res (10 - 20), [1 / 5, 9 / 10, 9 / 10, 1 / 10]⟩ rfl rfl rfl rfl rfl rfl rfl
    (by simp)



/-! ## Candidate selection in the graph-runtime variant -/

/-- C8, at an engine output with two candidates of extent 2 x 2 for a 2 x 2
image: the second candidate has the larger confidence and is positive at pixel
(0, 0), so the mask of the candidate of maximum confidence is foreground there;
`SamSegmentor::get_mask` returns `OK` with a mask that is background there, the
binarization of the first candidate. -/
theorem seg_get_mask_ignores_confidence :
    (SamSegmentor.get_mask example_sessions example_cv example_segmentor example_embedding box1
      Mat.empty_mat).completion = .returned .OK ∧
    max_element example_decoder_outputs.iou_predictions.data = 1 ∧
    (SamSegmentor.candidate_mask example_decoder_outputs.masks
      (max_element example_decoder_outputs.iou_predictions.data)).px 0 0 0 = 255 ∧
    (SamSegmentor.get_mask example_sessions example_cv example_segmentor example_embedding box1
      Mat.empty_mat).out.px 0 0 0 = 0 := by
  have h := example_seg_get_mask example_sessions example_segmentor example_embedding box1
    (fun _ _ _ => rfl) (by norm_num [box1]) (fun _ => rfl) rfl
  have hidx : max_element example_decoder_outputs.iou_predictions.data = 1 := by
    norm_num [max_element, max_element_from, example_decoder_outputs, example_iou_predictions]
  refine ⟨h.1, hidx, ?_, ?_⟩
  · rw [hidx]
    have h4 : ((1 : Nat) : Int) * 2 * 2 + 0 * 2 + 0 = ((4 : Nat) : Int) := by norm_num
    simp only [SamSegmentor.candidate_mask, example_decoder_outputs, example_masks,
      List.getD_cons_succ, List.getD_cons_zero, h4, Int.toNat_ofNat]
    norm_num
  · rw [h.2]
    norm_num [example_masks]


/-! ## The scale / pad transform -/

/-- C9: for an original image of extent w x h (w, h >= 1) and a square encoder
input E x E shared by the segmentor and the decoder, `decode_output_mask`
computes the scale factor, the resized target extent and the padding that
`preprocess_image` computes, and its crop rectangle is (0, 0, target_w,
target_h): the region `preprocess_image` leaves unpadded. -/
theorem decode_geometry_matches_preprocess (dec : SamTrtDecoder) (seg : SamSegmentor)
    (w h E : Int) (_hw : 1 ≤ w) (_hh : 1 ≤ h)
    (hori : dec._m_ori_image_size = ⟨w, h⟩) (henc : dec._m_encoder_input_size = ⟨E, E⟩)
    (hs2 : seg._m_encoder_input_shape.getD 2 0 = E)
    (hs3 : seg._m_encoder_input_shape.getD 3 0 = E) :
    (SamTrtDecoder.crop_geometry dec).scale = (SamSegmentor.pad_geometry seg ⟨w, h⟩).scale ∧
    (SamTrtDecoder.crop_geometry dec).target_size =
      (SamSegmentor.pad_geometry seg ⟨w, h⟩).target_size ∧
    (SamTrtDecoder.crop_geometry dec).pad_h = (SamSegmentor.pad_geometry seg ⟨w, h⟩).pad_h ∧
    (SamTrtDecoder.crop_geometry dec).pad_w = (SamSegmentor.pad_geometry seg ⟨w, h⟩).pad_w ∧
    (SamTrtDecoder.crop_geometry dec).cropped_roi =
      ⟨0, 0, (SamSegmentor.pad_geometry seg ⟨w, h⟩).target_size.width,
        (SamSegmentor.pad_geometry seg ⟨w, h⟩).target_size.height⟩ := by
  simp only [SamTrtDecoder.crop_geometry, SamSegmentor.pad_geometry, hori, henc, hs2, hs3,
    sub_sub_cancel, and_self]

/-- C9, for a 100 x 100 image and the 1024 x 1024 encoder of the examples. -/
theorem decode_geometry_matches_preprocess_witness :
    (SamTrtDecoder.crop_geometry example_decoder).scale =
      (SamSegmentor.pad_geometry example_segmentor ⟨100, 100⟩).scale ∧
    (SamTrtDecoder.crop_geometry example_decoder).target_size =
      (SamSegmentor.pad_geometry example_segmentor ⟨100, 100⟩).target_size ∧
    (SamTrtDecoder.crop_geometry example_decoder).pad_h =
      (SamSegmentor.pad_geometry example_segmentor ⟨100, 100⟩).pad_h ∧
    (SamTrtDecoder.crop_geometry example_decoder).pad_w =
      (SamSegmentor.pad_geometry example_segmentor ⟨100, 100⟩).pad_w ∧
    (SamTrtDecoder.crop_geometry example_decoder).cropped_roi =
      ⟨0, 0, (SamSegmentor.pad_geometry example_segmentor ⟨100, 100⟩).target_size.width,
        (SamSegmentor.pad_geometry example_segmentor ⟨100, 100⟩).target_size.height⟩ :=
  decode_geometry_matches_preprocess example_decoder example_segmentor 100 100 1024
    (by decide) (by decide) rfl rfl rfl rfl

/-- Inside the target extent, a pixel of the image `preprocess_image` returns is
the pixel of the resized `input_image`, normalized with the mean and the scale of
its channel index: the image that is resized is `input_image` itself, not the
result of `cvtColor`. -/
theorem preprocess_image_px (cv : CvOps) (seg : SamSegmentor) (input_image result : Mat)
    (hres : SamSegmentor.preprocess_image cv seg input_image = some result)
    (row col ch : Int)
    (hrow : 0 ≤ row ∧ row < (SamSegmentor.pad_geometry seg input_image.size).target_size.height)
    (hcol : 0 ≤ col ∧ col < (SamSegmentor.pad_geometry seg input_image.size).target_size.width) :
    result.px row col ch =
      (cv.inter_linear input_image (SamSegmentor.pad_geometry seg input_image.size).target_size
          row col ch - scalar3 123.675 116.28 103.53 ch) / scalar3 58.395 57.12 57.375 ch := by
  unfold SamSegmentor.preprocess_image at hres
  dsimp only at hres
  split at hres
  · exact absurd hres (by simp)
  · split at hres
    · exact absurd hres (by simp)
    · rename_i resized hresize
      unfold cv_resize at hresize
      split at hresize
      · exact absurd hresize (by simp)
      · cases hresize
        unfold cv_copyMakeBorder at hres
        split at hres
        · exact absurd hres (by simp)
        · cases hres
          dsimp only [cv_divide, cv_subtract]
          rw [if_pos (by omega)]
          simp only [sub_zero]

/-- C11: on the 2 x 2 image of one colour (blue 10, green 20, red 30, in BGR
order) `preprocess_image` returns a 1024 x 1024 image of 3 channels whose
channel 0 is everywhere (10 - 123.675) / 58.395, the blue value under the mean
and scale of red, and whose channel 2 is everywhere (30 - 103.53) / 57.375, the
red value under the mean and scale of blue; neither is the value the
colour-converted image would give. -/
theorem preprocess_image_discards_colour_conversion :
    ∃ result, SamSegmentor.preprocess_image example_cv example_segmentor example_bgr_image =
        some result ∧
      result.rows = 1024 ∧ result.cols = 1024 ∧ result.channels = 3 ∧
      ∀ row col : Int, 0 ≤ row ∧ row < 1024 → 0 ≤ col ∧ col < 1024 →
        result.px row col 0 = (10 - 123.675) / 58.395 ∧
        result.px row col 0 ≠ (30 - 123.675) / 58.395 ∧
        result.px row col 2 = (30 - 103.53) / 57.375 ∧
        result.px row col 2 ≠ (10 - 103.53) / 57.375 := by
  have hw : (SamSegmentor.pad_geometry example_segmentor example_bgr_image.size).target_size =
      ⟨1024, 1024⟩ := by
    simp only [SamSegmentor.pad_geometry, example_segmentor, example_bgr_image, Mat.size]
    norm_num [trunc]
  have hne : example_bgr_image.empty = false := by decide
  have hcvt : cv_cvtColor_BGR2RGB example_bgr_image =
      some ⟨example_bgr_image.rows, example_bgr_image.cols, 3,
        fun row col ch => example_bgr_image.px row col (2 - ch)⟩ := by
    unfold cv_cvtColor_BGR2RGB
    rw [if_neg (by decide)]
  have hrs : cv_resize example_cv.inter_linear example_bgr_image ⟨1024, 1024⟩ =
      some ⟨1024, 1024, 3, example_cv.inter_linear example_bgr_image ⟨1024, 1024⟩⟩ := by
    unfold cv_resize
    rw [if_neg (by decide)]
    rfl
  have hpad : (SamSegmentor.pad_geometry example_segmentor example_bgr_image.size).pad_h = 0 ∧
      (SamSegmentor.pad_geometry example_segmentor example_bgr_image.size).pad_w = 0 := by
    have h1 : (SamSegmentor.pad_geometry example_segmentor example_bgr_image.size).pad_h =
        1024 - (SamSegmentor.pad_geometry example_segmentor
          example_bgr_image.size).target_size.height := rfl
    have h2 : (SamSegmentor.pad_geometry example_segmentor example_bgr_image.size).pad_w =
        1024 - (SamSegmentor.pad_geometry example_segmentor
          example_bgr_image.size).target_size.width := rfl
    rw [h1, h2, hw]
    decide
  have hres : ∃ result, SamSegmentor.preprocess_image example_cv example_segmentor
      example_bgr_image = some result ∧ result.rows = 1024 ∧ result.cols = 1024 ∧
      result.channels = 3 := by
    unfold SamSegmentor.preprocess_image
    dsimp only
    rw [hcvt]
    dsimp only
    rw [hw, hrs]
    dsimp only
    rw [hpad.1, hpad.2]
    unfold cv_copyMakeBorder
    rw [if_neg (by decide)]
    exact ⟨_, rfl, rfl, rfl, rfl⟩
  obtain ⟨result, hres, hr, hc, hch⟩ := hres
  refine ⟨result, hres, hr, hc, hch, ?_⟩
  intro row col hrow hcol
  have h0 := preprocess_image_px example_cv example_segmentor example_bgr_image result hres
    row col 0 (by rw [hw]; exact hrow) (by rw [hw]; exact hcol)
  have h2 := preprocess_image_px example_cv example_segmentor example_bgr_image result hres
    row col 2 (by rw [hw]; exact hrow) (by rw [hw]; exact hcol)
  rw [hw] at h0 h2
  have k0 : example_cv.inter_linear example_bgr_image ⟨1024, 1024⟩ row col 0 = 10 := rfl
  have k2 : example_cv.inter_linear example_bgr_image ⟨1024, 1024⟩ row col 2 = 30 := rfl
  rw [k0] at h0
  rw [k2] at h2
  rw [h0, h2]
  norm_num [scalar3]

/-! ## Binarization of the masks -/

/-- The graph-runtime `get_mask` returns `OK` only when the decoder session has
returned and the mask could be read from its first output. -/
theorem seg_get_mask_of_ok (ort : OrtBackend) (cv : CvOps) (st : SamSegmentor)
    (emb : List Val) (bbox : Rect2f) (om : Mat)
    (h : (SamSegmentor.get_mask ort cv st emb bbox om).completion = .returned .OK) :
    ∃ o, ort.decoder_run (SamSegmentor.decoder_input_tensor st emb bbox) = some o ∧
      SamSegmentor.read_output_mask cv st o.masks =
        some (SamSegmentor.get_mask ort cv st emb bbox om).out := by
  unfold SamSegmentor.get_mask at h ⊢
  dsimp only at h ⊢
  split at h
  · exact absurd h (by simp)
  split at h
  · exact absurd h (by simp)
  split at h
  · exact absurd h (by simp)
  split at h
  · exact absurd h (by simp)
  split at h
  · exact absurd h (by simp)
  rename_i h1 h2 h3 h4 h5
  rw [if_neg h1, if_neg h2, if_neg h3, if_neg h4, if_neg h5]
  unfold SamSegmentor.run_decoder at h ⊢
  dsimp only at h ⊢
  split at h
  · exact absurd h (by simp)
  · rename_i o ho
    refine ⟨o, ho, ?_⟩
    rw [SamSegmentor.read_output_mask_congr cv (st.issue _) st
      (SamSegmentor.seg_view_issue _ _)] at h ⊢
    split at h
    · exact absurd h (by simp)
    · rename_i mask hm
      rw [hm]

/-- What `read_output_mask` returns is the logit matrix binarized at zero, taken
as it is or resized by nearest-neighbour sampling. -/
theorem read_output_mask_px (cv : CvOps) (st : SamSegmentor) (masks : Tensor) (m : Mat)
    (hnear : nearest_neighbour cv.inter_nearest)
    (h : SamSegmentor.read_output_mask cv st masks = some m) (row col ch : Int) :
    m.px row col ch = if SamSegmentor.logit_at cv st masks row col ch > 0 then 255 else 0 := by
  obtain ⟨sel, hsel⟩ := hnear
  unfold SamSegmentor.logit_at
  unfold SamSegmentor.read_output_mask at h
  dsimp only at h
  split at h
  · exact absurd h (by simp)
  · split at h
    · rename_i hne
      rw [if_neg hne]
      unfold cv_resize at h
      split at h
      · exact absurd h (by simp)
      · cases h
        dsimp only
        rw [hsel, hsel]
        rfl
    · rename_i heq
      rw [if_pos (not_not.mp heq)]
      cases h
      rfl

/-- C12: every pixel of a mask the decoder produces is the logit binarized at
zero. For `decode_output_mask`: whenever it returns a mask, the low-resolution
logits of the chosen candidate have been resized to the encoder input size,
cropped and resized to the original image size, and each pixel of the mask is
255 when the logit resampled to that pixel is strictly greater than 0 and 0
otherwise. For `SamSegmentor::get_mask` (nearest-neighbour sampling copying a
source pixel): whenever it returns `OK`, each pixel of the mask is 255 when the
logit at that pixel, read directly or resized to the original image size, is
strictly greater than 0, and 0 otherwise. Hence a logit of exactly 0 gives 0
and both masks hold no value other than 0 and 255. -/
theorem masks_binarized_at_zero (ort : OrtBackend) (cv : CvOps) (st : SamTrtDecoder)
    (seg : SamSegmentor) (low_res_mask_value : List Val) (mask_idx : Int) (o_mask : Mat)
    (image_embeddings : List Val) (bbox : Rect2f) (out_mask : Mat) :
    (SamTrtDecoder.decode_output_mask cv st low_res_mask_value mask_idx = some o_mask →
      ∃ large cropped logit : Mat,
      cv_resize cv.inter_linear ⟨256, 256, 1, fun row col _ =>
        low_res_mask_value.getD (SamTrtDecoder.low_res_index mask_idx row col).toNat 0⟩
        st._m_encoder_input_size = some large ∧
      large.roi (SamTrtDecoder.crop_geometry st).cropped_roi = some cropped ∧
      cv_resize cv.inter_linear cropped st._m_ori_image_size = some logit ∧
      ∀ row col ch : Int,
        o_mask.px row col ch = (if logit.px row col 0 > 0 then 255 else 0) ∧
        (o_mask.px row col ch = 255 ↔ logit.px row col 0 > 0) ∧
        (logit.px row col 0 = 0 → o_mask.px row col ch = 0) ∧
        (o_mask.px row col ch = 0 ∨ o_mask.px row col ch = 255)) ∧
    (nearest_neighbour cv.inter_nearest →
      (SamSegmentor.get_mask ort cv seg image_embeddings bbox out_mask).completion =
        .returned .OK →
      ∃ o : DecoderOutputs,
      ort.decoder_run (SamSegmentor.decoder_input_tensor seg image_embeddings bbox) = some o ∧
      ∀ row col ch : Int,
        (SamSegmentor.get_mask ort cv seg image_embeddings bbox out_mask).out.px row col ch =
          (if SamSegmentor.logit_at cv seg o.masks row col ch > 0 then 255 else 0) ∧
        ((SamSegmentor.get_mask ort cv seg image_embeddings bbox out_mask).out.px row col ch =
          255 ↔ SamSegmentor.logit_at cv seg o.masks row col ch > 0) ∧
        (SamSegmentor.logit_at cv seg o.masks row col ch = 0 →
          (SamSegmentor.get_mask ort cv seg image_embeddings bbox out_mask).out.px row col ch =
            0) ∧
        ((SamSegmentor.get_mask ort cv seg image_embeddings bbox out_mask).out.px row col ch =
            0 ∨
          (SamSegmentor.get_mask ort cv seg image_embeddings bbox out_mask).out.px row col ch =
            255)) := by
  have key : ∀ (x l : Val), x = (if l > 0 then 255 else 0) →
      x = (if l > 0 then 255 else 0) ∧ (x = 255 ↔ l > 0) ∧ (l = 0 → x = 0) ∧
        (x = 0 ∨ x = 255) := by
    intro x l hx
    refine ⟨hx, ?_, ?_, ?_⟩
    · rw [hx]
      split
      · simp [*]
      · simp [*]
    · intro hl
      rw [hx, hl]
      simp
    · rw [hx]
      split
      · exact Or.inr rfl
      · exact Or.inl rfl
  constructor
  · intro hdec
    unfold SamTrtDecoder.decode_output_mask at hdec
    dsimp only at hdec
    split at hdec
    · exact absurd hdec (by simp)
    · rename_i large hlarge
      split at hdec
      · exact absurd hdec (by simp)
      · rename_i cropped hcropped
        split at hdec
        · exact absurd hdec (by simp)
        · rename_i logit hlogit
          cases hdec
          exact ⟨large, cropped, logit, hlarge, hcropped, hlogit, fun row col ch => key _ _ rfl⟩
  · intro hnear hseg
    obtain ⟨o, ho, hread⟩ := seg_get_mask_of_ok ort cv seg image_embeddings bbox out_mask hseg
    exact ⟨o, ho, fun row col ch =>
      key _ _ (read_output_mask_px cv seg o.masks _ hnear hread row col ch)⟩

theorem example_cv_nearest : nearest_neighbour example_cv.inter_nearest :=
  ⟨fun rows cols dsize row col => (row * rows / dsize.height, col * cols / dsize.width),
    fun _ _ _ _ _ => rfl⟩

/-- C12, on the examples: a candidate of constant logit 5 decoded for the
100 x 100 image, and the mask of the first box prompt from the example sessions. -/
theorem masks_binarized_at_zero_witness :
    (∃ m, SamTrtDecoder.decode_output_mask example_cv example_decoder (constant_low_res 5) 1 =
        some m ∧ ∀ row col ch : Int, m.px row col ch = 0 ∨ m.px row col ch = 255) ∧
    ∀ row col ch : Int,
      (SamSegmentor.get_mask example_sessions example_cv example_segmentor example_embedding
        box1 Mat.empty_mat).out.px row col ch = 0 ∨
      (SamSegmentor.get_mask example_sessions example_cv example_segmentor example_embedding
        box1 Mat.empty_mat).out.px row col ch = 255 := by
  obtain ⟨m, hm, -⟩ := SamTrtDecoder.decode_output_mask_example example_decoder rfl rfl
    (constant_low_res 5) 1
  have h := masks_binarized_at_zero example_sessions example_cv example_decoder
    example_segmentor (constant_low_res 5) 1 m example_embedding box1 Mat.empty_mat
  obtain ⟨_, _, _, _, _, _, h1⟩ := h.1 hm
  obtain ⟨_, _, h2⟩ := h.2 example_cv_nearest
    (example_seg_get_mask example_sessions example_segmentor example_embedding box1
      (fun _ _ _ => rfl) (by norm_num [box1]) (fun _ => rfl) rfl).1
  exact ⟨⟨m, hm, fun row col ch => (h1 row col ch).2.2.2⟩, fun row col ch => (h2 row col ch).2.2.2⟩
/-! ## The shapes of the dynamic point slots -/

namespace SamTrtDecoder

theorem shapes_set_append (slot : Slot) (a b : List DeviceOp) :
    shapes_set slot (a ++ b) = shapes_set slot a ++ shapes_set slot b := by
  induction a with
  | nil => rfl
  | cons op rest ih =>
    cases op <;> simp [shapes_set, ih]
    split <;> simp

theorem copies_to_append (slot : Slot) (a b : List DeviceOp) :
    copies_to slot (a ++ b) = copies_to slot a ++ copies_to slot b := by
  induction a with
  | nil => rfl
  | cons op rest ih =>
    cases op <;> simp [copies_to, ih]
    split <;> simp

theorem total_points_length (pc : List Point2f) :
    (total_points pc).length = 2 * (pc.length + 1) := by
  unfold total_points
  induction pc with
  | nil => rfl
  | cons pt rest ih =>
    simp only [List.foldr_cons, List.cons_append, List.length_cons] at ih ⊢
    omega

theorem total_labels_length (pl : List Val) : (total_labels pl).length = pl.length + 1 := by
  simp [total_labels]

end SamTrtDecoder

namespace SamTrtDecoder

theorem point_shapes_issue (st : SamTrtDecoder) (op : DeviceOp) :
    point_shapes (st.issue op) = point_shapes st := rfl

theorem point_shapes_store (st : SamTrtDecoder) (slot : Slot) (data : List Val) :
    point_shapes (st.store slot data) = point_shapes st := rfl

theorem point_shapes_set_tensor_addresses (st : SamTrtDecoder) :
    point_shapes (set_tensor_addresses st) = point_shapes st := by
  unfold set_tensor_addresses
  simp only [point_shapes_issue]

/-- From the engine run on, `get_mask` sets no input shape and issues no
host-to-device copy. -/
theorem do_inference_point_slots (dev : TrtBackend) (cv : CvOps) (st : SamTrtDecoder)
    (om : Mat) (slot : Slot) :
    point_shapes (do_inference dev cv st om).state = point_shapes st ∧
    shapes_set slot (do_inference dev cv st om).state.device_log =
      shapes_set slot st.device_log ∧
    copies_to slot (do_inference dev cv st om).state.device_log =
      copies_to slot st.device_log := by
  unfold do_inference
  dsimp only
  split
  · simp [log_issue, log_set_tensor_addresses, shapes_set_append, shapes_set, copies_to_append,
      copies_to, point_shapes_issue, point_shapes_set_tensor_addresses]
  · split
    · simp [log_issue, log_set_tensor_addresses, shapes_set_append, shapes_set,
        copies_to_append, copies_to, point_shapes_issue, point_shapes_set_tensor_addresses]
    · split
      · simp [log_issue, log_set_tensor_addresses, shapes_set_append, shapes_set,
          copies_to_append, copies_to, point_shapes_issue, point_shapes_set_tensor_addresses]
      · rw [parse_output_mask_state]
        simp [log_issue, log_set_tensor_addresses, shapes_set_append, shapes_set,
          copies_to_append, copies_to, point_shapes_issue, point_shapes_set_tensor_addresses]

/-- The copies of the zeroed prior and of the flag touch neither point slot. -/
theorem copy_mask_inputs_point_slots (dev : TrtBackend) (cv : CvOps) (st : SamTrtDecoder)
    (om : Mat) (slot : Slot) (hs : slot = .point_coords ∨ slot = .point_labels) :
    point_shapes (copy_mask_inputs dev cv st om).state = point_shapes st ∧
    shapes_set slot (copy_mask_inputs dev cv st om).state.device_log =
      shapes_set slot st.device_log ∧
    copies_to slot (copy_mask_inputs dev cv st om).state.device_log =
      copies_to slot st.device_log := by
  have h1 : Slot.mask_input ≠ slot := by rcases hs with h | h <;> rw [h] <;> decide
  have h2 : Slot.has_mask_input ≠ slot := by rcases hs with h | h <;> rw [h] <;> decide
  unfold copy_mask_inputs
  dsimp only
  split
  · simp [log_issue, shapes_set_append, shapes_set, copies_to_append, copies_to,
      point_shapes_issue, h1]
  · split
    · simp [log_issue, log_store, shapes_set_append, shapes_set, copies_to_append, copies_to,
        point_shapes_issue, point_shapes_store, h1, h2]
    · obtain ⟨a, b, c⟩ := do_inference_point_slots dev cv
        (((st.issue (.memcpyH2D .mask_input mask_tensor_values)).store .mask_input
          mask_tensor_values).issue (.memcpyH2D .has_mask_input has_mask_tensor_values) |>.store
          .has_mask_input has_mask_tensor_values) om slot
      rw [a, b, c]
      simp [log_issue, log_store, shapes_set_append, shapes_set, copies_to_append, copies_to,
        point_shapes_issue, point_shapes_store, h1, h2]

end SamTrtDecoder

namespace SamTrtDecoder

/-- What one `get_mask` call does to the two point slots: it sets the dims of the
bindings and the input shapes of the context to the shapes of this call, sets
each shape once, issues one copy of `total_points`, and one copy of
`total_labels` unless the first copy has failed. -/
theorem get_mask_point_slots (dev : TrtBackend) (cv : CvOps) (st : SamTrtDecoder)
    (pc : List Point2f) (pl : List Val) (om : Mat) :
    point_shapes (get_mask dev cv st pc pl om).state =
      ([1, (((total_points pc).length / 2 : Nat) : Int), 2], [1, ((total_labels pl).length : Int)],
        [1, (((total_points pc).length / 2 : Nat) : Int), 2],
        [1, ((total_labels pl).length : Int)]) ∧
    shapes_set .point_coords (get_mask dev cv st pc pl om).state.device_log =
      shapes_set .point_coords st.device_log ++
        [[1, (((total_points pc).length / 2 : Nat) : Int), 2]] ∧
    shapes_set .point_labels (get_mask dev cv st pc pl om).state.device_log =
      shapes_set .point_labels st.device_log ++ [[1, ((total_labels pl).length : Int)]] ∧
    copies_to .point_coords (get_mask dev cv st pc pl om).state.device_log =
      copies_to .point_coords st.device_log ++ [total_points pc] ∧
    copies_to .point_labels (get_mask dev cv st pc pl om).state.device_log =
      copies_to .point_labels st.device_log ++
        (if dev.memcpyH2D_ok .point_coords (total_points pc) then [total_labels pl] else []) := by
  unfold get_mask
  dsimp only
  split
  · rename_i h1
    simp only [Bool.not_eq_true'] at h1
    rw [h1]
    simp [log_issue, log_set_point_shapes, shapes_set_append, shapes_set, copies_to_append,
      copies_to, point_shapes_issue]
    rfl
  · rename_i h1
    simp only [Bool.not_eq_true', Bool.not_eq_false] at h1
    rw [h1]
    split
    · simp [log_issue, log_store, log_set_point_shapes, shapes_set_append, shapes_set,
        copies_to_append, copies_to, point_shapes_issue, point_shapes_store]
      rfl
    · obtain ⟨a, b, c⟩ := copy_mask_inputs_point_slots dev cv
        ((((set_point_shapes st [1, (((total_points pc).length / 2 : Nat) : Int), 2]
          [1, ((total_labels pl).length : Int)]).issue
            (.memcpyH2D .point_coords (total_points pc))).store .point_coords
              (total_points pc)).issue (.memcpyH2D .point_labels (total_labels pl)) |>.store
                .point_labels (total_labels pl)) om .point_coords (Or.inl rfl)
      obtain ⟨-, b', c'⟩ := copy_mask_inputs_point_slots dev cv
        ((((set_point_shapes st [1, (((total_points pc).length / 2 : Nat) : Int), 2]
          [1, ((total_labels pl).length : Int)]).issue
            (.memcpyH2D .point_coords (total_points pc))).store .point_coords
              (total_points pc)).issue (.memcpyH2D .point_labels (total_labels pl)) |>.store
                .point_labels (total_labels pl)) om .point_labels (Or.inr rfl)
      rw [a, b, c, b', c']
      simp [log_issue, log_store, log_set_point_shapes, shapes_set_append, shapes_set,
        copies_to_append, copies_to, point_shapes_issue, point_shapes_store]
      rfl

end SamTrtDecoder

theorem decode_points_loop_single_state (dev : TrtBackend) (cv : CvOps) (st : SamTrtDecoder)
    (pts : List Point2f) (prior : List Mat) :
    (SamTrtDecoder.decode_points_loop dev cv st [pts] prior).state =
      (SamTrtDecoder.get_mask dev cv st pts (List.replicate pts.length 1) Mat.empty_mat).state := by
  unfold SamTrtDecoder.decode_points_loop
  dsimp only
  split
  · rfl
  · split
    · rfl
    · rfl

/-- C13: `decode` over the point-set prompt of 128 points, on the example
decoder (capacity `_m_max_decoder_point_counts` = 128) and the device whose
calls all succeed: `get_mask` sets the shape (1, 129, 2) on `point_coords` and
(1, 129) on `point_labels`, and copies 258 coordinate values and 129 labels to
the device; the point count 129 exceeds the capacity 128. -/
theorem point_count_exceeds_capacity :
    example_decoder._m_max_decoder_point_counts = 128 ∧ points128.length = 128 ∧
    SamTrtDecoder.shapes_set .point_coords (SamTrtDecoder.decode_points example_device example_cv
      example_decoder example_embedding [points128] []).state.device_log = [[1, 129, 2]] ∧
    SamTrtDecoder.shapes_set .point_labels (SamTrtDecoder.decode_points example_device example_cv
      example_decoder example_embedding [points128] []).state.device_log = [[1, 129]] ∧
    SamTrtDecoder.point_shapes (SamTrtDecoder.decode_points example_device example_cv
      example_decoder example_embedding [points128] []).state =
        ([1, 129, 2], [1, 129], [1, 129, 2], [1, 129]) ∧
    (SamTrtDecoder.copies_to .point_coords (SamTrtDecoder.decode_points example_device example_cv
      example_decoder example_embedding [points128] []).state.device_log).map List.length =
        [258] ∧
    (SamTrtDecoder.copies_to .point_labels (SamTrtDecoder.decode_points example_device example_cv
      example_decoder example_embedding [points128] []).state.device_log).map List.length =
        [129] ∧
    (129 : Int) > example_decoder._m_max_decoder_point_counts := by
  have hst : (SamTrtDecoder.decode_points example_device example_cv example_decoder
      example_embedding [points128] []).state =
      (SamTrtDecoder.get_mask example_device example_cv
        (SamTrtDecoder.upload_embedding example_decoder example_embedding) points128
        (List.replicate points128.length 1) Mat.empty_mat).state := by
    rw [SamTrtDecoder.decode_points_of_upload_ok _ _ _ _ _ _ rfl]
    exact decode_points_loop_single_state _ _ _ _ _
  obtain ⟨a, b, c, d, e⟩ := SamTrtDecoder.get_mask_point_slots example_device example_cv
    (SamTrtDecoder.upload_embedding example_decoder example_embedding) points128
    (List.replicate points128.length 1) Mat.empty_mat
  have hn : points128.length = 128 := by simp [points128]
  have hp : (SamTrtDecoder.total_points points128).length = 258 := by
    rw [SamTrtDecoder.total_points_length, hn]
  have hl : (SamTrtDecoder.total_labels (List.replicate points128.length 1)).length = 129 := by
    rw [SamTrtDecoder.total_labels_length, List.length_replicate, hn]
  simp only [hp, hl] at a b c
  rw [hst]
  refine ⟨rfl, hn, ?_, ?_, ?_, ?_, ?_, by decide⟩
  · rw [b]; rfl
  · rw [c]; rfl
  · rw [a]; rfl
  · rw [d]
    simp [SamTrtDecoder.upload_embedding, SamTrtDecoder.log_issue, SamTrtDecoder.log_store,
      example_decoder, SamTrtDecoder.copies_to, hp]
  · rw [e]
    have hok : example_device.memcpyH2D_ok .point_coords
        (SamTrtDecoder.total_points points128) = true := rfl
    rw [hok]
    simp [SamTrtDecoder.upload_embedding, SamTrtDecoder.log_issue, SamTrtDecoder.log_store,
      example_decoder, SamTrtDecoder.copies_to, hl]

/-- With as many labels as points, a `get_mask` call sets both shapes to the
number of points it copies: the points it is given and the one it appends. -/
theorem get_mask_exact_point_count (dev : TrtBackend) (cv : CvOps) (st : SamTrtDecoder)
    (pc : List Point2f) (pl : List Val) (om : Mat) (hl : pl.length = pc.length) :
    SamTrtDecoder.exact_point_count dev st (SamTrtDecoder.get_mask dev cv st pc pl om).state
      (pc.length + 1) := by
  obtain ⟨a, b, c, d, e⟩ := SamTrtDecoder.get_mask_point_slots dev cv st pc pl om
  have hp : (SamTrtDecoder.total_points pc).length / 2 = pc.length + 1 := by
    rw [SamTrtDecoder.total_points_length]
    omega
  have hq : (SamTrtDecoder.total_labels pl).length = pc.length + 1 := by
    rw [SamTrtDecoder.total_labels_length, hl]
  rw [hp, hq] at a
  rw [hp] at b
  rw [hq] at c
  exact ⟨a, b, c, SamTrtDecoder.total_points pc, SamTrtDecoder.total_labels pl,
    SamTrtDecoder.total_points_length pc, hq, d, e⟩

/-- C14: in the `get_mask` call that `decode` makes for a box, and in the one it
makes for a point set of n points, the shape set on `point_coords` is (1, P, 2)
and the shape set on `point_labels` is (1, P) with the same P, and P is the
number of points copied to the device in this call (2 P coordinate values, P
labels): P = 4 for a box and P = n + 1 for the point set, whatever the capacity
`_m_max_decoder_point_counts` is. -/
theorem point_shapes_are_exact_point_count (dev : TrtBackend) (cv : CvOps) (st : SamTrtDecoder)
    (bbox : Rect2f) (point_coords : List Point2f) (out_mask : Mat) :
    SamTrtDecoder.exact_point_count dev st
      (SamTrtDecoder.get_mask dev cv st (SamTrtDecoder.bbox_point_coords bbox)
        SamTrtDecoder.bbox_point_labels out_mask).state 4 ∧
    SamTrtDecoder.exact_point_count dev st
      (SamTrtDecoder.get_mask dev cv st point_coords (List.replicate point_coords.length 1)
        out_mask).state (point_coords.length + 1) :=
  ⟨get_mask_exact_point_count dev cv st (SamTrtDecoder.bbox_point_coords bbox)
      SamTrtDecoder.bbox_point_labels out_mask rfl,
    get_mask_exact_point_count dev cv st point_coords (List.replicate point_coords.length 1)
      out_mask (List.length_replicate _ _)⟩

/-! ## Encoding an empty image -/

/-- On an empty image `cvtColor` raises in `preprocess_image`, and the exception
leaves `get_embedding`: no status is returned, no session is run and the
embedding is not written. -/
theorem get_embedding_of_empty (ort : OrtBackend) (cv : CvOps) (st : SamSegmentor)
    (input_image : Mat) (image_embeddings : List Val) (h : input_image.empty = true) :
    (SamSegmentor.get_embedding ort cv st input_image image_embeddings).completion = .thrown ∧
    (SamSegmentor.get_embedding ort cv st input_image image_embeddings).state = st ∧
    (SamSegmentor.get_embedding ort cv st input_image image_embeddings).out =
      image_embeddings := by
  have hp : SamSegmentor.preprocess_image cv st input_image = none := by
    unfold SamSegmentor.preprocess_image cv_cvtColor_BGR2RGB
    simp [h]
  unfold SamSegmentor.get_embedding SamSegmentor.encode_image_embeddings
  rw [hp]
  exact ⟨rfl, rfl, rfl⟩

/-- C15: `get_embedding` on the empty image (a default-constructed `cv::Mat`),
with the example segmentor and sessions: the call is left by the exception that
`cvtColor` raises in `preprocess_image`; it does not return, so it does not
return `MODEL_EMPTY_INPUT_IMAGE`; the encoder session is not run. -/
theorem get_embedding_empty_image_throws :
    Mat.empty_mat.empty = true ∧
    (SamSegmentor.get_embedding example_sessions example_cv example_segmentor Mat.empty_mat
      []).completion = .thrown ∧
    (SamSegmentor.get_embedding example_sessions example_cv example_segmentor Mat.empty_mat
      []).completion ≠ .returned .MODEL_EMPTY_INPUT_IMAGE ∧
    (SamSegmentor.get_embedding example_sessions example_cv example_segmentor Mat.empty_mat
      []).state.session_log = [] ∧
    (SamSegmentor.get_embedding example_sessions example_cv example_segmentor Mat.empty_mat
      []).out = [] := by
  obtain ⟨a, b, c⟩ := get_embedding_of_empty example_sessions example_cv example_segmentor
    Mat.empty_mat [] rfl
  refine ⟨rfl, a, ?_, ?_, c⟩
  · rw [a]
    exact fun h => Outcome.noConfusion h
  · rw [b]
    rfl

/-! ## EnlightenGan: validation of the input image -/

theorem run_session_log (mnn : MnnBackend) (cv : CvOps) (st : EnlightenGan)
    (input_image : Mat) (out : std_enhancement_output) :
    st.session_log.length ≤
      (EnlightenGan.run_session mnn cv st input_image out).state.session_log.length := by
  unfold EnlightenGan.run_session
  split
  · exact le_refl _
  · dsimp only
    split <;> simp [EnlightenGan.issue]

theorem resize_for_image_log (st : EnlightenGan) (input_image : Mat) :
    (EnlightenGan.resize_for_image st input_image).session_log.length =
      st.session_log.length + 3 := by
  simp [EnlightenGan.resize_for_image, EnlightenGan.issue]

/-- An image of 3 or 4 channels that is not empty and has the input size of the
session is preprocessed without an exception. -/
theorem preprocess_image_of_same_size (cv : CvOps) (st : EnlightenGan) (input_image : Mat)
    (he : input_image.empty = false)
    (hc : input_image.channels = 3 ∨ input_image.channels = 4)
    (hs : input_image.size = st._m_input_size_host) :
    ∃ p, EnlightenGan.preprocess_image cv st input_image = some p := by
  have h1 : (if input_image.channels = 4 then cv_cvtColor_BGRA2RGB input_image
      else cv_cvtColor_BGR2RGB input_image) =
      some ⟨input_image.rows, input_image.cols, 3,
        fun row col ch => input_image.px row col (2 - ch)⟩ := by
    unfold cv_cvtColor_BGRA2RGB cv_cvtColor_BGR2RGB
    rcases hc with hc | hc <;> simp [he, hc]
  unfold EnlightenGan.preprocess_image
  rw [h1]
  dsimp only
  rw [if_neg (not_not.mpr hs)]
  exact ⟨_, rfl⟩

theorem run_session_log_of_same_size (mnn : MnnBackend) (cv : CvOps) (st : EnlightenGan)
    (input_image : Mat) (out : std_enhancement_output)
    (he : input_image.empty = false)
    (hc : input_image.channels = 3 ∨ input_image.channels = 4)
    (hs : input_image.size = st._m_input_size_host) :
    (EnlightenGan.run_session mnn cv st input_image out).state.session_log.length =
      st.session_log.length + 1 := by
  obtain ⟨p, hp⟩ := preprocess_image_of_same_size cv st input_image he hc hs
  unfold EnlightenGan.run_session
  rw [hp]
  dsimp only
  split <;> simp [EnlightenGan.issue]

/-- C16: `EnlightenGan::run` validates the decoded image before any MNN call. An
image that is empty or has a height or a width below 10 gives
`MODEL_EMPTY_INPUT_IMAGE`, whatever its channel count; an image that passes this
check and has neither 3 nor 4 channels gives `MODEL_RUN_SESSION_FAILED`; in both
cases the model state (the session input size and the record of MNN calls) and
the output are left as they were. Hence an MNN call is issued only for an
image that is not empty, has height and width at least 10, and has 3 or 4
channels; and for such an image one is issued. -/
theorem run_validates_image_before_engine (mnn : MnnBackend) (cv : CvOps) (st : EnlightenGan)
    (internal_in : internal_input) (out : std_enhancement_output) :
    ((internal_in.input_image.empty = true ∨ internal_in.input_image.size.height < 10 ∨
        internal_in.input_image.size.width < 10) →
      (EnlightenGan.run mnn cv st internal_in out).completion =
        .returned .MODEL_EMPTY_INPUT_IMAGE ∧
      (EnlightenGan.run mnn cv st internal_in out).state = st ∧
      (EnlightenGan.run mnn cv st internal_in out).state.session_log = st.session_log ∧
      (EnlightenGan.run mnn cv st internal_in out).state._m_input_size_host =
        st._m_input_size_host ∧
      (EnlightenGan.run mnn cv st internal_in out).out = out) ∧
    (¬ (internal_in.input_image.empty = true ∨ internal_in.input_image.size.height < 10 ∨
        internal_in.input_image.size.width < 10) →
      internal_in.input_image.channels ≠ 3 → internal_in.input_image.channels ≠ 4 →
      (EnlightenGan.run mnn cv st internal_in out).completion =
        .returned .MODEL_RUN_SESSION_FAILED ∧
      (EnlightenGan.run mnn cv st internal_in out).state = st ∧
      (EnlightenGan.run mnn cv st internal_in out).state.session_log = st.session_log ∧
      (EnlightenGan.run mnn cv st internal_in out).state._m_input_size_host =
        st._m_input_size_host ∧
      (EnlightenGan.run mnn cv st internal_in out).out = out) ∧
    ((EnlightenGan.run mnn cv st internal_in out).state.session_log ≠ st.session_log ↔
      internal_in.input_image.empty = false ∧ 10 ≤ internal_in.input_image.size.height ∧
      10 ≤ internal_in.input_image.size.width ∧
      (internal_in.input_image.channels = 3 ∨ internal_in.input_image.channels = 4)) := by
  have hA : (internal_in.input_image.empty = true ∨ internal_in.input_image.size.height < 10 ∨
      internal_in.input_image.size.width < 10) →
      EnlightenGan.run mnn cv st internal_in out =
        ⟨.returned .MODEL_EMPTY_INPUT_IMAGE, st, out⟩ := by
    intro h
    unfold EnlightenGan.run
    by_cases he : internal_in.input_image.empty = true
    · rw [if_pos he]
    · rw [if_neg he, if_pos h]
  have hB : ¬ (internal_in.input_image.empty = true ∨ internal_in.input_image.size.height < 10 ∨
      internal_in.input_image.size.width < 10) →
      internal_in.input_image.channels ≠ 3 → internal_in.input_image.channels ≠ 4 →
      EnlightenGan.run mnn cv st internal_in out =
        ⟨.returned .MODEL_RUN_SESSION_FAILED, st, out⟩ := by
    intro h h3 h4
    unfold EnlightenGan.run
    rw [if_neg (fun he => h (Or.inl he)), if_neg h, if_pos ⟨h3, h4⟩]
  refine ⟨fun h => ?_, fun h h3 h4 => ?_, fun hlog => ?_, fun hv => ?_⟩
  · rw [hA h]
    exact ⟨rfl, rfl, rfl, rfl, rfl⟩
  · rw [hB h h3 h4]
    exact ⟨rfl, rfl, rfl, rfl, rfl⟩
  rotate_left
  · obtain ⟨he, hh, hw, hc⟩ := hv
    have hlen : st.session_log.length <
        (EnlightenGan.run mnn cv st internal_in out).state.session_log.length := by
      unfold EnlightenGan.run
      rw [if_neg (by simp [he]), if_neg (by simp only [he, Bool.false_eq_true, false_or]; omega),
        if_neg (by omega)]
      split
      · have := run_session_log mnn cv (EnlightenGan.resize_for_image st internal_in.input_image)
          internal_in.input_image out
        rw [resize_for_image_log] at this
        omega
      · rename_i hs
        rw [run_session_log_of_same_size mnn cv st internal_in.input_image out he hc
          (not_not.mp hs)]
        omega
    intro heq
    rw [heq] at hlen
    exact lt_irrefl _ hlen
  · by_cases h : internal_in.input_image.empty = true ∨
        internal_in.input_image.size.height < 10 ∨ internal_in.input_image.size.width < 10
    · rw [hA h] at hlog
      exact absurd rfl hlog
    · by_cases hc : internal_in.input_image.channels = 3 ∨ internal_in.input_image.channels = 4
      · push_neg at h
        exact ⟨by simpa using h.1, h.2.1, h.2.2, hc⟩
      · push_neg at hc
        rw [hB h hc.1 hc.2] at hlog
        exact absurd rfl hlog

/-- C16, on the example model: the empty image and a 20 x 5 image are rejected
as empty input, a 16 x 16 image of 2 channels is rejected as a failed run, none
of them with an MNN call; a 16 x 16 image of 3 channels reaches the engine. -/
theorem run_validates_image_before_engine_witness :
    ((EnlightenGan.run example_mnn example_cv example_enlightengan ⟨Mat.empty_mat⟩
        ⟨Mat.empty_mat⟩).completion = .returned .MODEL_EMPTY_INPUT_IMAGE ∧
      (EnlightenGan.run example_mnn example_cv example_enlightengan ⟨Mat.empty_mat⟩
        ⟨Mat.empty_mat⟩).state.session_log = []) ∧
    ((EnlightenGan.run example_mnn example_cv example_enlightengan ⟨grey_image 5 20 3⟩
        ⟨Mat.empty_mat⟩).completion = .returned .MODEL_EMPTY_INPUT_IMAGE ∧
      (EnlightenGan.run example_mnn example_cv example_enlightengan ⟨grey_image 5 20 3⟩
        ⟨Mat.empty_mat⟩).state.session_log = []) ∧
    ((EnlightenGan.run example_mnn example_cv example_enlightengan ⟨grey_image 16 16 2⟩
        ⟨Mat.empty_mat⟩).completion = .returned .MODEL_RUN_SESSION_FAILED ∧
      (EnlightenGan.run example_mnn example_cv example_enlightengan ⟨grey_image 16 16 2⟩
        ⟨Mat.empty_mat⟩).state.session_log = []) ∧
    (EnlightenGan.run example_mnn example_cv example_enlightengan ⟨grey_image 16 16 3⟩
      ⟨Mat.empty_mat⟩).state.session_log ≠ [] := by
  have e := run_validates_image_before_engine example_mnn example_cv example_enlightengan
    ⟨Mat.empty_mat⟩ ⟨Mat.empty_mat⟩
  have s := run_validates_image_before_engine example_mnn example_cv example_enlightengan
    ⟨grey_image 5 20 3⟩ ⟨Mat.empty_mat⟩
  have c := run_validates_image_before_engine example_mnn example_cv example_enlightengan
    ⟨grey_image 16 16 2⟩ ⟨Mat.empty_mat⟩
  have v := run_validates_image_before_engine example_mnn example_cv example_enlightengan
    ⟨grey_image 16 16 3⟩ ⟨Mat.empty_mat⟩
  have e1 := e.1 (Or.inl rfl)
  have s1 := s.1 (Or.inr (Or.inl (by decide)))
  have c1 := c.2.1 (by decide) (by decide) (by decide)
  exact ⟨⟨e1.1, e1.2.2.1⟩, ⟨s1.1, s1.2.2.1⟩, ⟨c1.1, c1.2.2.1⟩,
    v.2.2.mpr ⟨rfl, by decide, by decide, Or.inl rfl⟩⟩

/-! ## SamSegmentor: the rank check of init -/

/-- C17: when the encoder session that `init` loads reports an input shape or
an output shape whose rank is not 4, `init` returns `MODEL_INIT_FAILED` and the
decoder session is left as it was (on a fresh instance: not created); and `init`
returns `OK` only with an encoder session loaded whose input shape and output
shape, the shapes then held by the segmentor, both have rank 4. -/
theorem init_checks_encoder_rank (env : OrtLoader) (st : SamSegmentor) (cfg : SamConfig) :
    (∀ (sam_encoder_cfg : ModelSection) (path : String) (options : SessionOptions)
        (sess : OrtSession),
      cfg.SAM_VIT_ENCODER = some sam_encoder_cfg →
      sam_encoder_cfg.model_file_path = some path →
      SamSegmentor.session_options sam_encoder_cfg = some options →
      env.create_session path options = some sess →
      (sess.input_shape.length ≠ 4 ∨ sess.output_shape.length ≠ 4) →
      (SamSegmentor.init env st cfg).completion = .returned .MODEL_INIT_FAILED ∧
      (SamSegmentor.init env st cfg).state._m_decoder_sess = st._m_decoder_sess) ∧
    ((SamSegmentor.init env st cfg).completion = .returned .OK →
      ∃ sess : OrtSession, (SamSegmentor.init env st cfg).state._m_encoder_sess = some sess ∧
        (SamSegmentor.init env st cfg).state._m_encoder_input_shape = sess.input_shape ∧
        (SamSegmentor.init env st cfg).state._m_encoder_output_shape = sess.output_shape ∧
        sess.input_shape.length = 4 ∧ sess.output_shape.length = 4) := by
  constructor
  · intro sec path options sess h1 h2 h3 h4 hrank
    unfold SamSegmentor.init
    rw [h1]
    dsimp only
    rw [h2]
    dsimp only
    split
    · exact ⟨rfl, rfl⟩
    · rw [h3]
      dsimp only
      rw [h4]
      dsimp only
      split
      · exact ⟨rfl, rfl⟩
      · exact ⟨rfl, rfl⟩
  · intro hok
    unfold SamSegmentor.init at hok ⊢
    split at hok
    · exact absurd hok (by simp)
    · split at hok
      · exact absurd hok (by simp)
      · dsimp only at hok ⊢
        split at hok
        · exact absurd hok (by simp)
        · rename_i hfile
          rw [if_neg hfile]
          split at hok
          · exact absurd hok (by simp)
          · split at hok
            · exact absurd hok (by simp)
            · rename_i sess hsess
              split at hok
              · exact absurd hok (by simp)
              · rename_i hcount
                rw [if_neg hcount]
                split at hok
                · exact absurd hok (by simp)
                · rename_i hrank
                  rw [if_neg hrank]
                  push_neg at hrank
                  refine ⟨sess, ?_, ?_, ?_, hrank.1, hrank.2⟩
                  all_goals
                    unfold SamSegmentor.init_decoder at hok ⊢
                    split at hok
                    · exact absurd hok (by simp)
                    · split at hok
                      · exact absurd hok (by simp)
                      · dsimp only at hok ⊢
                        split at hok
                        · exact absurd hok (by simp)
                        · rename_i hfile'
                          rw [if_neg hfile']
                          split at hok
                          · exact absurd hok (by simp)
                          · split at hok
                            · exact absurd hok (by simp)
                            · rfl

/-- C17, on the example loader: a fresh segmentor initialized with the encoder
model whose input has rank 3 fails with `MODEL_INIT_FAILED` and has no decoder
session; initialized with a rank-4 encoder model it returns `OK`. -/
theorem init_checks_encoder_rank_witness :
    ((SamSegmentor.init example_loader fresh_segmentor
        ⟨some (cpu_section "encoder_rank3.onnx"), some (cpu_section "decoder.onnx")⟩).completion =
        .returned .MODEL_INIT_FAILED ∧
      (SamSegmentor.init example_loader fresh_segmentor
        ⟨some (cpu_section "encoder_rank3.onnx"),
          some (cpu_section "decoder.onnx")⟩).state._m_decoder_sess = none) ∧
    (SamSegmentor.init example_loader fresh_segmentor
      ⟨some (cpu_section "encoder.onnx"), some (cpu_section "decoder.onnx")⟩).completion =
      .returned .OK := by
  have h := (init_checks_encoder_rank example_loader fresh_segmentor
    ⟨some (cpu_section "encoder_rank3.onnx"), some (cpu_section "decoder.onnx")⟩).1
    (cpu_section "encoder_rank3.onnx") "encoder_rank3.onnx" ⟨4, none⟩
    ⟨1, 1, [3, 1024, 1024], [1, 256, 64, 64]⟩ rfl rfl (by decide) (by decide)
    (Or.inl (by decide))
  exact ⟨h, by decide⟩

/-! ## EnlightenGanServer: the worker queue built by init -/

theorem init_tensors_ok (env : MnnLoader) (st : EnlightenGan)
    (h : (EnlightenGan.init_tensors env st).completion = .returned .OK) :
    (EnlightenGan.init_tensors env st).state.is_successfully_initialized = true := by
  unfold EnlightenGan.init_tensors at h ⊢
  split at h
  · exact absurd h (by simp)
  · split at h
    · exact absurd h (by simp)
    · rename_i hg
      rw [if_neg hg]
      split at h
      · exact absurd h (by simp)
      · rename_i ho
        rw [if_neg ho]
        rfl

/-- `EnlightenGan::init` returns `OK` only with the flag set. -/
theorem enlightengan_init_ok (env : MnnLoader) (st : EnlightenGan) (config : EnlightenGanConfig)
    (h : (EnlightenGan.init env st config).completion = .returned .OK) :
    (EnlightenGan.init env st config).state.is_successfully_initialized = true := by
  unfold EnlightenGan.init at h ⊢
  split at h
  · exact absurd h (by simp)
  · split at h
    · exact absurd h (by simp)
    · dsimp only at h ⊢
      split at h
      · exact absurd h (by simp)
      · split at h
        · exact absurd h (by simp)
        · split at h
          · exact absurd h (by simp)
          · rename_i h1 h2 h3
            rw [if_neg h1, if_neg h2, if_neg h3]
            exact init_tensors_ok _ _ h

namespace EnlightenGanServer

/-- The names under which the loop of `init` creates its workers. -/
theorem init_workers_ok (env : ServerEnv) (model_cfg : EnlightenGanConfig) :
    ∀ (indices : List Nat) (st : EnlightenGanServer),
      (init_workers env model_cfg indices st).completion = .returned .OK →
      ∃ workers : List Worker,
        (init_workers env model_cfg indices st).state =
          { st with _m_working_queue := st._m_working_queue ++ workers } ∧
        workers.map Worker.name = indices.map (fun index => "worker_" ++ toString (index + 1)) ∧
        ∀ w ∈ workers, w.model.is_successfully_initialized = true := by
  intro indices
  induction indices with
  | nil =>
    intro st _
    exact ⟨[], by simp [init_workers], rfl, by simp⟩
  | cons index rest ih =>
    intro st h
    unfold init_workers at h ⊢
    dsimp only at h ⊢
    split at h
    · rename_i hinit
      rw [if_pos hinit]
      split at h
      · exact absurd h (by simp)
      · rename_i status hstatus
        split at h
        · exact absurd h (by simp)
        · rename_i hs
          rw [if_neg hs]
          obtain ⟨workers, e, n, a⟩ := ih _ h
          refine ⟨⟨"worker_" ++ toString (index + 1), (EnlightenGan.init env.loader
            (env.create_enlightengan_enhancementor ("worker_" ++ toString (index + 1)))
            model_cfg).state⟩ :: workers, ?_, ?_, ?_⟩
          · rw [e]
            simp [enqueue]
          · simp [n]
          · intro w hw
            rcases List.mem_cons.mp hw with hw | hw
            · rw [hw]
              exact enlightengan_init_ok _ _ _ (by rw [hstatus]; simpa using hs)
            · exact a w hw
    · rename_i hinit
      rw [if_neg hinit]
      obtain ⟨workers, e, n, a⟩ := ih _ h
      refine ⟨⟨"worker_" ++ toString (index + 1),
        env.create_enlightengan_enhancementor ("worker_" ++ toString (index + 1))⟩ :: workers,
        ?_, ?_, ?_⟩
      · rw [e]
        simp [enqueue]
      · simp [n]
      · intro w hw
        rcases List.mem_cons.mp hw with hw | hw
        · rw [hw]
          simpa using hinit
        · exact a w hw

/-- When the last part of `init` returns `OK` it has set the flag and the run
timeout and has left the working queue as it was. -/
theorem init_server_params_ok (st : EnlightenGanServer) (server_section : ServerSection)
    (h : (init_server_params st server_section).completion = .returned .OK) :
    (init_server_params st server_section).state._m_working_queue = st._m_working_queue ∧
    (init_server_params st server_section).state._m_successfully_initialized = true ∧
    (init_server_params st server_section).state._m_model_run_timeout =
      init_run_timeout server_section := by
  unfold init_server_params at h ⊢
  dsimp only at h ⊢
  split at h
  · exact absurd h (by simp)
  · split at h
    · exact absurd h (by simp)
    · split at h
      · exact absurd h (by simp)
      · split at h
        · exact absurd h (by simp)
        · split at h
          · exact absurd h (by simp)
          · exact ⟨rfl, rfl, rfl⟩

/-- What a call of `init` that returns `OK` has gone through. -/
theorem init_ok (env : ServerEnv) (st : EnlightenGanServer) (config : ServerConfig)
    (h : (init env st config).completion = .returned .OK) :
    ∃ (server_section : ServerSection) (worker_nums : Int) (model_cfg : EnlightenGanConfig),
      config.ENLIGHTEN_GAN_SERVER = some server_section ∧
      server_section.worker_nums = some worker_nums ∧
      (init_workers env model_cfg (List.range (static_cast_int worker_nums).toNat)
        st).completion = .returned .OK ∧
      init env st config =
        init_server_params
          (init_workers env model_cfg (List.range (static_cast_int worker_nums).toNat) st).state
          server_section := by
  unfold init at h
  split at h
  · exact absurd h (by simp)
  rename_i server_section hsec
  split at h
  · exact absurd h (by simp)
  rename_i worker_nums hwn
  dsimp only at h
  split at h
  · exact absurd h (by simp)
  rename_i model_cfg_path hpath
  split at h
  · exact absurd h (by simp)
  rename_i hfile
  split at h
  · exact absurd h (by simp)
  rename_i model_cfg hparse
  have hc : (init_workers env model_cfg (List.range (static_cast_int worker_nums).toNat)
      st).completion = .returned .OK := by
    split at h
    · rename_i hthrown
      rw [hthrown] at h
      exact absurd h (by simp)
    · rename_i status hstatus
      split at h
      · rename_i hs
        rw [hstatus] at h
        exact absurd (by simpa using h) hs
      · rename_i hs
        rw [hstatus]
        simpa using hs
  refine ⟨server_section, worker_nums, model_cfg, hsec, hwn, hc, ?_⟩
  unfold init
  simp only [hsec, hwn, hpath, hfile, hparse, hc]
  simp

end EnlightenGanServer

theorem static_cast_int_of_int (v : Int) (h : -2 ^ 31 ≤ v ∧ v < 2 ^ 31) :
    static_cast_int v = v := by
  unfold static_cast_int
  rw [Int.emod_eq_of_lt (by omega) (by omega)]
  omega

/-- C18 (amended): when `EnlightenGanServer::Impl::init` returns `OK` with
`worker_nums` = N, it has appended to the working queue exactly the workers
created under the names worker_1, ..., worker_M, in this order, where M is N
converted to `int` as `init` converts it (M of them; none when M <= 0), and each
of them is successfully initialized. For 0 <= N <= 2147483647 the conversion
leaves N as it is: exactly N workers, worker_1, ..., worker_N, have been
enqueued. -/
theorem init_enqueues_worker_nums_workers (env : ServerEnv) (st : EnlightenGanServer)
    (config : ServerConfig) (server_section : ServerSection) (worker_nums : Int)
    (hsec : config.ENLIGHTEN_GAN_SERVER = some server_section)
    (hwn : server_section.worker_nums = some worker_nums)
    (hok : (EnlightenGanServer.init env st config).completion = .returned .OK) :
    ∃ workers : List Worker,
      (EnlightenGanServer.init env st config).state._m_working_queue =
        st._m_working_queue ++ workers ∧
      workers.map Worker.name =
        (List.range (static_cast_int worker_nums).toNat).map
          (fun index => "worker_" ++ toString (index + 1)) ∧
      workers.length = (static_cast_int worker_nums).toNat ∧
      (0 ≤ static_cast_int worker_nums → (workers.length : Int) = static_cast_int worker_nums) ∧
      (0 ≤ worker_nums → worker_nums ≤ 2147483647 →
        workers.map Worker.name =
          (List.range worker_nums.toNat).map (fun index => "worker_" ++ toString (index + 1)) ∧
        (workers.length : Int) = worker_nums) ∧
      ∀ w ∈ workers, w.model.is_successfully_initialized = true := by
  obtain ⟨sec', wn', model_cfg, hsec', hwn', hloop, hinit⟩ :=
    EnlightenGanServer.init_ok env st config hok
  rw [hsec] at hsec'
  cases hsec'
  rw [hwn] at hwn'
  cases hwn'
  obtain ⟨workers, e, n, a⟩ := EnlightenGanServer.init_workers_ok env model_cfg _ st hloop
  rw [hinit] at hok ⊢
  have hlen : workers.length = (static_cast_int worker_nums).toNat := by
    have := congrArg List.length n
    simpa using this
  refine ⟨workers, ?_, n, hlen, fun h0 => ?_, fun h0 h1 => ?_, a⟩
  · rw [(EnlightenGanServer.init_server_params_ok _ _ hok).1, e]
  · rw [hlen]
    exact Int.toNat_of_nonneg h0
  · have hcast : static_cast_int worker_nums = worker_nums :=
      static_cast_int_of_int worker_nums ⟨by omega, by omega⟩
    rw [hcast] at n hlen
    exact ⟨n, by rw [hlen]; exact Int.toNat_of_nonneg h0⟩

/-- C18, for `worker_nums` = 2 on a fresh server in the example environment. -/
theorem init_enqueues_worker_nums_workers_witness :
    (EnlightenGanServer.init example_server_env fresh_server
      (server_config 2 none)).completion = .returned .OK ∧
    ∃ workers : List Worker,
      (EnlightenGanServer.init example_server_env fresh_server
        (server_config 2 none)).state._m_working_queue = workers ∧
      workers.map Worker.name = ["worker_1", "worker_2"] ∧ workers.length = 2 ∧
      ∀ w ∈ workers, w.model.is_successfully_initialized = true := by
  obtain ⟨workers, q, n, l, -, -, a⟩ := init_enqueues_worker_nums_workers example_server_env
    fresh_server (server_config 2 none) _ 2 rfl rfl (by decide)
  exact ⟨by decide, workers, by rw [q]; rfl, by rw [n]; decide, by rw [l]; decide, a⟩

/-- C18 as stated fails: with `worker_nums` = 4294967298 (all the other keys
present) `init` on a fresh server returns `OK`, and the working queue holds the
two workers worker_1 and worker_2, not 4294967298 workers: the conversion of
the configured value to `int` gives 2. -/
theorem init_converts_worker_nums_counterexample :
    (EnlightenGanServer.init example_server_env fresh_server
      (server_config 4294967298 none)).completion = .returned .OK ∧
    (EnlightenGanServer.init example_server_env fresh_server
      (server_config 4294967298 none)).state._m_working_queue.map Worker.name =
      ["worker_1", "worker_2"] ∧
    ((EnlightenGanServer.init example_server_env fresh_server
      (server_config 4294967298 none)).state._m_working_queue.length : Int) ≠ 4294967298 := by
  refine ⟨by decide, by decide, by decide⟩

/-! ## EnlightenGanServer: initialization with no worker -/

/-- C19 (amended): when `EnlightenGanServer::Impl::init` returns `OK` it has set
the successfully-initialized flag, and if `worker_nums`, converted to `int` as
`init` converts it, is at least 1, which it is for every configured
`worker_nums` from 1 to 2147483647, the working queue then holds at least one
successfully initialized worker. -/
theorem init_with_workers_holds_a_worker (env : ServerEnv) (st : EnlightenGanServer)
    (config : ServerConfig) (server_section : ServerSection) (worker_nums : Int)
    (hsec : config.ENLIGHTEN_GAN_SERVER = some server_section)
    (hwn : server_section.worker_nums = some worker_nums)
    (hok : (EnlightenGanServer.init env st config).completion = .returned .OK) :
    (EnlightenGanServer.init env st config).state.is_successfully_initialized = true ∧
    (1 ≤ static_cast_int worker_nums →
      ∃ w ∈ (EnlightenGanServer.init env st config).state._m_working_queue,
        w.model.is_successfully_initialized = true) ∧
    (1 ≤ worker_nums → worker_nums ≤ 2147483647 →
      ∃ w ∈ (EnlightenGanServer.init env st config).state._m_working_queue,
        w.model.is_successfully_initialized = true) := by
  have hcast : 1 ≤ worker_nums → worker_nums ≤ 2147483647 → 1 ≤ static_cast_int worker_nums := by
    intro h1 h2
    rw [static_cast_int_of_int worker_nums ⟨by omega, by omega⟩]
    exact h1
  suffices hmain : (EnlightenGanServer.init env st config).state.is_successfully_initialized =
      true ∧ (1 ≤ static_cast_int worker_nums →
        ∃ w ∈ (EnlightenGanServer.init env st config).state._m_working_queue,
          w.model.is_successfully_initialized = true) from
    ⟨hmain.1, hmain.2, fun h1 h2 => hmain.2 (hcast h1 h2)⟩
  obtain ⟨sec', wn', model_cfg, hsec', hwn', hloop, hinit⟩ :=
    EnlightenGanServer.init_ok env st config hok
  rw [hsec] at hsec'
  cases hsec'
  rw [hwn] at hwn'
  cases hwn'
  obtain ⟨workers, e, n, a⟩ := EnlightenGanServer.init_workers_ok env model_cfg _ st hloop
  rw [hinit] at hok ⊢
  obtain ⟨p1, p2, -⟩ := EnlightenGanServer.init_server_params_ok _ _ hok
  refine ⟨p2, fun hpos => ?_⟩
  have hlen : workers.length = (static_cast_int worker_nums).toNat := by
    have := congrArg List.length n
    simpa using this
  have hpos' : 0 < workers.length := by
    rw [hlen]
    omega
  obtain ⟨w, hw⟩ := List.exists_mem_of_length_pos hpos'
  exact ⟨w, by rw [p1, e]; exact List.mem_append_right _ hw, a w hw⟩

/-- C19 (amended), for `worker_nums` = 1 on a fresh server in the example
environment. -/
theorem init_with_workers_holds_a_worker_witness :
    (EnlightenGanServer.init example_server_env fresh_server
      (server_config 1 none)).completion = .returned .OK ∧
    (EnlightenGanServer.init example_server_env fresh_server
      (server_config 1 none)).state.is_successfully_initialized = true ∧
    ∃ w ∈ (EnlightenGanServer.init example_server_env fresh_server
        (server_config 1 none)).state._m_working_queue,
      w.model.is_successfully_initialized = true :=
  have h := init_with_workers_holds_a_worker example_server_env fresh_server
    (server_config 1 none) _ 1 rfl rfl (by decide)
  ⟨by decide, h.1, h.2.2 (by decide) (by decide)⟩

/-- A configured `worker_nums` of 2147483648 is 1 or more, but `init` converts
it to the `int` -2147483648: it returns `OK` with the flag set and an empty
working queue. -/
theorem init_ok_with_converted_worker_nums :
    (EnlightenGanServer.init example_server_env fresh_server
      (server_config 2147483648 none)).completion = .returned .OK ∧
    (EnlightenGanServer.init example_server_env fresh_server
      (server_config 2147483648 none)).state.is_successfully_initialized = true ∧
    (EnlightenGanServer.init example_server_env fresh_server
      (server_config 2147483648 none)).state._m_working_queue = [] := by
  refine ⟨by decide, rfl, rfl⟩

/-- C19 as stated fails: with `worker_nums` = 0 (all the other keys present)
`init` on a fresh server returns `OK` and sets the successfully-initialized
flag, and the working queue is empty: it holds no worker, initialized or not. -/
theorem init_ok_with_zero_workers_counterexample :
    (EnlightenGanServer.init example_server_env fresh_server
      (server_config 0 none)).completion = .returned .OK ∧
    (EnlightenGanServer.init example_server_env fresh_server
      (server_config 0 none)).state.is_successfully_initialized = true ∧
    (EnlightenGanServer.init example_server_env fresh_server
      (server_config 0 none)).state._m_working_queue = [] ∧
    ¬ ∃ w ∈ (EnlightenGanServer.init example_server_env fresh_server
        (server_config 0 none)).state._m_working_queue,
      w.model.is_successfully_initialized = true := by
  have hq : (EnlightenGanServer.init example_server_env fresh_server
      (server_config 0 none)).state._m_working_queue = [] := rfl
  refine ⟨by decide, rfl, hq, ?_⟩
  rw [hq]
  simp

/-! ## EnlightenGanServer: the admission timeout -/

/-- C20 (amended): after `EnlightenGanServer::Impl::init` has returned `OK`, the
run timeout `_m_model_run_timeout` is the configured `model_run_timeout`
converted to `int`, which is the configured value itself whenever that is in
the range of `int` (-2147483648 .. 2147483647), when the server section has
that key, and 500 when it has not. -/
theorem init_sets_run_timeout (env : ServerEnv) (st : EnlightenGanServer)
    (config : ServerConfig) (server_section : ServerSection)
    (hsec : config.ENLIGHTEN_GAN_SERVER = some server_section)
    (hok : (EnlightenGanServer.init env st config).completion = .returned .OK) :
    (∀ model_run_timeout : Int, server_section.model_run_timeout = some model_run_timeout →
      (EnlightenGanServer.init env st config).state._m_model_run_timeout =
        static_cast_int model_run_timeout ∧
      (-2 ^ 31 ≤ model_run_timeout ∧ model_run_timeout < 2 ^ 31 →
        (EnlightenGanServer.init env st config).state._m_model_run_timeout =
          model_run_timeout)) ∧
    (server_section.model_run_timeout = none →
      (EnlightenGanServer.init env st config).state._m_model_run_timeout = 500) := by
  obtain ⟨sec', wn', model_cfg, hsec', hwn', hloop, hinit⟩ :=
    EnlightenGanServer.init_ok env st config hok
  rw [hsec] at hsec'
  cases hsec'
  rw [hinit] at hok ⊢
  obtain ⟨-, -, p3⟩ := EnlightenGanServer.init_server_params_ok _ _ hok
  rw [p3]
  unfold EnlightenGanServer.init_run_timeout
  refine ⟨fun t ht => ?_, fun hnone => ?_⟩
  · rw [ht]
    exact ⟨rfl, fun hr => static_cast_int_of_int t hr⟩
  · rw [hnone]

/-- C20 (amended), on a fresh server in the example environment: with
`model_run_timeout` = 250 the run timeout is 250, without the key it is 500. -/
theorem init_sets_run_timeout_witness :
    (EnlightenGanServer.init example_server_env fresh_server
      (server_config 2 (some 250))).state._m_model_run_timeout = 250 ∧
    (EnlightenGanServer.init example_server_env fresh_server
      (server_config 2 none)).state._m_model_run_timeout = 500 :=
  ⟨((init_sets_run_timeout example_server_env fresh_server (server_config 2 (some 250)) _ rfl
      (by decide)).1 250 rfl).2 (by decide),
    (init_sets_run_timeout example_server_env fresh_server (server_config 2 none) _ rfl
      (by decide)).2 rfl⟩

/-- C20 as stated fails: with `model_run_timeout` = 4294967301 (all the other
keys present) `init` on a fresh server returns `OK` and the run timeout is 5,
not the configured 4294967301: the conversion of the configured value to `int`
gives 5. -/
theorem init_converts_run_timeout_counterexample :
    (server_config 2 (some 4294967301)).ENLIGHTEN_GAN_SERVER.bind
      (fun server_section => server_section.model_run_timeout) = some 4294967301 ∧
    (EnlightenGanServer.init example_server_env fresh_server
      (server_config 2 (some 4294967301))).completion = .returned .OK ∧
    (EnlightenGanServer.init example_server_env fresh_server
      (server_config 2 (some 4294967301))).state._m_model_run_timeout = 5 ∧
    (EnlightenGanServer.init example_server_env fresh_server
      (server_config 2 (some 4294967301))).state._m_model_run_timeout ≠ 4294967301 := by
  refine ⟨rfl, by decide, by decide, by decide⟩

/-! ## The response envelope -/

theorem c_str_of_no_nul (s : String) (h : Char.ofNat 0 ∉ s.data) : c_str s = s := by
  unfold c_str
  have hall : s.data.takeWhile (fun c => decide (c ≠ Char.ofNat 0)) = s.data := by
    rw [List.takeWhile_eq_self_iff]
    intro c hc
    have hne : c ≠ Char.ofNat 0 := fun heq => h (heq ▸ hc)
    simpa using hne
  rw [hall]

theorem c_str_success : c_str "success" = "success" := by decide

/-- C21 (amended): for every task id, status and model output for which
`cv::imencode` does not raise, the writer calls of `make_response_body` write
one JSON object with exactly the members `req_id`, `code`, `msg` and `data`, in
this order: `req_id` is the task id up to its first NUL character (the task id
itself when it holds none), `code` the integer value of the status, `msg` is
"success" when the status is `OK` and the text of `error_code_to_str` (up to its
first NUL) otherwise (so, that text never being "success" for another status,
`msg` is "success" exactly for `OK`), and `data` is an object with the one
member `enhance_result`, which is the empty string when the result image is
empty and the transport encoding of its JPEG (up to its first NUL) otherwise
(so, that encoding never being empty for an image that is not empty,
`enhance_result` is the empty string exactly for an empty result image). When
`cv::imencode` raises, no body is returned. -/
theorem make_response_body_envelope (env : ResponseEnv) (task_id : String) (status : StatusCode)
    (model_output : std_enhancement_output) :
    ((model_output.enhancement_result.empty = true ∨
        ∃ buffer, env.imencode_jpg model_output.enhancement_result = some buffer) →
      ∃ (calls : List WriterCall) (msg enhance_result : String),
        EnlightenGanServer.make_response_body env task_id status model_output = some calls ∧
        written_value calls [] =
          some (.object [("req_id", .string (c_str task_id)),
            ("code", .int (env.status_value status)), ("msg", .string msg),
            ("data", .object [("enhance_result", .string enhance_result)])]) ∧
        (status = .OK → msg = "success") ∧
        (status ≠ .OK → msg = c_str (env.error_code_to_str (env.status_value status))) ∧
        ((∀ s : StatusCode, s ≠ .OK →
            c_str (env.error_code_to_str (env.status_value s)) ≠ "success") →
          (msg = "success" ↔ status = .OK)) ∧
        (model_output.enhancement_result.empty = true → enhance_result = "") ∧
        (∀ buffer, model_output.enhancement_result.empty = false →
          env.imencode_jpg model_output.enhancement_result = some buffer →
          enhance_result = c_str (env.base64_encode buffer)) ∧
        ((∀ (image : Mat) (buffer : List Nat), image.empty = false →
            env.imencode_jpg image = some buffer → c_str (env.base64_encode buffer) ≠ "") →
          (enhance_result = "" ↔ model_output.enhancement_result.empty = true))) ∧
    (Char.ofNat 0 ∉ task_id.data → c_str task_id = task_id) ∧
    (model_output.enhancement_result.empty = false →
      env.imencode_jpg model_output.enhancement_result = none →
      EnlightenGanServer.make_response_body env task_id status model_output = none) := by
  refine ⟨?_, c_str_of_no_nul task_id, ?_⟩
  · intro hdef
    have hmsg : ∀ msg : String,
        msg = c_str (if status = .OK then "success"
          else env.error_code_to_str (env.status_value status)) →
        (status = .OK → msg = "success") ∧
        (status ≠ .OK → msg = c_str (env.error_code_to_str (env.status_value status))) ∧
        ((∀ s : StatusCode, s ≠ .OK →
            c_str (env.error_code_to_str (env.status_value s)) ≠ "success") →
          (msg = "success" ↔ status = .OK)) := by
      intro msg hm
      refine ⟨?_, ?_, ?_⟩
      · intro h
        rw [hm, if_pos h]
        exact c_str_success
      · intro h
        rw [hm, if_neg h]
      · intro hne
        constructor
        · intro h
          by_contra hs
          rw [hm, if_neg hs] at h
          exact hne status hs h
        · intro h
          rw [hm, if_pos h]
          exact c_str_success
    by_cases he : model_output.enhancement_result.empty = true
    · refine ⟨([.StartObject, .Key "req_id", .String (c_str task_id), .Key "code",
          .Int (env.status_value status), .Key "msg",
          .String (c_str (if status = .OK then "success"
            else env.error_code_to_str (env.status_value status))),
          .Key "data", .StartObject, .Key "enhance_result"] ++
          [.String "", .EndObject, .EndObject]),
        (c_str (if status = .OK then "success"
          else env.error_code_to_str (env.status_value status))), "", ?_, ?_, (hmsg _ rfl).1, (hmsg _ rfl).2.1, (hmsg _ rfl).2.2, fun _ => rfl,
        ?_, fun _ => ⟨fun _ => he, fun _ => rfl⟩⟩
      · unfold EnlightenGanServer.make_response_body
        dsimp only
        rw [if_pos he]
      · simp [written_value]
      · intro buffer hne
        rw [he] at hne
        cases hne
    · rcases hdef with h | ⟨buffer, hbuf⟩
      · exact absurd h he
      · refine ⟨([.StartObject, .Key "req_id", .String (c_str task_id), .Key "code",
          .Int (env.status_value status), .Key "msg",
          .String (c_str (if status = .OK then "success"
            else env.error_code_to_str (env.status_value status))),
          .Key "data", .StartObject, .Key "enhance_result"] ++
          [.String (c_str (env.base64_encode buffer)), .EndObject, .EndObject]),
          (c_str (if status = .OK then "success"
          else env.error_code_to_str (env.status_value status))), c_str (env.base64_encode buffer), ?_, ?_, (hmsg _ rfl).1, (hmsg _ rfl).2.1,
          (hmsg _ rfl).2.2, fun h => absurd h he, ?_, ?_⟩
        · unfold EnlightenGanServer.make_response_body
          dsimp only
          rw [if_neg he, hbuf]
        · simp [written_value]
        · intro buffer' _ hbuf'
          rw [hbuf] at hbuf'
          cases hbuf'
          rfl
        · intro henc
          constructor
          · intro h
            exact absurd h (henc _ buffer (by simpa using he) hbuf)
          · intro h
            exact absurd h he
  · intro he hnone
    unfold EnlightenGanServer.make_response_body
    dsimp only
    rw [if_neg (by simp [he]), hnone]

/-- C21 (amended), for a failed run with no result image and for a success with
a 16 x 16 result image, in the example environment. -/
theorem make_response_body_envelope_witness :
    (∃ calls, EnlightenGanServer.make_response_body example_response_env "task-7"
        .MODEL_RUN_SESSION_FAILED ⟨Mat.empty_mat⟩ = some calls ∧
      written_value calls [] =
        some (.object [("req_id", .string "task-7"), ("code", .int 3),
          ("msg", .string "error 3"), ("data", .object [("enhance_result", .string "")])])) ∧
    (∃ calls, EnlightenGanServer.make_response_body example_response_env "task-8" .OK
        ⟨grey_image 16 16 3⟩ = some calls ∧
      written_value calls [] =
        some (.object [("req_id", .string "task-8"), ("code", .int 0),
          ("msg", .string "success"), ("data", .object [("enhance_result", .string "/9g=")])])) := by
  obtain ⟨c1, m1, e1, b1, h1, -, hm1, -, he1, -, -⟩ :=
    (make_response_body_envelope example_response_env "task-7" .MODEL_RUN_SESSION_FAILED
      ⟨Mat.empty_mat⟩).1 (Or.inl rfl)
  obtain ⟨c2, m2, e2, b2, h2, hm2, -, -, -, he2, -⟩ :=
    (make_response_body_envelope example_response_env "task-8" .OK ⟨grey_image 16 16 3⟩).1
      (Or.inr ⟨[255, 216], rfl⟩)
  rw [hm1 (by decide), he1 rfl] at h1
  rw [hm2 rfl, he2 [255, 216] rfl rfl] at h2
  exact ⟨⟨c1, b1, by rw [h1]; rfl⟩, ⟨c2, b2, by rw [h2]; rfl⟩⟩

/-- C21 as stated fails: for the task id "ab", NUL, "cd" (with status `OK` and no
result image, in the example environment) the member `req_id` that is written
is "ab", not the task id. -/
theorem make_response_body_cuts_task_id_counterexample :
    ∃ calls, EnlightenGanServer.make_response_body example_response_env
        (String.mk ['a', 'b', Char.ofNat 0, 'c', 'd']) .OK ⟨Mat.empty_mat⟩ = some calls ∧
      written_value calls [] =
        some (.object [("req_id", .string "ab"), ("code", .int 0), ("msg", .string "success"),
          ("data", .object [("enhance_result", .string "")])]) ∧
      "ab" ≠ String.mk ['a', 'b', Char.ofNat 0, 'c', 'd'] :=
  ⟨_, rfl, rfl, by decide⟩

/-! ## Pool conservation -/

namespace WorkerPool

theorem take_out_names (request : Nat) :
    ∀ (checked_out : List (Nat × Worker)) (worker : Worker) (rest : List (Nat × Worker)),
      take_out request checked_out = some (worker, rest) →
      (checked_out.map fun entry => entry.2.name).Perm
        (worker.name :: rest.map fun entry => entry.2.name) := by
  intro checked_out
  induction checked_out with
  | nil =>
    intro worker rest h
    simp [take_out] at h
  | cons entry tail ih =>
    intro worker rest h
    obtain ⟨r, w⟩ := entry
    unfold take_out at h
    split at h
    · cases h
      exact List.Perm.refl _
    · split at h
      · exact absurd h (by simp)
      · rename_i found rest' hfound
        cases h
        have := ih worker rest' hfound
        simp only [List.map_cons]
        exact (List.Perm.cons _ this).trans (List.Perm.swap _ _ _)

/-- No step leaks or duplicates a worker: the workers of the pool, available or
checked out, stay the same. -/
theorem step_worker_names (pool : WorkerPool) (event : PoolEvent) :
    (worker_names (step pool event)).Perm (worker_names pool) := by
  cases event with
  | acquire request =>
    unfold step acquire worker_names
    cases h : pool.available with
    | nil => simp [h]
    | cons worker rest =>
      simp only [h, List.map_cons, List.map_append, List.map_nil, List.cons_append]
      refine List.Perm.symm ?_
      refine List.Perm.trans ?_ (List.Perm.append_left _ (List.perm_append_comm))
      simp
      exact List.perm_middle.symm
  | finish request model =>
    have hstep : step pool (.finish request model) =
        match take_out request pool.checked_out with
        | none => pool
        | some (worker, rest) =>
          release { pool with checked_out := rest } ⟨worker.name, model⟩ := rfl
    rw [hstep]
    cases h : take_out request pool.checked_out with
    | none => exact List.Perm.refl _
    | some found =>
      obtain ⟨worker, rest⟩ := found
      have hp := take_out_names request pool.checked_out worker rest h
      dsimp only
      unfold release worker_names
      simp only [List.map_append, List.map_cons, List.map_nil, List.append_assoc]
      refine List.Perm.append_left _ ?_
      exact (List.perm_append_comm.trans (by simp)).trans hp.symm

theorem run_worker_names (events : List PoolEvent) :
    ∀ pool : WorkerPool, (worker_names (run pool events)).Perm (worker_names pool) := by
  induction events with
  | nil => exact fun pool => List.Perm.refl _
  | cons event rest ih =>
    intro pool
    exact (ih (step pool event)).trans (step_worker_names pool event)

end WorkerPool

/-- The working queue that a successful `init` leaves: the queue it found,
followed by the workers it has created. -/
theorem EnlightenGanServer.init_ok_queue (env : ServerEnv) (st : EnlightenGanServer)
    (config : ServerConfig) (server_section : ServerSection) (worker_nums : Int)
    (hsec : config.ENLIGHTEN_GAN_SERVER = some server_section)
    (hwn : server_section.worker_nums = some worker_nums)
    (hok : (EnlightenGanServer.init env st config).completion = .returned .OK) :
    ∃ workers : List Worker,
      (EnlightenGanServer.init env st config).state._m_working_queue =
        st._m_working_queue ++ workers ∧
      workers.map Worker.name =
        (List.range (static_cast_int worker_nums).toNat).map
          (fun index => "worker_" ++ toString (index + 1)) := by
  obtain ⟨sec', wn', model_cfg, hsec', hwn', hloop, hinit⟩ :=
    EnlightenGanServer.init_ok env st config hok
  rw [hsec] at hsec'
  cases hsec'
  rw [hwn] at hwn'
  cases hwn'
  obtain ⟨workers, e, n, -⟩ := EnlightenGanServer.init_workers_ok env model_cfg _ st hloop
  rw [hinit] at hok ⊢
  exact ⟨workers, by rw [(EnlightenGanServer.init_server_params_ok _ _ hok).1, e], n⟩

namespace WorkerPool

theorem take_out_none (request : Nat) :
    ∀ checked_out : List (Nat × Worker), take_out request checked_out = none →
      request ∉ checked_out.map Prod.fst := by
  intro checked_out
  induction checked_out with
  | nil => intro _; simp
  | cons entry tail ih =>
    intro h
    obtain ⟨r, w⟩ := entry
    unfold take_out at h
    split at h
    · cases h
    · rename_i hne
      split at h
      · rename_i hnone
        have := ih hnone
        simp only [List.map_cons, List.mem_cons, not_or]
        exact ⟨fun heq => hne heq.symm, this⟩
      · cases h

theorem take_out_requests (request : Nat) :
    ∀ (checked_out : List (Nat × Worker)) (worker : Worker) (rest : List (Nat × Worker)),
      take_out request checked_out = some (worker, rest) →
      (checked_out.map Prod.fst).Perm (request :: rest.map Prod.fst) := by
  intro checked_out
  induction checked_out with
  | nil =>
    intro worker rest h
    simp [take_out] at h
  | cons entry tail ih =>
    intro worker rest h
    obtain ⟨r, w⟩ := entry
    unfold take_out at h
    split at h
    · rename_i heq
      cases h
      rw [List.map_cons, heq]
    · split at h
      · cases h
      · rename_i found rest' hfound
        cases h
        have := ih _ _ hfound
        simp only [List.map_cons]
        exact (List.Perm.cons r this).trans (List.Perm.swap _ _ _)

/-- A request that holds a worker is a request whose cycle is under way. -/
theorem step_checked_out (pool : WorkerPool) (event : PoolEvent) (pending : List Nat)
    (h : ((pool.checked_out.map Prod.fst : List Nat) : Multiset Nat) ≤
      ((pending : List Nat) : Multiset Nat)) :
    ((((step pool event).checked_out.map Prod.fst : List Nat)) : Multiset Nat) ≤
      ((open_requests [event] pending : List Nat) : Multiset Nat) := by
  cases event with
  | acquire request =>
    have hopen : open_requests [PoolEvent.acquire request] pending = request :: pending := rfl
    rw [hopen, ← Multiset.cons_coe]
    unfold step acquire
    cases hav : pool.available with
    | nil => exact le_trans h (Multiset.le_cons_self _ _)
    | cons worker rest =>
      dsimp only
      rw [List.map_append, ← Multiset.coe_add, List.map_cons, List.map_nil,
        Multiset.coe_singleton, add_comm, Multiset.singleton_add]
      exact Multiset.cons_le_cons _ h
  | finish request model =>
    have hopen : open_requests [PoolEvent.finish request model] pending =
        pending.erase request := rfl
    have hstep : step pool (.finish request model) =
        match take_out request pool.checked_out with
        | none => pool
        | some (worker, rest) =>
          release { pool with checked_out := rest } ⟨worker.name, model⟩ := rfl
    rw [hopen, hstep, ← Multiset.coe_erase]
    cases hto : take_out request pool.checked_out with
    | none =>
      dsimp only
      have hnot := take_out_none request pool.checked_out hto
      have := Multiset.erase_le_erase request h
      rwa [Multiset.erase_of_not_mem (by simpa using hnot)] at this
    | some found =>
      obtain ⟨worker, rest⟩ := found
      dsimp only
      have hperm := take_out_requests request pool.checked_out worker rest hto
      have hc : ((pool.checked_out.map Prod.fst : List Nat) : Multiset Nat) =
          request ::ₘ ((rest.map Prod.fst : List Nat) : Multiset Nat) := by
        rw [Multiset.cons_coe]
        exact Multiset.coe_eq_coe.mpr hperm
      have := Multiset.erase_le_erase request h
      rw [hc, Multiset.erase_cons_head] at this
      exact this

theorem open_requests_append (a b : List PoolEvent) :
    ∀ pending, open_requests (a ++ b) pending = open_requests b (open_requests a pending) := by
  induction a with
  | nil => exact fun _ => rfl
  | cons event rest ih =>
    intro pending
    cases event with
    | acquire request => exact ih _
    | finish request model => exact ih _

theorem run_checked_out (events : List PoolEvent) :
    ∀ (pool : WorkerPool) (pending : List Nat),
      ((pool.checked_out.map Prod.fst : List Nat) : Multiset Nat) ≤
        ((pending : List Nat) : Multiset Nat) →
      ((((run pool events).checked_out.map Prod.fst : List Nat)) : Multiset Nat) ≤
        ((open_requests events pending : List Nat) : Multiset Nat) := by
  induction events with
  | nil => exact fun _ _ h => h
  | cons event rest ih =>
    intro pool pending h
    have h1 := step_checked_out pool event pending h
    have h2 := ih (step pool event) (open_requests [event] pending) h1
    have hopen : open_requests (event :: rest) pending =
        open_requests rest (open_requests [event] pending) :=
      open_requests_append [event] rest pending
    rw [hopen]
    exact h2

/-- After a sequence of request cycles that have all ended no worker is checked
out. -/
theorem run_checked_out_nil (events : List PoolEvent) (working_queue : List Worker)
    (h : open_requests events [] = []) :
    (run (of_queue working_queue) events).checked_out = [] := by
  have := run_checked_out events (of_queue working_queue) [] (le_refl _)
  rw [h] at this
  have h0 : (((run (of_queue working_queue) events).checked_out.map Prod.fst : List Nat) :
      Multiset Nat) = 0 := le_antisymm this (Multiset.zero_le _)
  have hnil : (run (of_queue working_queue) events).checked_out.map Prod.fst = [] := by
    simpa using h0
  exact List.map_eq_nil_iff.mp hnil

end WorkerPool

/-- C22 (amended): take the pool built from the working queue that a successful
`init` has filled on a server whose queue was empty, with `worker_nums` = N, and
let any sequence of steps of request cycles run on it (requests that acquire a
worker or time out, and requests that leave the request handling on any exit
path and release their worker). At every point the workers of the pool,
available or checked out, are, up to their order, the workers worker_1, ...,
worker_M that `init` has enqueued, M being N converted to `int` as `init`
converts it (none when M <= 0): none is leaked, none is duplicated. After any
sequence of request cycles that have all ended, no worker is checked out and
the number of available workers is M, which is the configured N for
0 <= N <= 2147483647. -/
theorem pool_conservation (env : ServerEnv) (st : EnlightenGanServer) (config : ServerConfig)
    (server_section : ServerSection) (worker_nums : Int) (events : List PoolEvent)
    (hfresh : st._m_working_queue = [])
    (hsec : config.ENLIGHTEN_GAN_SERVER = some server_section)
    (hwn : server_section.worker_nums = some worker_nums)
    (hok : (EnlightenGanServer.init env st config).completion = .returned .OK) :
    (WorkerPool.worker_names (WorkerPool.run
        (WorkerPool.of_queue (EnlightenGanServer.init env st config).state._m_working_queue)
        events)).Perm
      ((List.range (static_cast_int worker_nums).toNat).map
        (fun index => "worker_" ++ toString (index + 1))) ∧
    (WorkerPool.run
        (WorkerPool.of_queue (EnlightenGanServer.init env st config).state._m_working_queue)
        events).available.length +
      (WorkerPool.run
        (WorkerPool.of_queue (EnlightenGanServer.init env st config).state._m_working_queue)
        events).checked_out.length = (static_cast_int worker_nums).toNat ∧
    (WorkerPool.open_requests events [] = [] →
      (WorkerPool.run
        (WorkerPool.of_queue (EnlightenGanServer.init env st config).state._m_working_queue)
        events).checked_out = [] ∧
      (WorkerPool.run
        (WorkerPool.of_queue (EnlightenGanServer.init env st config).state._m_working_queue)
        events).available.length = (static_cast_int worker_nums).toNat ∧
      (0 ≤ worker_nums → worker_nums ≤ 2147483647 →
        ((WorkerPool.run
          (WorkerPool.of_queue (EnlightenGanServer.init env st config).state._m_working_queue)
          events).available.length : Int) = worker_nums)) := by
  obtain ⟨workers, hq, hn⟩ := EnlightenGanServer.init_ok_queue env st config server_section
    worker_nums hsec hwn hok
  rw [hfresh, List.nil_append] at hq
  have hperm := WorkerPool.run_worker_names events
    (WorkerPool.of_queue (EnlightenGanServer.init env st config).state._m_working_queue)
  have h0 : WorkerPool.worker_names
      (WorkerPool.of_queue (EnlightenGanServer.init env st config).state._m_working_queue) =
      (List.range (static_cast_int worker_nums).toNat).map
        (fun index => "worker_" ++ toString (index + 1)) := by
    rw [hq]
    simp [WorkerPool.worker_names, WorkerPool.of_queue, hn]
  rw [h0] at hperm
  have hlen := hperm.length_eq
  unfold WorkerPool.worker_names at hlen
  simp only [List.length_append, List.length_map, List.length_range] at hlen
  refine ⟨hperm, hlen, fun hdone => ?_⟩
  have hnone := WorkerPool.run_checked_out_nil events
    (EnlightenGanServer.init env st config).state._m_working_queue hdone
  rw [hnone, List.length_nil, Nat.add_zero] at hlen
  refine ⟨hnone, hlen, fun h0 h1 => ?_⟩
  rw [hlen, static_cast_int_of_int worker_nums ⟨by omega, by omega⟩]
  exact Int.toNat_of_nonneg h0

/-- C22 (amended), for `worker_nums` = 2 in the example environment: two requests
acquire the two workers, a third one times out, the three end (the model of the
second in another state): two workers are available again. -/
theorem pool_conservation_witness :
    WorkerPool.open_requests [.acquire 1, .acquire 2, .acquire 3,
      .finish 1 example_enlightengan, .finish 2 { }, .finish 3 { }] [] = [] ∧
    (WorkerPool.run
      (WorkerPool.of_queue (EnlightenGanServer.init example_server_env fresh_server
        (server_config 2 none)).state._m_working_queue)
      [.acquire 1, .acquire 2, .acquire 3, .finish 1 example_enlightengan,
        .finish 2 { }, .finish 3 { }]).available.length = 2 ∧
    (WorkerPool.worker_names (WorkerPool.run
      (WorkerPool.of_queue (EnlightenGanServer.init example_server_env fresh_server
        (server_config 2 none)).state._m_working_queue)
      [.acquire 1, .acquire 2, .acquire 3, .finish 1 example_enlightengan,
        .finish 2 { }, .finish 3 { }])).Perm ["worker_1", "worker_2"] := by
  have h := pool_conservation example_server_env fresh_server (server_config 2 none) _ 2
    [.acquire 1, .acquire 2, .acquire 3, .finish 1 example_enlightengan,
      .finish 2 { }, .finish 3 { }] rfl rfl rfl (by decide)
  exact ⟨by decide, (h.2.2 (by decide)).2.1, h.1⟩

/-- C22 as stated fails: with `worker_nums` = 4294967298 `init` on a fresh server
returns `OK` with a queue of two workers, and after a request cycle that has
ended two workers are available, not 4294967298. -/
theorem pool_size_is_converted_worker_nums_counterexample :
    (EnlightenGanServer.init example_server_env fresh_server
      (server_config 4294967298 none)).completion = .returned .OK ∧
    WorkerPool.open_requests [.acquire 1, .finish 1 example_enlightengan] [] = [] ∧
    (WorkerPool.run
      (WorkerPool.of_queue (EnlightenGanServer.init example_server_env fresh_server
        (server_config 4294967298 none)).state._m_working_queue)
      [.acquire 1, .finish 1 example_enlightengan]).available.length = 2 ∧
    ((WorkerPool.run
      (WorkerPool.of_queue (EnlightenGanServer.init example_server_env fresh_server
        (server_config 4294967298 none)).state._m_working_queue)
      [.acquire 1, .finish 1 example_enlightengan]).available.length : Int) ≠ 4294967298 := by
  refine ⟨by decide, by decide, by decide, by decide⟩

/-! ## Determinism of predict -/

namespace SamSegmentor

theorem encode_image_embeddings_state (ort : OrtBackend) (cv : CvOps) (st : SamSegmentor)
    (input_image : Mat) (emb : List Val) :
    ∃ log, (encode_image_embeddings ort cv st input_image emb).state =
      { st with session_log := log } := by
  unfold encode_image_embeddings
  split
  · exact ⟨_, rfl⟩
  · dsimp only
    split
    · exact ⟨_, rfl⟩
    · split
      · exact ⟨_, rfl⟩
      · split
        · split
          · exact ⟨_, rfl⟩
          · exact ⟨_, rfl⟩
        · exact ⟨_, rfl⟩

theorem encode_image_embeddings_congr (ort : OrtBackend) (cv : CvOps) (st st' : SamSegmentor)
    (h : model_shapes st = model_shapes st') (input_image : Mat) (emb : List Val) :
    (encode_image_embeddings ort cv st input_image emb).completion =
      (encode_image_embeddings ort cv st' input_image emb).completion ∧
    (encode_image_embeddings ort cv st input_image emb).out =
      (encode_image_embeddings ort cv st' input_image emb).out := by
  simp only [model_shapes, Prod.mk.injEq] at h
  have hp : preprocess_image cv st input_image = preprocess_image cv st' input_image := by
    simp only [preprocess_image, pad_geometry, h.1]
  unfold encode_image_embeddings
  rw [hp, h.1]
  split
  · exact ⟨rfl, rfl⟩
  · dsimp only
    split
    · exact ⟨rfl, rfl⟩
    · split
      · exact ⟨rfl, rfl⟩
      · split
        · split
          · exact ⟨rfl, rfl⟩
          · refine ⟨rfl, ?_⟩
            show List.map _ (List.range
                (List.foldl (fun a b : Int => a * b) 1 st._m_encoder_output_shape).toNat) =
              List.map _ (List.range
                (List.foldl (fun a b : Int => a * b) 1 st'._m_encoder_output_shape).toNat)
            rw [h.2]
        · exact ⟨rfl, rfl⟩

theorem seg_get_mask_state (ort : OrtBackend) (cv : CvOps) (st : SamSegmentor) (emb : List Val)
    (bbox : Rect2f) (om : Mat) :
    ∃ log, (get_mask ort cv st emb bbox om).state = { st with session_log := log } := by
  unfold get_mask
  dsimp only
  split
  · exact ⟨_, rfl⟩
  split
  · exact ⟨_, rfl⟩
  split
  · exact ⟨_, rfl⟩
  split
  · exact ⟨_, rfl⟩
  split
  · exact ⟨_, rfl⟩
  unfold run_decoder
  dsimp only
  split
  · exact ⟨_, rfl⟩
  · split <;> exact ⟨_, rfl⟩

theorem get_masks_state (ort : OrtBackend) (cv : CvOps) (emb : List Val) :
    ∀ (bboxes : List Rect2f) (st : SamSegmentor) (prior : List Mat),
      ∃ log, (get_masks ort cv st emb bboxes prior).state = { st with session_log := log } := by
  intro bboxes
  induction bboxes with
  | nil => exact fun st prior => ⟨_, rfl⟩
  | cons b rest ih =>
    intro st prior
    obtain ⟨log, hlog⟩ := seg_get_mask_state ort cv st emb b Mat.empty_mat
    unfold get_masks
    dsimp only
    split
    · exact ⟨log, hlog⟩
    · split
      · exact ⟨log, hlog⟩
      · obtain ⟨log', hlog'⟩ := ih (get_mask ort cv st emb b Mat.empty_mat).state
          (prior ++ [(get_mask ort cv st emb b Mat.empty_mat).out])
        exact ⟨log', by rw [hlog', hlog]⟩

theorem get_masks_congr (ort : OrtBackend) (cv : CvOps) (emb : List Val) :
    ∀ (bboxes : List Rect2f) (st st' : SamSegmentor) (prior : List Mat), view st = view st' →
      (get_masks ort cv st emb bboxes prior).completion =
        (get_masks ort cv st' emb bboxes prior).completion ∧
      (get_masks ort cv st emb bboxes prior).out = (get_masks ort cv st' emb bboxes prior).out := by
  intro bboxes
  induction bboxes with
  | nil => exact fun st st' prior _ => ⟨rfl, rfl⟩
  | cons b rest ih =>
    intro st st' prior hv
    obtain ⟨hc, ho⟩ := seg_get_mask_congr ort cv st st' hv emb b Mat.empty_mat
    have hv' : view (get_mask ort cv st emb b Mat.empty_mat).state =
        view (get_mask ort cv st' emb b Mat.empty_mat).state := by
      rw [seg_get_mask_view, seg_get_mask_view, hv]
    unfold get_masks
    dsimp only
    rw [hc, ho]
    split
    · exact ⟨rfl, rfl⟩
    · split
      · exact ⟨rfl, rfl⟩
      · exact ih _ _ _ hv'

/-- The state that `predict` leaves differs from the one it found in the image
size and in the record of the session runs only. -/
theorem predict_state (ort : OrtBackend) (cv : CvOps) (st : SamSegmentor) (input_image : Mat)
    (bboxes : List Rect) (prior : List Mat) :
    ∃ log, (predict ort cv st input_image bboxes prior).state =
      { st with _m_ori_image_size := input_image.size, session_log := log } := by
  obtain ⟨elog, he⟩ := encode_image_embeddings_state ort cv
    { st with _m_ori_image_size := input_image.size } input_image []
  unfold predict
  dsimp only
  split
  · exact ⟨_, rfl⟩
  · split
    · exact ⟨elog, he⟩
    · split
      · exact ⟨elog, he⟩
      · obtain ⟨dlog, hd⟩ := get_masks_state ort cv
          (encode_image_embeddings ort cv { st with _m_ori_image_size := input_image.size }
            input_image []).out
          (transform_bboxes (encode_image_embeddings ort cv
            { st with _m_ori_image_size := input_image.size } input_image []).state bboxes)
          (encode_image_embeddings ort cv { st with _m_ori_image_size := input_image.size }
            input_image []).state prior
        have hfin : ∃ log, (get_masks ort cv
            (encode_image_embeddings ort cv { st with _m_ori_image_size := input_image.size }
              input_image []).state
            (encode_image_embeddings ort cv { st with _m_ori_image_size := input_image.size }
              input_image []).out
            (transform_bboxes (encode_image_embeddings ort cv
              { st with _m_ori_image_size := input_image.size } input_image []).state bboxes)
            prior).state =
            { st with _m_ori_image_size := input_image.size, session_log := log } :=
          ⟨dlog, by rw [hd, he]⟩
        split
        · exact hfin
        · split <;> exact hfin

/-- The status and the masks of `predict` depend on the instance through the
two encoder shapes only. -/
theorem predict_congr (ort : OrtBackend) (cv : CvOps) (st st' : SamSegmentor)
    (h : model_shapes st = model_shapes st') (input_image : Mat) (bboxes : List Rect)
    (prior : List Mat) :
    (predict ort cv st input_image bboxes prior).completion =
      (predict ort cv st' input_image bboxes prior).completion ∧
    (predict ort cv st input_image bboxes prior).out =
      (predict ort cv st' input_image bboxes prior).out := by
  have h1 : model_shapes { st with _m_ori_image_size := input_image.size } =
      model_shapes { st' with _m_ori_image_size := input_image.size } := h
  obtain ⟨ec, eo⟩ := encode_image_embeddings_congr ort cv _ _ h1 input_image []
  obtain ⟨elog, he⟩ := encode_image_embeddings_state ort cv
    { st with _m_ori_image_size := input_image.size } input_image []
  obtain ⟨elog', he'⟩ := encode_image_embeddings_state ort cv
    { st' with _m_ori_image_size := input_image.size } input_image []
  simp only [model_shapes, Prod.mk.injEq] at h
  have ht : transform_bboxes (encode_image_embeddings ort cv
      { st with _m_ori_image_size := input_image.size } input_image []).state bboxes =
      transform_bboxes (encode_image_embeddings ort cv
        { st' with _m_ori_image_size := input_image.size } input_image []).state bboxes := by
    rw [he, he']
    simp only [transform_bboxes, h.1]
  have hv : view (encode_image_embeddings ort cv
      { st with _m_ori_image_size := input_image.size } input_image []).state =
      view (encode_image_embeddings ort cv
        { st' with _m_ori_image_size := input_image.size } input_image []).state := by
    rw [he, he']
    simp only [view, h.2]
  obtain ⟨dc, dout⟩ := get_masks_congr ort cv
    (encode_image_embeddings ort cv { st with _m_ori_image_size := input_image.size }
      input_image []).out
    (transform_bboxes (encode_image_embeddings ort cv
      { st with _m_ori_image_size := input_image.size } input_image []).state bboxes) _ _ prior hv
  unfold predict
  dsimp only
  rw [← ec, ← eo, ← ht, ← dc, ← dout]
  split
  · exact ⟨rfl, rfl⟩
  · split
    · exact ⟨rfl, rfl⟩
    · split
      · exact ⟨rfl, rfl⟩
      · split
        · exact ⟨rfl, rfl⟩
        · split <;> exact ⟨rfl, rfl⟩

theorem after_calls_model_shapes (ort : OrtBackend) (cv : CvOps) :
    ∀ (calls : List SegmentorCall) (st : SamSegmentor),
      model_shapes (after_calls ort cv st calls) = model_shapes st := by
  intro calls
  induction calls with
  | nil => exact fun st => rfl
  | cons call rest ih =>
    intro st
    cases call with
    | predict input_image bboxes predicted_masks =>
      obtain ⟨log, hlog⟩ := predict_state ort cv st input_image bboxes predicted_masks
      unfold after_calls
      rw [ih, hlog]
      rfl
    | get_embedding input_image image_embeddings =>
      obtain ⟨log, hlog⟩ := encode_image_embeddings_state ort cv st input_image image_embeddings
      unfold after_calls get_embedding
      rw [ih, hlog]
      rfl

/-- The loop appends the same masks to whatever the output list holds. -/
theorem get_masks_appends (ort : OrtBackend) (cv : CvOps) (emb : List Val) :
    ∀ (bboxes : List Rect2f) (st : SamSegmentor) (prior : List Mat),
      (get_masks ort cv st emb bboxes prior).completion =
        (get_masks ort cv st emb bboxes []).completion ∧
      (get_masks ort cv st emb bboxes prior).out =
        prior ++ (get_masks ort cv st emb bboxes []).out := by
  intro bboxes
  induction bboxes with
  | nil => exact fun st prior => ⟨rfl, (List.append_nil prior).symm⟩
  | cons b rest ih =>
    intro st prior
    have h1 := ih (get_mask ort cv st emb b Mat.empty_mat).state
      (prior ++ [(get_mask ort cv st emb b Mat.empty_mat).out])
    have h2 := ih (get_mask ort cv st emb b Mat.empty_mat).state
      ([] ++ [(get_mask ort cv st emb b Mat.empty_mat).out])
    unfold get_masks
    dsimp only
    split
    · exact ⟨rfl, (List.append_nil prior).symm⟩
    · split
      · exact ⟨rfl, (List.append_nil prior).symm⟩
      · rw [h1.1, h1.2, h2.1, h2.2]
        exact ⟨rfl, by simp⟩

/-- The status of `predict` does not depend on what `predicted_masks` holds, and
the masks are appended to it. -/
theorem predict_appends (ort : OrtBackend) (cv : CvOps) (st : SamSegmentor) (input_image : Mat)
    (bboxes : List Rect) (prior : List Mat) :
    (predict ort cv st input_image bboxes prior).completion =
      (predict ort cv st input_image bboxes []).completion ∧
    (predict ort cv st input_image bboxes prior).out =
      prior ++ (predict ort cv st input_image bboxes []).out := by
  obtain ⟨hc, ho⟩ := get_masks_appends ort cv
    (encode_image_embeddings ort cv { st with _m_ori_image_size := input_image.size }
      input_image []).out
    (transform_bboxes (encode_image_embeddings ort cv
      { st with _m_ori_image_size := input_image.size } input_image []).state bboxes)
    (encode_image_embeddings ort cv { st with _m_ori_image_size := input_image.size }
      input_image []).state prior
  unfold predict
  dsimp only
  rw [hc, ho]
  split
  · exact ⟨rfl, (List.append_nil prior).symm⟩
  · split
    · exact ⟨rfl, (List.append_nil prior).symm⟩
    · split
      · exact ⟨rfl, (List.append_nil prior).symm⟩
      · split
        · exact ⟨rfl, rfl⟩
        · split <;> exact ⟨rfl, rfl⟩

end SamSegmentor

/-- C23: with the sessions and the OpenCV kernels being functions of what they
are handed, a call of `SamSegmentor::predict` and a later call with the same
image and the same box list, made on the same instance after any calls of
`predict` and `get_embedding` with other images and prompts in between, return
the same status and append the same masks to `predicted_masks`; when
`predicted_masks` holds the same masks at both calls, it holds the same masks
after both. The result does not depend on the image size and the record of
runs that earlier calls have left in the instance. -/
theorem predict_is_deterministic (ort : OrtBackend) (cv : CvOps) (st : SamSegmentor)
    (input_image : Mat) (bboxes : List Rect) (first_masks second_masks : List Mat)
    (between : List SegmentorCall) :
    (SamSegmentor.predict ort cv
      (SamSegmentor.after_calls ort cv
        (SamSegmentor.predict ort cv st input_image bboxes first_masks).state between)
      input_image bboxes second_masks).completion =
      (SamSegmentor.predict ort cv st input_image bboxes first_masks).completion ∧
    (∃ masks : List Mat,
      (SamSegmentor.predict ort cv st input_image bboxes first_masks).out =
        first_masks ++ masks ∧
      (SamSegmentor.predict ort cv
        (SamSegmentor.after_calls ort cv
          (SamSegmentor.predict ort cv st input_image bboxes first_masks).state between)
        input_image bboxes second_masks).out = second_masks ++ masks) ∧
    (second_masks = first_masks →
      (SamSegmentor.predict ort cv
        (SamSegmentor.after_calls ort cv
          (SamSegmentor.predict ort cv st input_image bboxes first_masks).state between)
        input_image bboxes second_masks).out =
        (SamSegmentor.predict ort cv st input_image bboxes first_masks).out) := by
  have hshapes : SamSegmentor.model_shapes (SamSegmentor.after_calls ort cv
      (SamSegmentor.predict ort cv st input_image bboxes first_masks).state between) =
      SamSegmentor.model_shapes st := by
    rw [SamSegmentor.after_calls_model_shapes]
    obtain ⟨log, hlog⟩ := SamSegmentor.predict_state ort cv st input_image bboxes first_masks
    rw [hlog]
    rfl
  obtain ⟨c0, o0⟩ := SamSegmentor.predict_congr ort cv _ st hshapes input_image bboxes []
  obtain ⟨c1, o1⟩ := SamSegmentor.predict_appends ort cv st input_image bboxes first_masks
  obtain ⟨c2, o2⟩ := SamSegmentor.predict_appends ort cv
    (SamSegmentor.after_calls ort cv
      (SamSegmentor.predict ort cv st input_image bboxes first_masks).state between)
    input_image bboxes second_masks
  refine ⟨by rw [c2, c0, c1], ⟨_, o1, by rw [o2, o0]⟩, ?_⟩
  intro h
  rw [o2, o0, o1, h]


/-! ## Order of the device calls of one decoding call -/

/-- A `do_inference` that returns `OK` has set the seven addresses, run the
engine, queued both copies back, waited for the stream, and only then parsed
the outputs. -/
theorem SamTrtDecoder.do_inference_order (dev : TrtBackend) (cv : CvOps) (st : SamTrtDecoder)
    (om : Mat) (hok : (SamTrtDecoder.do_inference dev cv st om).completion = .returned .OK) :
    ∃ (outputs : EngineOutputs) (synced : SamTrtDecoder),
      dev.enqueueV3 (SamTrtDecoder.engine_inputs st) = some outputs ∧
      synced.device_log = st.device_log ++
        [.setTensorAddress .image_embeddings, .setTensorAddress .point_coords,
         .setTensorAddress .point_labels, .setTensorAddress .mask_input,
         .setTensorAddress .has_mask_input, .setTensorAddress .low_res_masks,
         .setTensorAddress .iou_predictions,
         .enqueueV3 (SamTrtDecoder.engine_inputs st),
         .memcpyD2H .low_res_masks, .memcpyD2H .iou_predictions, .streamSynchronize] ∧
      SamTrtDecoder.do_inference dev cv st om =
        SamTrtDecoder.parse_output_mask cv synced outputs.low_res_masks
          outputs.iou_predictions om := by
  unfold SamTrtDecoder.do_inference at hok ⊢
  dsimp only at hok ⊢
  rw [SamTrtDecoder.engine_inputs_set_tensor_addresses] at hok ⊢
  cases he : dev.enqueueV3 (SamTrtDecoder.engine_inputs st) with
  | none =>
    rw [he] at hok
    cases hok
  | some outputs =>
    rw [he] at hok
    dsimp only at hok ⊢
    by_cases h6 : dev.memcpyD2H_ok .low_res_masks = true
    swap
    · rw [if_pos (by simpa using h6)] at hok
      cases hok
    by_cases h7 : dev.memcpyD2H_ok .iou_predictions = true
    swap
    · rw [if_neg (by simp [h6]), if_pos (by simpa using h7)] at hok
      cases hok
    rw [if_neg (by simp [h6]), if_neg (by simp [h7])]
    refine ⟨outputs, _, rfl, ?_, rfl⟩
    simp [SamTrtDecoder.log_issue, SamTrtDecoder.log_set_tensor_addresses]

/-- C24: a call of `SamTrtDecoder::get_mask` that returns `OK` has issued, after
the two input shapes, exactly these device calls in this order: the four
host-to-device copies (point coordinates, point labels, mask prior, has-mask
flag), the seven tensor addresses, the engine run `enqueueV3` (which
succeeded), the device-to-host copies of the low-resolution masks and of the
confidences, and `cudaStreamSynchronize`. The two host output buffers are
consumed by the parsing block alone, and that block runs in the state whose
last device call is the wait: the call as a whole equals the parsing of the
engine outputs in that state, and parsing issues no device call. -/
theorem get_mask_copies_run_copies_back_then_waits (dev : TrtBackend) (cv : CvOps)
    (st : SamTrtDecoder) (point_coords : List Point2f) (point_labels : List Val)
    (out_mask : Mat)
    (hok : (SamTrtDecoder.get_mask dev cv st point_coords point_labels out_mask).completion =
      .returned .OK) :
    ∃ (inputs : EngineInputs) (outputs : EngineOutputs) (synced : SamTrtDecoder),
      dev.enqueueV3 inputs = some outputs ∧
      synced.device_log = st.device_log ++
        [.setInputShape .point_coords
           [1, (((SamTrtDecoder.total_points point_coords).length / 2 : Nat) : Int), 2],
         .setInputShape .point_labels
           [1, ((SamTrtDecoder.total_labels point_labels).length : Int)],
         .memcpyH2D .point_coords (SamTrtDecoder.total_points point_coords),
         .memcpyH2D .point_labels (SamTrtDecoder.total_labels point_labels),
         .memcpyH2D .mask_input mask_tensor_values,
         .memcpyH2D .has_mask_input has_mask_tensor_values,
         .setTensorAddress .image_embeddings, .setTensorAddress .point_coords,
         .setTensorAddress .point_labels, .setTensorAddress .mask_input,
         .setTensorAddress .has_mask_input, .setTensorAddress .low_res_masks,
         .setTensorAddress .iou_predictions,
         .enqueueV3 inputs,
         .memcpyD2H .low_res_masks, .memcpyD2H .iou_predictions, .streamSynchronize] ∧
      SamTrtDecoder.get_mask dev cv st point_coords point_labels out_mask =
        SamTrtDecoder.parse_output_mask cv synced outputs.low_res_masks
          outputs.iou_predictions out_mask ∧
      (SamTrtDecoder.get_mask dev cv st point_coords point_labels out_mask).state.device_log =
        synced.device_log := by
  have hgm := hok
  unfold SamTrtDecoder.get_mask at hgm
  dsimp only at hgm
  by_cases h1 : dev.memcpyH2D_ok .point_coords (SamTrtDecoder.total_points point_coords) = true
  swap
  · rw [if_pos (by simpa using h1)] at hgm
    cases hgm
  by_cases h2 : dev.memcpyH2D_ok .point_labels (SamTrtDecoder.total_labels point_labels) = true
  swap
  · rw [if_neg (by simp [h1]), if_pos (by simpa using h2)] at hgm
    cases hgm
  rw [if_neg (by simp [h1]), if_neg (by simp [h2])] at hgm
  unfold SamTrtDecoder.copy_mask_inputs at hgm
  dsimp only at hgm
  by_cases h3 : dev.memcpyH2D_ok .mask_input mask_tensor_values = true
  swap
  · rw [if_pos (by simpa using h3)] at hgm
    cases hgm
  by_cases h4 : dev.memcpyH2D_ok .has_mask_input has_mask_tensor_values = true
  swap
  · rw [if_neg (by simp [h3]), if_pos (by simpa using h4)] at hgm
    cases hgm
  rw [if_neg (by simp [h3]), if_neg (by simp [h4])] at hgm
  obtain ⟨outputs, synced, hrun, hlog, heq⟩ := SamTrtDecoder.do_inference_order dev cv _ out_mask hgm
  have hcall : SamTrtDecoder.get_mask dev cv st point_coords point_labels out_mask =
      SamTrtDecoder.parse_output_mask cv synced outputs.low_res_masks outputs.iou_predictions
        out_mask := by
    rw [← heq]
    unfold SamTrtDecoder.get_mask
    dsimp only
    rw [if_neg (by simp [h1]), if_neg (by simp [h2])]
    unfold SamTrtDecoder.copy_mask_inputs
    dsimp only
    rw [if_neg (by simp [h3]), if_neg (by simp [h4])]
  refine ⟨_, outputs, synced, hrun, ?_, hcall, ?_⟩
  · rw [hlog]
    simp [SamTrtDecoder.log_store, SamTrtDecoder.log_issue, SamTrtDecoder.log_set_point_shapes]
  · rw [hcall, SamTrtDecoder.parse_output_mask_state]

/-- C24, on the example device with the prompt of the first example box. -/
theorem get_mask_copies_run_copies_back_then_waits_witness :
    (SamTrtDecoder.get_mask example_device example_cv example_decoder
      (SamTrtDecoder.bbox_point_coords box1) SamTrtDecoder.bbox_point_labels
      Mat.empty_mat).completion = .returned .OK ∧
    ∃ (inputs : EngineInputs) (outputs : EngineOutputs) (synced : SamTrtDecoder),
      example_device.enqueueV3 inputs = some outputs ∧
      synced.device_log = example_decoder.device_log ++
        [.setInputShape .point_coords
           [1, (((SamTrtDecoder.total_points
             (SamTrtDecoder.bbox_point_coords box1)).length / 2 : Nat) : Int), 2],
         .setInputShape .point_labels
           [1, ((SamTrtDecoder.total_labels SamTrtDecoder.bbox_point_labels).length : Int)],
         .memcpyH2D .point_coords
           (SamTrtDecoder.total_points (SamTrtDecoder.bbox_point_coords box1)),
         .memcpyH2D .point_labels (SamTrtDecoder.total_labels SamTrtDecoder.bbox_point_labels),
         .memcpyH2D .mask_input mask_tensor_values,
         .memcpyH2D .has_mask_input has_mask_tensor_values,
         .setTensorAddress .image_embeddings, .setTensorAddress .point_coords,
         .setTensorAddress .point_labels, .setTensorAddress .mask_input,
         .setTensorAddress .has_mask_input, .setTensorAddress .low_res_masks,
         .setTensorAddress .iou_predictions,
         .enqueueV3 inputs,
         .memcpyD2H .low_res_masks, .memcpyD2H .iou_predictions, .streamSynchronize] ∧
      SamTrtDecoder.get_mask example_device example_cv example_decoder
          (SamTrtDecoder.bbox_point_coords box1) SamTrtDecoder.bbox_point_labels Mat.empty_mat =
        SamTrtDecoder.parse_output_mask example_cv synced outputs.low_res_masks
          outputs.iou_predictions Mat.empty_mat ∧
      (SamTrtDecoder.get_mask example_device example_cv example_decoder
          (SamTrtDecoder.bbox_point_coords box1) SamTrtDecoder.bbox_point_labels
          Mat.empty_mat).state.device_log = synced.device_log :=
  have hok := (example_get_mask_ok example_device example_decoder box1 (fun _ _ _ => rfl) rfl
    (fun _ => rfl) rfl rfl).1
  ⟨hok, get_mask_copies_run_copies_back_then_waits example_device example_cv example_decoder
    (SamTrtDecoder.bbox_point_coords box1) SamTrtDecoder.bbox_point_labels Mat.empty_mat hok⟩


/-! ## Bounds of the candidate index and of the low-resolution reads -/

/-- The confidences `0, ..., 0, 1` have their maximum at the last index. -/
theorem max_element_zeros_then_one (n : Nat) :
    max_element (List.replicate n (0 : Val) ++ [1]) = n := by
  obtain ⟨hlt, hmax, -⟩ := max_element_first_index_of_maximum (List.replicate n (0 : Val) ++ [1])
    (by simp)
  have hlen : (List.replicate n (0 : Val) ++ [1]).length = n + 1 := by simp
  rw [hlen] at hlt
  by_contra hne
  have hi : max_element (List.replicate n (0 : Val) ++ [1]) < n := by omega
  have h1 := hmax n (by rw [hlen]; omega)
  have hn : (List.replicate n (0 : Val) ++ [1]).getD n 0 = 1 := by
    rw [List.getD_eq_getElem?_getD, List.getElem?_append_right (by simp)]
    simp
  have h0 : (List.replicate n (0 : Val) ++ [1]).getD
      (max_element (List.replicate n (0 : Val) ++ [1])) 0 = 0 := by
    rw [List.getD_eq_getElem?_getD, List.getElem?_append_left (by simpa using hi)]
    rw [List.getElem?_replicate, if_pos hi]
    rfl
  rw [hn, h0] at h1
  exact absurd h1 (by norm_num)

/-- Within the range of `int` the index is the mathematical value. -/
theorem SamTrtDecoder.low_res_index_of_int (mask_idx row col : Int)
    (h0 : 0 ≤ mask_idx * 256 * 256 + row * 256 + col)
    (h1 : mask_idx * 256 * 256 + row * 256 + col < 2 ^ 31) :
    SamTrtDecoder.low_res_index mask_idx row col = mask_idx * 256 * 256 + row * 256 + col := by
  unfold SamTrtDecoder.low_res_index
  exact static_cast_int_of_int _ ⟨by omega, h1⟩

/-- C25 (amended): for an engine output with k candidates, 1 <= k <= 32768, a
confidence vector of length k and low-resolution data of length k*256*256, the
candidate index that `get_mask` hands to `decode_output_mask` is the position
of the maximum confidence and is < k, and for every row and column in 0..255
the index `mask_idx*256*256 + row*256 + col` that `decode_output_mask` reads is
computed without leaving the range of `int` and lies within the low-resolution
data, so that the pixel is that entry of the data. -/
theorem candidate_and_low_res_indices_in_bounds (cv : CvOps) (st : SamTrtDecoder) (k : Nat)
    (iou_preds_data low_res_mask_data : List Val) (out_mask : Mat)
    (hk : 1 ≤ k) (hint : k ≤ 32768) (hiou : iou_preds_data.length = k)
    (hlr : low_res_mask_data.length = k * 256 * 256) :
    SamTrtDecoder.parse_output_mask cv st low_res_mask_data iou_preds_data out_mask =
      (match SamTrtDecoder.decode_output_mask cv st low_res_mask_data
          ((max_element iou_preds_data : Nat) : Int) with
        | none => ⟨.thrown, st, out_mask⟩
        | some o_mask => ⟨.returned .OK, st, o_mask⟩) ∧
    max_element iou_preds_data < k ∧
    ∀ row col : Int, 0 ≤ row → row < 256 → 0 ≤ col → col < 256 →
      SamTrtDecoder.low_res_index ((max_element iou_preds_data : Nat) : Int) row col =
        ((max_element iou_preds_data : Nat) : Int) * 256 * 256 + row * 256 + col ∧
      0 ≤ SamTrtDecoder.low_res_index ((max_element iou_preds_data : Nat) : Int) row col ∧
      SamTrtDecoder.low_res_index ((max_element iou_preds_data : Nat) : Int) row col <
        (low_res_mask_data.length : Int) ∧
      low_res_mask_data.getD
        (SamTrtDecoder.low_res_index ((max_element iou_preds_data : Nat) : Int) row col).toNat 0 ∈
        low_res_mask_data := by
  have hne : iou_preds_data ≠ [] := by
    intro h
    rw [h] at hiou
    simp at hiou
    omega
  obtain ⟨hlt, -, -⟩ := max_element_first_index_of_maximum iou_preds_data hne
  rw [hiou] at hlt
  refine ⟨rfl, hlt, ?_⟩
  intro row col hr0 hr1 hc0 hc1
  have hm : ((max_element iou_preds_data : Nat) : Int) < (k : Int) := by exact_mod_cast hlt
  have hm0 : (0 : Int) ≤ ((max_element iou_preds_data : Nat) : Int) := Int.natCast_nonneg _
  have hkint : (k : Int) ≤ 32768 := by exact_mod_cast hint
  have hidx := SamTrtDecoder.low_res_index_of_int ((max_element iou_preds_data : Nat) : Int)
    row col (by omega) (by omega)
  have hlen : (low_res_mask_data.length : Int) = (k : Int) * 256 * 256 := by
    rw [hlr]
    push_cast
    ring
  have hlow : 0 ≤ SamTrtDecoder.low_res_index ((max_element iou_preds_data : Nat) : Int)
      row col := by
    rw [hidx]
    omega
  have hhigh : SamTrtDecoder.low_res_index ((max_element iou_preds_data : Nat) : Int) row col <
      (low_res_mask_data.length : Int) := by
    rw [hidx, hlen]
    omega
  refine ⟨hidx, hlow, hhigh, ?_⟩
  have hnat : (SamTrtDecoder.low_res_index ((max_element iou_preds_data : Nat) : Int)
      row col).toNat < low_res_mask_data.length := by
    have := Int.toNat_of_nonneg hlow
    omega
  rw [List.getD_eq_getElem?_getD, List.getElem?_eq_getElem hnat]
  exact List.getElem_mem _

/-- C25 (amended), on the engine output of the examples: four candidates with
the confidences 1/5, 9/10, 9/10, 1/10. -/
theorem candidate_and_low_res_indices_in_bounds_witness :
    SamTrtDecoder.parse_output_mask example_cv example_decoder (constant_low_res 3)
        [1 / 5, 9 / 10, 9 / 10, 1 / 10] Mat.empty_mat =
      (match SamTrtDecoder.decode_output_mask example_cv example_decoder (constant_low_res 3)
          ((max_element [1 / 5, 9 / 10, 9 / 10, 1 / 10] : Nat) : Int) with
        | none => ⟨.thrown, example_decoder, Mat.empty_mat⟩
        | some o_mask => ⟨.returned .OK, example_decoder, o_mask⟩) ∧
    max_element [1 / 5, 9 / 10, 9 / 10, 1 / 10] < 4 ∧
    ∀ row col : Int, 0 ≤ row → row < 256 → 0 ≤ col → col < 256 →
      SamTrtDecoder.low_res_index ((max_element [1 / 5, 9 / 10, 9 / 10, 1 / 10] : Nat) : Int)
          row col =
        ((max_element [1 / 5, 9 / 10, 9 / 10, 1 / 10] : Nat) : Int) * 256 * 256 + row * 256 +
          col ∧
      0 ≤ SamTrtDecoder.low_res_index
        ((max_element [1 / 5, 9 / 10, 9 / 10, 1 / 10] : Nat) : Int) row col ∧
      SamTrtDecoder.low_res_index ((max_element [1 / 5, 9 / 10, 9 / 10, 1 / 10] : Nat) : Int)
          row col < ((constant_low_res 3).length : Int) ∧
      (constant_low_res 3).getD
        (SamTrtDecoder.low_res_index ((max_element [1 / 5, 9 / 10, 9 / 10, 1 / 10] : Nat) : Int)
          row col).toNat 0 ∈ constant_low_res 3 :=
  candidate_and_low_res_indices_in_bounds example_cv example_decoder 4
    [1 / 5, 9 / 10, 9 / 10, 1 / 10] (constant_low_res 3) Mat.empty_mat (by decide) (by decide) rfl
    (by rw [constant_low_res, List.length_replicate])

/-- C25 as stated fails at k = 32769 candidates: with the confidences
0, ..., 0, 1 (length 32769) the chosen candidate is 32768, and already the
first index read, `32768 * 256 * 256 + 0 * 256 + 0` = 2^31, does not fit in
`int`: the index computed is -2147483648, outside the low-resolution data of
length 32769 * 256 * 256. -/
theorem low_res_index_leaves_int_range :
    1 ≤ 32769 ∧
    (List.replicate 32768 (0 : Val) ++ [1]).length = 32769 ∧
    (List.replicate (32769 * 256 * 256) (0 : Val)).length = 32769 * 256 * 256 ∧
    max_element (List.replicate 32768 (0 : Val) ++ [1]) = 32768 ∧
    SamTrtDecoder.low_res_index
      ((max_element (List.replicate 32768 (0 : Val) ++ [1]) : Nat) : Int) 0 0 = -2147483648 ∧
    ¬ (0 ≤ SamTrtDecoder.low_res_index
        ((max_element (List.replicate 32768 (0 : Val) ++ [1]) : Nat) : Int) 0 0 ∧
      SamTrtDecoder.low_res_index
        ((max_element (List.replicate 32768 (0 : Val) ++ [1]) : Nat) : Int) 0 0 <
        ((List.replicate (32769 * 256 * 256) (0 : Val)).length : Int)) := by
  have hidx : SamTrtDecoder.low_res_index
      ((max_element (List.replicate 32768 (0 : Val) ++ [1]) : Nat) : Int) 0 0 = -2147483648 := by
    rw [max_element_zeros_then_one]
    norm_num [SamTrtDecoder.low_res_index, static_cast_int]
  refine ⟨by norm_num,
    by rw [List.length_append, List.length_replicate, List.length_singleton],
    List.length_replicate _ _, max_element_zeros_then_one 32768, hidx, ?_⟩
  rw [hidx]
  intro h
  exact absurd h.1 (by norm_num)


/-! ## Scaling of the box prompts -/

/-- C26 (amended): in exact arithmetic, for an image of extent w x h (w, h >= 1;
the proof needs a positive longer side only, so it asks for h >= 1) and an
encoder input E x E, the computation of
`SamSegmentor::transform_bboxes` returns a list of the same length in which the
box at each position is the input box at that position with x, y, width and
height multiplied by scale = E / max(h, w); its bottom-right corner is the
original bottom-right corner times scale; and when the input box lies inside
the image (0 <= x, 0 <= y, x + width <= w, y + height <= h) the scaled box lies
inside [0, E] x [0, E] (0 <= x, 0 <= y, x + width <= E, y + height <= E, and
for a box of non-negative width and height the top-left corner does not pass
the bottom-right one). -/
theorem transform_bboxes_scales_into_encoder_square (seg : SamSegmentor) (w h E : Int)
    (bboxes : List Rect) (hh : 1 ≤ h) (hE : 0 ≤ E)
    (hori : seg._m_ori_image_size = ⟨w, h⟩)
    (hs2 : seg._m_encoder_input_shape.getD 2 0 = E) :
    (SamSegmentor.transform_bboxes seg bboxes).length = bboxes.length ∧
    ∀ (i : Nat) (box : Rect), bboxes[i]? = some box →
      ∃ t : Rect2f, (SamSegmentor.transform_bboxes seg bboxes)[i]? = some t ∧
        t.x = (box.x : Val) * ((E : Val) / ((max h w : Int) : Val)) ∧
        t.y = (box.y : Val) * ((E : Val) / ((max h w : Int) : Val)) ∧
        t.width = (box.width : Val) * ((E : Val) / ((max h w : Int) : Val)) ∧
        t.height = (box.height : Val) * ((E : Val) / ((max h w : Int) : Val)) ∧
        t.br = ⟨((box.x + box.width : Int) : Val) * ((E : Val) / ((max h w : Int) : Val)),
          ((box.y + box.height : Int) : Val) * ((E : Val) / ((max h w : Int) : Val))⟩ ∧
        (0 ≤ box.x → 0 ≤ box.y → box.x + box.width ≤ w → box.y + box.height ≤ h →
          0 ≤ t.x ∧ 0 ≤ t.y ∧ t.x + t.width ≤ (E : Val) ∧ t.y + t.height ≤ (E : Val) ∧
          0 ≤ t.tl.x ∧ 0 ≤ t.tl.y ∧ t.br.x ≤ (E : Val) ∧ t.br.y ≤ (E : Val) ∧
          (0 ≤ box.width → 0 ≤ box.height → t.tl.x ≤ t.br.x ∧ t.tl.y ≤ t.br.y)) := by
  have hL : 1 ≤ max h w := le_trans hh (le_max_left h w)
  have hLpos : (0 : Val) < ((max h w : Int) : Val) := by
    exact_mod_cast (by omega : (0 : Int) < max h w)
  have hE' : (0 : Val) ≤ (E : Val) := by exact_mod_cast hE
  have hs0 : (0 : Val) ≤ (E : Val) / ((max h w : Int) : Val) := div_nonneg hE' (le_of_lt hLpos)
  have hscaled : ∀ s : Int, s ≤ max h w →
      (s : Val) * ((E : Val) / ((max h w : Int) : Val)) ≤ (E : Val) := by
    intro s hs
    have hs' : (s : Val) ≤ ((max h w : Int) : Val) := by exact_mod_cast hs
    calc (s : Val) * ((E : Val) / ((max h w : Int) : Val))
        ≤ ((max h w : Int) : Val) * ((E : Val) / ((max h w : Int) : Val)) :=
          mul_le_mul_of_nonneg_right hs' hs0
      _ = (E : Val) := mul_div_cancel₀ _ (ne_of_gt hLpos)
  have hdef : SamSegmentor.transform_bboxes seg bboxes = bboxes.map fun box =>
      (⟨(box.x : Val) * ((E : Val) / ((max h w : Int) : Val)),
        (box.y : Val) * ((E : Val) / ((max h w : Int) : Val)),
        (box.width : Val) * ((E : Val) / ((max h w : Int) : Val)),
        (box.height : Val) * ((E : Val) / ((max h w : Int) : Val))⟩ : Rect2f) := by
    unfold SamSegmentor.transform_bboxes
    simp only [hori, hs2, Int.cast_max]
  rw [hdef]
  refine ⟨List.length_map _ _, ?_⟩
  intro i box hbox
  refine ⟨_, by rw [List.getElem?_map, hbox]; rfl, rfl, rfl, rfl, rfl, ?_, ?_⟩
  · simp only [Rect2f.br, Int.cast_add, add_mul]
  · intro hx hy hxw hyh
    have hx' : (0 : Val) ≤ (box.x : Val) := by exact_mod_cast hx
    have hy' : (0 : Val) ≤ (box.y : Val) := by exact_mod_cast hy
    have hbx := hscaled (box.x + box.width) (le_trans hxw (le_max_right h w))
    have hby := hscaled (box.y + box.height) (le_trans hyh (le_max_left h w))
    simp only [Int.cast_add, add_mul] at hbx hby
    refine ⟨mul_nonneg hx' hs0, mul_nonneg hy' hs0, hbx, hby, mul_nonneg hx' hs0,
      mul_nonneg hy' hs0, hbx, hby, ?_⟩
    intro hwd hht
    have hwd' : (0 : Val) ≤ (box.width : Val) := by exact_mod_cast hwd
    have hht' : (0 : Val) ≤ (box.height : Val) := by exact_mod_cast hht
    exact ⟨le_add_of_nonneg_right (mul_nonneg hwd' hs0),
      le_add_of_nonneg_right (mul_nonneg hht' hs0)⟩

/-- C26 (amended), for a 200 x 100 image, a 1024 x 1024 encoder and the boxes
(10, 20, 50, 60) and (0, 0, 200, 100): the scale is 1024 / 200. -/
theorem transform_bboxes_scales_into_encoder_square_witness :
    (SamSegmentor.transform_bboxes { example_segmentor with _m_ori_image_size := ⟨200, 100⟩ }
      [⟨10, 20, 50, 60⟩, ⟨0, 0, 200, 100⟩]).length = 2 ∧
    (SamSegmentor.transform_bboxes { example_segmentor with _m_ori_image_size := ⟨200, 100⟩ }
      [⟨10, 20, 50, 60⟩, ⟨0, 0, 200, 100⟩])[1]? = some ⟨0, 0, 1024, 512⟩ :=
  have h := transform_bboxes_scales_into_encoder_square
    { example_segmentor with _m_ori_image_size := ⟨200, 100⟩ } 200 100 1024
    [⟨10, 20, 50, 60⟩, ⟨0, 0, 200, 100⟩] (by decide) (by decide) rfl rfl
  ⟨h.1, by
    obtain ⟨t, ht, hx, hy, hwd, hht, -⟩ := h.2 1 ⟨0, 0, 200, 100⟩ rfl
    rw [ht]
    have e : t = ⟨t.x, t.y, t.width, t.height⟩ := rfl
    rw [e, hx, hy, hwd, hht]
    norm_num⟩


/-! ## The init flag of SamSegmentor over repeated init calls -/

/-- What a returning `init` leaves in the flag: `true` with `OK`; with a failure
status either `false`, or, when the encoder session was created with one input
and one output and the rank check failed, the value the flag had before. -/
theorem SamSegmentor.init_flag (env : OrtLoader) (st : SamSegmentor) (cfg : SamConfig)
    (status : StatusCode)
    (h : (SamSegmentor.init env st cfg).completion = .returned status) :
    (status = .OK ∧ (SamSegmentor.init env st cfg).state.is_successfully_initialized = true) ∨
    (status = .MODEL_INIT_FAILED ∧
      (SamSegmentor.init env st cfg).state.is_successfully_initialized = false) ∨
    (status = .MODEL_INIT_FAILED ∧
      (SamSegmentor.init env st cfg).state.is_successfully_initialized =
        st.is_successfully_initialized ∧
      ∃ sess, (SamSegmentor.init env st cfg).state._m_encoder_sess = some sess ∧
        (sess.input_shape.length ≠ 4 ∨ sess.output_shape.length ≠ 4)) := by
  unfold SamSegmentor.init at h ⊢
  split at h
  · cases h
  split at h
  · cases h
  dsimp only at h ⊢
  split at h
  · rename_i hfile
    rw [if_pos hfile]
    cases h
    exact Or.inr (Or.inl ⟨rfl, rfl⟩)
  rename_i hfile
  rw [if_neg hfile]
  split at h
  · cases h
  split at h
  · cases h
  split at h
  · rename_i hcount
    rw [if_pos hcount]
    cases h
    exact Or.inr (Or.inl ⟨rfl, rfl⟩)
  rename_i hcount
  rw [if_neg hcount]
  split at h
  · rename_i hrank
    rw [if_pos hrank]
    cases h
    exact Or.inr (Or.inr ⟨rfl, rfl, _, rfl, hrank⟩)
  rename_i hrank
  rw [if_neg hrank]
  unfold SamSegmentor.init_decoder at h ⊢
  split at h
  · cases h
  split at h
  · cases h
  dsimp only at h ⊢
  split at h
  · rename_i hdfile
    rw [if_pos hdfile]
    cases h
    exact Or.inr (Or.inl ⟨rfl, rfl⟩)
  rename_i hdfile
  rw [if_neg hdfile]
  split at h
  · cases h
  split at h
  · cases h
  cases h
  exact Or.inl ⟨rfl, rfl⟩

/-- C27: a fresh segmentor (flag false) is initialized twice on the example
loader. The first `init`, with a rank-4 encoder model, returns `OK` and sets the
flag. The second `init`, with the encoder model whose input has rank 3,
returns `MODEL_INIT_FAILED` at the rank check, which does not touch the flag:
`is_successfully_initialized` is still true after the last `init` has failed.
The other failing returns do clear it: a second `init` whose encoder model
file is missing returns `MODEL_INIT_FAILED` and leaves the flag false. -/
theorem init_rank_failure_keeps_stale_flag :
    SamSegmentor.is_successfully_initialized fresh_segmentor = false ∧
    (SamSegmentor.init example_loader fresh_segmentor
      ⟨some (cpu_section "encoder.onnx"), some (cpu_section "decoder.onnx")⟩).completion =
      .returned .OK ∧
    SamSegmentor.is_successfully_initialized (SamSegmentor.init example_loader fresh_segmentor
      ⟨some (cpu_section "encoder.onnx"), some (cpu_section "decoder.onnx")⟩).state = true ∧
    (SamSegmentor.init example_loader
      (SamSegmentor.init example_loader fresh_segmentor
        ⟨some (cpu_section "encoder.onnx"), some (cpu_section "decoder.onnx")⟩).state
      ⟨some (cpu_section "encoder_rank3.onnx"), some (cpu_section "decoder.onnx")⟩).completion =
      .returned .MODEL_INIT_FAILED ∧
    SamSegmentor.is_successfully_initialized (SamSegmentor.init example_loader
      (SamSegmentor.init example_loader fresh_segmentor
        ⟨some (cpu_section "encoder.onnx"), some (cpu_section "decoder.onnx")⟩).state
      ⟨some (cpu_section "encoder_rank3.onnx"), some (cpu_section "decoder.onnx")⟩).state =
      true ∧
    (SamSegmentor.init { example_loader with is_file_exist := fun _ => false }
      (SamSegmentor.init example_loader fresh_segmentor
        ⟨some (cpu_section "encoder.onnx"), some (cpu_section "decoder.onnx")⟩).state
      ⟨some (cpu_section "encoder.onnx"), some (cpu_section "decoder.onnx")⟩).completion =
      .returned .MODEL_INIT_FAILED ∧
    SamSegmentor.is_successfully_initialized
      (SamSegmentor.init { example_loader with is_file_exist := fun _ => false }
        (SamSegmentor.init example_loader fresh_segmentor
          ⟨some (cpu_section "encoder.onnx"), some (cpu_section "decoder.onnx")⟩).state
        ⟨some (cpu_section "encoder.onnx"), some (cpu_section "decoder.onnx")⟩).state = false := by
  refine ⟨rfl, by decide, by decide, by decide, by decide, by decide, by decide⟩


/-! ## EnlightenGan: the session size chosen for an image -/

theorem EnlightenGan.run_session_size (mnn : MnnBackend) (cv : CvOps) (st : EnlightenGan)
    (input_image : Mat) (out : std_enhancement_output) :
    (EnlightenGan.run_session mnn cv st input_image out).state._m_input_size_host =
      st._m_input_size_host := by
  unfold EnlightenGan.run_session
  split
  · rfl
  · dsimp only
    split <;> rfl

/-- The session size that `run` computes for an image whose size differs from
the current one: each side is the image side rounded down to a multiple of 16,
which is positive exactly when the side is at least 16 and is 0 for the sides
10..15 that pass the validation. -/
theorem EnlightenGan.resize_for_image_rounds_down (st : EnlightenGan) (input_image : Mat)
    (hh : 10 ≤ input_image.size.height) (hw : 10 ≤ input_image.size.width) :
    (16 ∣ (EnlightenGan.resize_for_image st input_image)._m_input_size_host.height) ∧
    (16 ∣ (EnlightenGan.resize_for_image st input_image)._m_input_size_host.width) ∧
    (EnlightenGan.resize_for_image st input_image)._m_input_size_host.height ≤
      input_image.size.height ∧
    (EnlightenGan.resize_for_image st input_image)._m_input_size_host.width ≤
      input_image.size.width ∧
    (0 < (EnlightenGan.resize_for_image st input_image)._m_input_size_host.height ↔
      16 ≤ input_image.size.height) ∧
    (0 < (EnlightenGan.resize_for_image st input_image)._m_input_size_host.width ↔
      16 ≤ input_image.size.width) := by
  have hsz : (EnlightenGan.resize_for_image st input_image)._m_input_size_host =
      ⟨Int.tdiv input_image.size.width 16 * 16, Int.tdiv input_image.size.height 16 * 16⟩ := rfl
  rw [hsz]
  dsimp only
  have e1 : Int.tdiv input_image.size.height 16 = input_image.size.height / 16 :=
    Int.tdiv_eq_ediv (by omega) (by decide)
  have e2 : Int.tdiv input_image.size.width 16 = input_image.size.width / 16 :=
    Int.tdiv_eq_ediv (by omega) (by decide)
  rw [e1, e2]
  refine ⟨Dvd.intro_left _ rfl, Dvd.intro_left _ rfl, ?_, ?_, ?_, ?_⟩ <;> omega

/-- C28: the example model (session input 16 x 16) is run on a 3-channel image
of width 20 and height 12. The image passes the validation of `run` (not
empty, height >= 10, width >= 10, 3 channels) and its size differs from the
session input size, so `run` computes a new session size: the width is 16 and
the height is `ceil(12 / 16) * 16` with the quotient of two `int`s, that is 0.
The session height is not positive; both input tensors are resized to height
0, and the call is then left by the exception that `cv::resize` raises for the
empty target size. -/
theorem run_sets_zero_session_height :
    (grey_image 12 20 3).empty = false ∧
    10 ≤ (grey_image 12 20 3).size.height ∧ 10 ≤ (grey_image 12 20 3).size.width ∧
    (grey_image 12 20 3).channels = 3 ∧
    (grey_image 12 20 3).size ≠ example_enlightengan._m_input_size_host ∧
    (EnlightenGan.run example_mnn example_cv example_enlightengan ⟨grey_image 12 20 3⟩
      ⟨Mat.empty_mat⟩).state._m_input_size_host = ⟨16, 0⟩ ∧
    ¬ (0 < (EnlightenGan.run example_mnn example_cv example_enlightengan ⟨grey_image 12 20 3⟩
      ⟨Mat.empty_mat⟩).state._m_input_size_host.height) ∧
    (EnlightenGan.run example_mnn example_cv example_enlightengan ⟨grey_image 12 20 3⟩
      ⟨Mat.empty_mat⟩).state.session_log =
      [.resizeTensor .input_src [1, 3, 0, 16], .resizeTensor .input_gray [1, 1, 0, 16],
        .resizeSession] ∧
    (EnlightenGan.run example_mnn example_cv example_enlightengan ⟨grey_image 12 20 3⟩
      ⟨Mat.empty_mat⟩).completion = .thrown := by
  have hrun : EnlightenGan.run example_mnn example_cv example_enlightengan ⟨grey_image 12 20 3⟩
      ⟨Mat.empty_mat⟩ =
      EnlightenGan.run_session example_mnn example_cv
        (EnlightenGan.resize_for_image example_enlightengan (grey_image 12 20 3))
        (grey_image 12 20 3) ⟨Mat.empty_mat⟩ := by
    unfold EnlightenGan.run
    rw [if_neg (by decide), if_neg (by decide), if_neg (by decide), if_pos (by decide)]
  have hsize : (EnlightenGan.resize_for_image example_enlightengan
      (grey_image 12 20 3))._m_input_size_host = ⟨16, 0⟩ := by decide
  have hpre : EnlightenGan.preprocess_image example_cv
      (EnlightenGan.resize_for_image example_enlightengan (grey_image 12 20 3))
      (grey_image 12 20 3) = none := by
    unfold EnlightenGan.preprocess_image
    rw [hsize]
    simp [cv_cvtColor_BGR2RGB, cv_resize, grey_image, Mat.empty, Mat.size]
  have hsess : EnlightenGan.run_session example_mnn example_cv
      (EnlightenGan.resize_for_image example_enlightengan (grey_image 12 20 3))
      (grey_image 12 20 3) ⟨Mat.empty_mat⟩ =
      ⟨.thrown, EnlightenGan.resize_for_image example_enlightengan (grey_image 12 20 3),
        ⟨Mat.empty_mat⟩⟩ := by
    unfold EnlightenGan.run_session
    rw [hpre]
  rw [hrun, hsess]
  refine ⟨by decide, by decide, by decide, rfl, by decide, hsize, ?_, rfl, rfl⟩
  dsimp only
  rw [hsize]
  decide


/-! ## EnlightenGan: normalization and the output byte -/

/-- The value `output_pixel` truncates: `(x + 1) * 255 / 2` clamped to 0..255. -/
theorem EnlightenGan.output_pixel_eq (x : Val) :
    EnlightenGan.output_pixel x =
      trunc (if (x + 1) * 255 / 2 < 0 then 0
        else if (x + 1) * 255 / 2 ≥ 255 then 255 else (x + 1) * 255 / 2) := by
  unfold EnlightenGan.output_pixel
  dsimp only
  by_cases h : (x + 1) * 255 / 2 < 0
  · rw [if_pos h, if_pos h, if_neg (by norm_num)]
  · rw [if_neg h, if_neg h]

theorem EnlightenGan.output_pixel_of_le (x : Val) (h : x ≤ -1) :
    EnlightenGan.output_pixel x = 0 := by
  rw [EnlightenGan.output_pixel_eq]
  have h0 : (x + 1) * 255 / 2 ≤ 0 := by linarith
  by_cases hlt : (x + 1) * 255 / 2 < 0
  · rw [if_pos hlt]
    exact trunc_intCast 0
  · rw [if_neg hlt, if_neg (by linarith)]
    have : (x + 1) * 255 / 2 = ((0 : Int) : Val) := by
      push_cast
      exact le_antisymm h0 (not_lt.mp hlt)
    rw [this]
    exact trunc_intCast 0

theorem EnlightenGan.output_pixel_of_ge (x : Val) (h : 1 ≤ x) :
    EnlightenGan.output_pixel x = 255 := by
  rw [EnlightenGan.output_pixel_eq]
  have h0 : (255 : Val) ≤ (x + 1) * 255 / 2 := by linarith
  rw [if_neg (by linarith), if_pos h0]
  exact trunc_intCast 255

theorem EnlightenGan.output_pixel_range (x : Val) :
    0 ≤ EnlightenGan.output_pixel x ∧ EnlightenGan.output_pixel x ≤ 255 := by
  rcases le_total x (-1) with h | h
  · rw [EnlightenGan.output_pixel_of_le x h]
    exact ⟨le_refl _, by norm_num⟩
  rcases le_total 1 x with h1 | h1
  · rw [EnlightenGan.output_pixel_of_ge x h1]
    exact ⟨by norm_num, le_refl _⟩
  rw [EnlightenGan.output_pixel_eq]
  have h0 : (0 : Val) ≤ (x + 1) * 255 / 2 := by linarith
  have h255 : (x + 1) * 255 / 2 ≤ 255 := by linarith
  rw [if_neg (not_lt.mpr h0)]
  by_cases hge : (x + 1) * 255 / 2 ≥ 255
  · rw [if_pos hge]
    rw [show (255 : Val) = ((255 : Int) : Val) by norm_num, trunc_intCast]
    exact ⟨by norm_num, le_refl _⟩
  · rw [if_neg hge, trunc_of_nonneg _ h0]
    refine ⟨Int.floor_nonneg.mpr h0, ?_⟩
    have : ⌊(x + 1) * 255 / 2⌋ ≤ ⌊((255 : Int) : Val)⌋ := Int.floor_mono (by push_cast; exact h255)
    rwa [Int.floor_intCast] at this

theorem EnlightenGan.output_pixel_of_normalized (p : Int) (h0 : 0 ≤ p) (h255 : p ≤ 255) :
    EnlightenGan.output_pixel ((((p : Val) / 255) - 0.5) / 0.5) = p := by
  rw [EnlightenGan.output_pixel_eq]
  have hv : ((((p : Val) / 255) - 0.5) / 0.5 + 1) * 255 / 2 = (p : Val) := by
    norm_num
    ring
  rw [hv]
  have hp0 : (0 : Val) ≤ (p : Val) := by exact_mod_cast h0
  rw [if_neg (not_lt.mpr hp0)]
  by_cases hge : (p : Val) ≥ 255
  · rw [if_pos hge]
    have hp : p = 255 := by
      have : (255 : Int) ≤ p := by exact_mod_cast hge
      omega
    rw [hp]
    exact trunc_intCast 255
  · rw [if_neg hge]
    exact trunc_intCast p

/-- What `preprocess_image` hands to the network: each value of `output_src` is
the value v of the image before normalization (the converted image, or the
resized input) mapped to ((v / 255) - 0.5) / 0.5. -/
theorem EnlightenGan.preprocess_image_normalizes (cv : CvOps) (st : EnlightenGan)
    (input_image output_src output_gray : Mat)
    (h : EnlightenGan.preprocess_image cv st input_image = some (output_src, output_gray)) :
    ∃ before : Mat,
      (input_image.size = st._m_input_size_host →
        ∀ row col ch, before.px row col ch = input_image.px row col (2 - ch)) ∧
      (input_image.size ≠ st._m_input_size_host →
        cv_resize cv.inter_linear input_image st._m_input_size_host = some before) ∧
      ∀ row col ch : Int, 0 ≤ ch → ch ≤ 2 →
        output_src.px row col ch = (((before.px row col ch) / 255) - 0.5) / 0.5 := by
  unfold EnlightenGan.preprocess_image at h
  split at h
  · cases h
  rename_i converted hconv
  split at h
  · cases h
  rename_i before hbefore
  dsimp only at h
  cases h
  refine ⟨before, ?_, ?_, ?_⟩
  · intro hs
    rw [if_neg (not_not.mpr hs)] at hbefore
    cases hbefore
    intro row col ch
    by_cases h4 : input_image.channels = 4
    · rw [if_pos h4] at hconv
      unfold cv_cvtColor_BGRA2RGB at hconv
      split at hconv
      · cases hconv
      · cases hconv
        rfl
    · rw [if_neg h4] at hconv
      unfold cv_cvtColor_BGR2RGB at hconv
      split at hconv
      · cases hconv
      · cases hconv
        rfl
  · intro hs
    rw [if_pos hs] at hbefore
    exact hbefore
  · intro row col ch hc0 hc2
    have hs : scalar3 0.5 0.5 0.5 ch = 0.5 := by
      unfold scalar3
      split
      · rfl
      · split
        · rfl
        · rw [if_pos (by omega)]
    simp only [cv_divide, cv_subtract, hs]

/-- C29: in exact arithmetic, the output mapping of `EnlightenGan::run` inverts
the normalization of `preprocess_image`. For every integer pixel value p in
0..255, the normalized value ((p / 255) - 0.5) / 0.5 is mapped back to the
byte p; for every x the output byte is in 0..255, is 0 for x <= -1 and 255 for
x >= 1. The normalization is the one `preprocess_image` performs: each value
of its three channels of `output_src` is ((v / 255) - 0.5) / 0.5 for the value
v of the image before normalization, so the byte computed from it is v
whenever v is an integer in 0..255. -/
theorem output_pixel_inverts_normalization (cv : CvOps) (st : EnlightenGan) :
    (∀ p : Int, 0 ≤ p → p ≤ 255 →
      EnlightenGan.output_pixel ((((p : Val) / 255) - 0.5) / 0.5) = p) ∧
    (∀ x : Val, 0 ≤ EnlightenGan.output_pixel x ∧ EnlightenGan.output_pixel x ≤ 255) ∧
    (∀ x : Val, x ≤ -1 → EnlightenGan.output_pixel x = 0) ∧
    (∀ x : Val, 1 ≤ x → EnlightenGan.output_pixel x = 255) ∧
    (∀ input_image output_src output_gray : Mat,
      EnlightenGan.preprocess_image cv st input_image = some (output_src, output_gray) →
      ∃ before : Mat,
        (input_image.size = st._m_input_size_host →
          ∀ row col ch, before.px row col ch = input_image.px row col (2 - ch)) ∧
        (input_image.size ≠ st._m_input_size_host →
          cv_resize cv.inter_linear input_image st._m_input_size_host = some before) ∧
        ∀ row col ch : Int, 0 ≤ ch → ch ≤ 2 →
          output_src.px row col ch = (((before.px row col ch) / 255) - 0.5) / 0.5 ∧
          ∀ p : Int, 0 ≤ p → p ≤ 255 → before.px row col ch = (p : Val) →
            EnlightenGan.output_pixel (output_src.px row col ch) = p) := by
  refine ⟨EnlightenGan.output_pixel_of_normalized, EnlightenGan.output_pixel_range,
    EnlightenGan.output_pixel_of_le, EnlightenGan.output_pixel_of_ge, ?_⟩
  intro input_image output_src output_gray h
  obtain ⟨before, h1, h2, h3⟩ :=
    EnlightenGan.preprocess_image_normalizes cv st input_image output_src output_gray h
  refine ⟨before, h1, h2, ?_⟩
  intro row col ch hc0 hc2
  refine ⟨h3 row col ch hc0 hc2, ?_⟩
  intro p hp0 hp255 hpx
  rw [h3 row col ch hc0 hc2, hpx]
  exact EnlightenGan.output_pixel_of_normalized p hp0 hp255

/-- C29, at the pixel values 0, 200 and 255, at the network outputs -3, 1/3 and
2, and on the 16 x 16 grey image (every value 128) of the example model. -/
theorem output_pixel_inverts_normalization_witness :
    EnlightenGan.output_pixel ((((0 : Int) : Val) / 255 - 0.5) / 0.5) = 0 ∧
    EnlightenGan.output_pixel ((((200 : Int) : Val) / 255 - 0.5) / 0.5) = 200 ∧
    EnlightenGan.output_pixel ((((255 : Int) : Val) / 255 - 0.5) / 0.5) = 255 ∧
    EnlightenGan.output_pixel (-3) = 0 ∧
    (0 ≤ EnlightenGan.output_pixel (1 / 3) ∧ EnlightenGan.output_pixel (1 / 3) ≤ 255) ∧
    EnlightenGan.output_pixel 2 = 255 ∧
    ∃ output_src output_gray : Mat,
      EnlightenGan.preprocess_image example_cv example_enlightengan (grey_image 16 16 3) =
        some (output_src, output_gray) ∧
      EnlightenGan.output_pixel (output_src.px 0 0 0) = 128 :=
  have h := output_pixel_inverts_normalization example_cv example_enlightengan
  ⟨h.1 0 (by decide) (by decide), h.1 200 (by decide) (by decide),
    h.1 255 (by decide) (by decide), h.2.2.1 (-3) (by norm_num), h.2.1 (1 / 3),
    h.2.2.2.1 2 (by norm_num), by
      obtain ⟨p, hp⟩ := preprocess_image_of_same_size example_cv example_enlightengan
        (grey_image 16 16 3) rfl (Or.inl rfl) rfl
      obtain ⟨before, h1, -, h3⟩ := h.2.2.2.2 (grey_image 16 16 3) p.1 p.2 hp
      exact ⟨p.1, p.2, hp, (h3 0 0 0 (by decide) (by decide)).2 128 (by decide) (by decide)
        (by rw [h1 rfl 0 0 0]; simp [grey_image])⟩⟩


/-! ## The resized target extent stays inside the encoder input -/

/-- In exact arithmetic a side s scaled by E / L is at least 1 when L <= E * s. -/
theorem scaled_side_pos (E L s : Int) (hL : 1 ≤ L) (hs : L ≤ E * s) :
    1 ≤ trunc ((E : Val) / (L : Val) * (s : Val)) := by
  have hLpos : (0 : Val) < (L : Val) := by exact_mod_cast (by omega : (0 : Int) < L)
  have hs' : (L : Val) ≤ (E : Val) * (s : Val) := by exact_mod_cast hs
  have h1 : (1 : Val) ≤ (E : Val) / (L : Val) * (s : Val) := by
    rw [div_mul_eq_mul_div, le_div_iff₀ hLpos, one_mul]
    exact hs'
  rw [trunc_of_nonneg _ (le_trans zero_le_one h1)]
  exact Int.le_floor.mpr (by push_cast; exact h1)

/-- C30 (amended): in exact arithmetic, for an image of width w and height h,
both >= 1, whose longer side is at most E times its shorter side, the target
extent that the computation of `SamSegmentor::preprocess_image` gives for an
E x E encoder is (trunc(scale * w), trunc(scale * h)) with scale =
E / max(h, w), and both of its dimensions are >= 1 and <= E; the extent that
the computation of `SamTrtDecoder::decode_output_mask` gives for the same two
sizes is the same one, within the same bounds. -/
theorem target_size_within_encoder_input (seg : SamSegmentor) (st : SamTrtDecoder)
    (w h E : Int) (hw : 1 ≤ w) (hh : 1 ≤ h) (hratio : max h w ≤ E * min h w)
    (hs2 : seg._m_encoder_input_shape.getD 2 0 = E)
    (hori : st._m_ori_image_size = ⟨w, h⟩) (henc : st._m_encoder_input_size = ⟨E, E⟩) :
    (SamSegmentor.pad_geometry seg ⟨w, h⟩).target_size =
      ⟨trunc ((E : Val) / ((max h w : Int) : Val) * (w : Val)),
        trunc ((E : Val) / ((max h w : Int) : Val) * (h : Val))⟩ ∧
    1 ≤ (SamSegmentor.pad_geometry seg ⟨w, h⟩).target_size.width ∧
    (SamSegmentor.pad_geometry seg ⟨w, h⟩).target_size.width ≤ E ∧
    1 ≤ (SamSegmentor.pad_geometry seg ⟨w, h⟩).target_size.height ∧
    (SamSegmentor.pad_geometry seg ⟨w, h⟩).target_size.height ≤ E ∧
    (SamTrtDecoder.crop_geometry st).target_size =
      (SamSegmentor.pad_geometry seg ⟨w, h⟩).target_size ∧
    1 ≤ (SamTrtDecoder.crop_geometry st).target_size.width ∧
    (SamTrtDecoder.crop_geometry st).target_size.width ≤ E ∧
    1 ≤ (SamTrtDecoder.crop_geometry st).target_size.height ∧
    (SamTrtDecoder.crop_geometry st).target_size.height ≤ E := by
  have hL : 1 ≤ max h w := le_trans hh (le_max_left h w)
  have hmin : 1 ≤ min h w := le_min hh hw
  have hE : 0 ≤ E := by
    by_contra hneg
    have hlt : E * min h w < 0 := mul_neg_of_neg_of_pos (by omega) (by omega)
    omega
  have hrw : max h w ≤ E * w :=
    le_trans hratio (mul_le_mul_of_nonneg_left (min_le_right h w) hE)
  have hrh : max h w ≤ E * h :=
    le_trans hratio (mul_le_mul_of_nonneg_left (min_le_left h w) hE)
  have hbw := scaled_side_bounds E (max h w) w hE hL (by omega) (le_max_right h w)
  have hbh := scaled_side_bounds E (max h w) h hE hL (by omega) (le_max_left h w)
  have hpw := scaled_side_pos E (max h w) w hL hrw
  have hph := scaled_side_pos E (max h w) h hL hrh
  have hpad : (SamSegmentor.pad_geometry seg ⟨w, h⟩).target_size =
      ⟨trunc ((E : Val) / ((max h w : Int) : Val) * (w : Val)),
        trunc ((E : Val) / ((max h w : Int) : Val) * (h : Val))⟩ := by
    simp only [SamSegmentor.pad_geometry, hs2]
  have hcrop : (SamTrtDecoder.crop_geometry st).target_size =
      ⟨trunc ((E : Val) / ((max h w : Int) : Val) * (w : Val)),
        trunc ((E : Val) / ((max h w : Int) : Val) * (h : Val))⟩ := by
    simp only [SamTrtDecoder.crop_geometry, hori, henc]
  rw [hcrop, hpad]
  exact ⟨rfl, hpw, hbw.2, hph, hbh.2, rfl, hpw, hbw.2, hph, hbh.2⟩

/-- C30 (amended), for a 200 x 100 image and a 1024 x 1024 encoder: the target
extent is 1024 x 512. -/
theorem target_size_within_encoder_input_witness :
    (SamSegmentor.pad_geometry example_segmentor ⟨200, 100⟩).target_size =
      ⟨trunc (((1024 : Int) : Val) / ((max 100 200 : Int) : Val) * ((200 : Int) : Val)),
        trunc (((1024 : Int) : Val) / ((max 100 200 : Int) : Val) * ((100 : Int) : Val))⟩ ∧
    1 ≤ (SamSegmentor.pad_geometry example_segmentor ⟨200, 100⟩).target_size.width ∧
    (SamSegmentor.pad_geometry example_segmentor ⟨200, 100⟩).target_size.width ≤ 1024 ∧
    1 ≤ (SamSegmentor.pad_geometry example_segmentor ⟨200, 100⟩).target_size.height ∧
    (SamSegmentor.pad_geometry example_segmentor ⟨200, 100⟩).target_size.height ≤ 1024 ∧
    (SamTrtDecoder.crop_geometry { example_decoder with _m_ori_image_size := ⟨200, 100⟩ }).target_size =
      (SamSegmentor.pad_geometry example_segmentor ⟨200, 100⟩).target_size ∧
    1 ≤ (SamTrtDecoder.crop_geometry
      { example_decoder with _m_ori_image_size := ⟨200, 100⟩ }).target_size.width ∧
    (SamTrtDecoder.crop_geometry
      { example_decoder with _m_ori_image_size := ⟨200, 100⟩ }).target_size.width ≤ 1024 ∧
    1 ≤ (SamTrtDecoder.crop_geometry
      { example_decoder with _m_ori_image_size := ⟨200, 100⟩ }).target_size.height ∧
    (SamTrtDecoder.crop_geometry
      { example_decoder with _m_ori_image_size := ⟨200, 100⟩ }).target_size.height ≤ 1024 :=
  target_size_within_encoder_input example_segmentor
    { example_decoder with _m_ori_image_size := ⟨200, 100⟩ } 200 100 1024 (by decide) (by decide)
    (by decide) rfl rfl rfl


/-! ## Rounding to binary32 -/

theorem round_half_even_eq (q : Val) (n : Int) (h : |q - (n : Val)| < 1 / 2) :
    round_half_even q = n := by
  rw [abs_lt] at h
  obtain ⟨h1, h2⟩ := h
  unfold round_half_even
  rcases le_or_lt (n : Val) q with hge | hlt
  · have hf : ⌊q⌋ = n := Int.floor_eq_iff.mpr ⟨hge, by linarith⟩
    rw [hf, if_pos (by linarith)]
  · have hf : ⌊q⌋ = n - 1 := Int.floor_eq_iff.mpr ⟨by push_cast; linarith, by push_cast; linarith⟩
    rw [hf, if_neg (by push_cast; linarith), if_pos (by push_cast; linarith)]
    omega

/-- The float nearest to a positive value in the binade of exponent `e`: the
multiple `n` of the spacing that is less than half a spacing away. -/
theorem float32_of_pos (x : Val) (e n : Int) (he : -126 ≤ e) (hlo : (2 : Val) ^ e ≤ x)
    (hhi : x < (2 : Val) ^ (e + 1)) (hn : |x / (2 : Val) ^ (e - 23) - (n : Val)| < 1 / 2) :
    float32 x = (n : Val) * (2 : Val) ^ (e - 23) := by
  have hpos : 0 < x := lt_of_lt_of_le (zpow_pos (by norm_num) e) hlo
  have hlog : Int.log 2 |x| = e := by
    rw [abs_of_pos hpos]
    apply le_antisymm
    · have := (Int.lt_zpow_iff_log_lt (b := 2) (by norm_num) hpos (x := e + 1)).mp
        (by simpa using hhi)
      omega
    · exact (Int.zpow_le_iff_le_log (b := 2) (by norm_num) hpos).mp (by simpa using hlo)
  unfold float32
  rw [if_neg (ne_of_gt hpos)]
  dsimp only
  rw [hlog, max_eq_left he, round_half_even_eq _ n hn]

/-- An integer of magnitude below 2^24 that lies in the binade of exponent `e`
is a float. -/
theorem float32_intCast (z e : Int) (he0 : 0 ≤ e) (he : e ≤ 23) (hlo : (2 : Val) ^ e ≤ (z : Val))
    (hhi : (z : Val) < (2 : Val) ^ (e + 1)) : float32 (z : Val) = (z : Val) := by
  have hq : (2 : Val) ^ (e - 23) ≠ 0 := zpow_ne_zero _ (by norm_num)
  have hn : (z : Val) / (2 : Val) ^ (e - 23) = ((z * 2 ^ (23 - e).toNat : Int) : Val) := by
    rw [div_eq_iff hq]
    push_cast
    rw [mul_assoc, ← zpow_natCast, ← zpow_add₀ (by norm_num : (2 : Val) ≠ 0)]
    have : ((23 - e).toNat : Int) + (e - 23) = 0 := by omega
    rw [this, zpow_zero, mul_one]
  rw [float32_of_pos (z : Val) e (z * 2 ^ (23 - e).toNat) (by omega) hlo hhi
    (by rw [hn]; simp)]
  rw [← hn, div_mul_cancel₀ _ hq]


/-! ## The target extent in binary32 -/

theorem trunc_eq_floor_of (q : Val) (z : Int) (h0 : (z : Val) ≤ q) (h1 : q < (z : Val) + 1)
    (hz : 0 ≤ z) : trunc q = z := by
  have hq : 0 ≤ q := le_trans (by exact_mod_cast hz) h0
  rw [trunc_of_nonneg q hq]
  exact Int.floor_eq_iff.mpr ⟨h0, h1⟩

/-- The binary32 values behind the target extent of a 41 x 41984 image for a
1024 x 1024 encoder: the scale 1024 / 41984 is rounded down, its product with
41 is rounded to the float below 1 and its product with 41984 to the float
below 1024. -/
theorem float32_scale_41_41984 :
    float32 ((1024 : Int) : Val) = 1024 ∧ float32 ((41984 : Int) : Val) = 41984 ∧
    float32 ((41 : Int) : Val) = 41 ∧
    float32 ((1024 : Val) / 41984) = 3273603 / 134217728 ∧
    float32 ((3273603 : Val) / 134217728 * 41) = 16777215 / 16777216 ∧
    float32 ((3273603 : Val) / 134217728 * 41984) = 16777215 / 16384 := by
  refine ⟨?_, ?_, ?_, ?_, ?_, ?_⟩
  · have := float32_intCast 1024 10 (by norm_num) (by norm_num) (by norm_num) (by norm_num)
    simpa using this
  · have := float32_intCast 41984 15 (by norm_num) (by norm_num) (by norm_num) (by norm_num)
    simpa using this
  · have := float32_intCast 41 5 (by norm_num) (by norm_num) (by norm_num) (by norm_num)
    simpa using this
  · rw [float32_of_pos _ (-6) 13094412 (by norm_num) (by norm_num) (by norm_num)
      (by rw [abs_lt]; constructor <;> norm_num)]
    norm_num
  · rw [float32_of_pos _ (-1) 16777215 (by norm_num) (by norm_num) (by norm_num)
      (by rw [abs_lt]; constructor <;> norm_num)]
    norm_num
  · rw [float32_of_pos _ 9 16777215 (by norm_num) (by norm_num) (by norm_num)
      (by rw [abs_lt]; constructor <;> norm_num)]
    norm_num

/-- C30 as stated fails in the arithmetic of the code: for the image of width
41 and height 41984, whose longer side is 1024 times its shorter side, and the
1024 x 1024 encoder, the target extent computed in binary32 by
`preprocess_image`, and by `decode_output_mask`, is 0 x 1023: the width is not
>= 1. -/
theorem target_width_rounds_to_zero_counterexample :
    (1 : Int) ≤ 41 ∧ (1 : Int) ≤ 41984 ∧ max (41984 : Int) 41 ≤ 1024 * min (41984 : Int) 41 ∧
    example_segmentor._m_encoder_input_shape.getD 2 0 = 1024 ∧
    (∃ g : SamSegmentor.PadGeometry,
      SamSegmentor.pad_geometry_f32 example_segmentor ⟨41, 41984⟩ = some g ∧
      g.target_size = ⟨0, 1023⟩ ∧ ¬ (1 ≤ g.target_size.width)) ∧
    (∃ c : SamTrtDecoder.CropGeometry,
      SamTrtDecoder.crop_geometry_f32
        { example_decoder with _m_ori_image_size := ⟨41, 41984⟩ } = some c ∧
      c.target_size = ⟨0, 1023⟩ ∧ ¬ (1 ≤ c.target_size.width)) := by
  obtain ⟨hE, hL, hw, hs, hpw, hph⟩ := float32_scale_41_41984
  have tw : trunc ((16777215 : Val) / 16777216) = 0 :=
    trunc_eq_floor_of _ 0 (by norm_num) (by norm_num) (by norm_num)
  have th : trunc ((16777215 : Val) / 16384) = 1023 :=
    trunc_eq_floor_of _ 1023 (by norm_num) (by norm_num) (by norm_num)
  have hnode : static_cast_int (example_segmentor._m_encoder_input_shape.getD 2 0) = 1024 := by
    decide
  have hmax : max (41984 : Int) 41 = 41984 := by decide
  have hnode3 : static_cast_int (example_segmentor._m_encoder_input_shape.getD 3 0) = 1024 := by
    decide
  have hg : SamSegmentor.pad_geometry_f32 example_segmentor ⟨41, 41984⟩ =
      some ⟨3273603 / 134217728, ⟨0, 1023⟩, 1, 1024⟩ := by
    unfold SamSegmentor.pad_geometry_f32
    dsimp only
    rw [hmax, if_neg (by decide), hnode, hnode3, hE, hL, hw, hs, hpw, hph, tw, th]
    rfl
  have hc : SamTrtDecoder.crop_geometry_f32
      { example_decoder with _m_ori_image_size := ⟨41, 41984⟩ } =
      some ⟨3273603 / 134217728, ⟨0, 1023⟩, 1, 1024, ⟨0, 0, 0, 1023⟩⟩ := by
    unfold SamTrtDecoder.crop_geometry_f32
    dsimp only [example_decoder]
    rw [hmax, if_neg (by decide), hE, hL, hw, hs, hpw, hph, tw, th]
    rfl
  exact ⟨by decide, by decide, by decide, rfl, ⟨_, hg, rfl, by decide⟩, ⟨_, hc, rfl, by decide⟩⟩


/-! ## The scaled box prompts in binary32 -/

/-- The binary32 values behind the box (999, 999, 1, 1) of a 1000 x 1000 image
scaled for a 1024 x 1024 encoder: the scale 1024 / 1000 is rounded up. -/
theorem float32_scale_1000 :
    float32 ((1000 : Int) : Val) = 1000 ∧ float32 ((1024 : Int) : Val) = 1024 ∧
    float32 ((999 : Int) : Val) = 999 ∧ float32 ((1 : Int) : Val) = 1 ∧
    float32 ((1024 : Val) / 1000) = 8589935 / 8388608 ∧
    float32 ((999 : Val) * (8589935 / 8388608)) = 2095055 / 2048 ∧
    float32 ((1 : Val) * (8589935 / 8388608)) = 8589935 / 8388608 ∧
    float32 ((2095055 : Val) / 2048 + 8589935 / 8388608) = 8388609 / 8192 := by
  refine ⟨?_, ?_, ?_, ?_, ?_, ?_, ?_, ?_⟩
  · have := float32_intCast 1000 9 (by norm_num) (by norm_num) (by norm_num) (by norm_num)
    simpa using this
  · have := float32_intCast 1024 10 (by norm_num) (by norm_num) (by norm_num) (by norm_num)
    simpa using this
  · have := float32_intCast 999 9 (by norm_num) (by norm_num) (by norm_num) (by norm_num)
    simpa using this
  · have := float32_intCast 1 0 (by norm_num) (by norm_num) (by norm_num) (by norm_num)
    simpa using this
  · rw [float32_of_pos _ 0 8589935 (by norm_num) (by norm_num) (by norm_num)
      (by rw [abs_lt]; constructor <;> norm_num)]
    norm_num
  · rw [float32_of_pos _ 9 16760440 (by norm_num) (by norm_num) (by norm_num)
      (by rw [abs_lt]; constructor <;> norm_num)]
    norm_num
  · rw [float32_of_pos _ 0 8589935 (by norm_num) (by norm_num) (by norm_num)
      (by rw [abs_lt]; constructor <;> norm_num)]
    norm_num
  · rw [float32_of_pos _ 10 8388609 (by norm_num) (by norm_num) (by norm_num)
      (by rw [abs_lt]; constructor <;> norm_num)]
    norm_num

/-- C26 as stated fails in the arithmetic of the code: for the 1000 x 1000 image,
the 1024 x 1024 encoder and the box (999, 999, 1, 1), which lies inside the
image, `transform_bboxes` computes in binary32 the scale 1.02400005 (not
1024 / 1000), x = y = 1022.97607 (not 999 times 1024 / 1000) and width =
height = 1.02400005, so that x + width, exactly and as the float sum that
`br()` computes, is greater than 1024: the box does not lie inside
[0, 1024] x [0, 1024]. -/
theorem scaled_box_leaves_encoder_square_counterexample :
    ((0 : Int) ≤ 999 ∧ (999 : Int) + 1 ≤ 1000) ∧
    SamSegmentor.transform_bboxes_f32
        { example_segmentor with _m_ori_image_size := ⟨1000, 1000⟩ } [⟨999, 999, 1, 1⟩] =
      some [⟨2095055 / 2048, 2095055 / 2048, 8589935 / 8388608, 8589935 / 8388608⟩] ∧
    (2095055 : Val) / 2048 ≠ 999 * (1024 / 1000) ∧
    ¬ ((2095055 : Val) / 2048 + 8589935 / 8388608 ≤ 1024) ∧
    float32 ((2095055 : Val) / 2048 + 8589935 / 8388608) = 8388609 / 8192 ∧
    ¬ ((8388609 : Val) / 8192 ≤ 1024) := by
  obtain ⟨h1000, h1024, h999, h1, hs, hx, hwd, hsum⟩ := float32_scale_1000
  have hshape : (({ example_segmentor with _m_ori_image_size := ⟨1000, 1000⟩ } :
      SamSegmentor)._m_encoder_input_shape.getD 2 0 : Int) = 1024 := by decide
  have ht : SamSegmentor.transform_bboxes_f32
      { example_segmentor with _m_ori_image_size := ⟨1000, 1000⟩ } [⟨999, 999, 1, 1⟩] =
      some [⟨2095055 / 2048, 2095055 / 2048, 8589935 / 8388608, 8589935 / 8388608⟩] := by
    unfold SamSegmentor.transform_bboxes_f32
    dsimp only
    rw [hshape, h1000, h1024, max_self, if_neg (by norm_num), hs]
    simp only [List.map_cons, List.map_nil]
    rw [h999, h1, hx, hwd]
  exact ⟨by decide, ht, by norm_num, by norm_num, hsum, by norm_num⟩


/-! ## The two geometries agree in binary32 as well -/

/-- Rounded as the code rounds them, the geometry of `decode_output_mask` and
that of `preprocess_image` are the same for the same image extent and a square
encoder input E x E within the range of `int`: both are undefined for an image
without extent, and otherwise they have the same scale, target extent and
paddings. -/
theorem crop_geometry_f32_eq_pad_geometry_f32 (st : SamTrtDecoder) (seg : SamSegmentor)
    (w h E : Int) (hE : -2 ^ 31 ≤ E ∧ E < 2 ^ 31)
    (hori : st._m_ori_image_size = ⟨w, h⟩) (henc : st._m_encoder_input_size = ⟨E, E⟩)
    (hs2 : seg._m_encoder_input_shape.getD 2 0 = E)
    (hs3 : seg._m_encoder_input_shape.getD 3 0 = E) :
    (SamTrtDecoder.crop_geometry_f32 st).map
        (fun c => (c.scale, c.target_size, c.pad_h, c.pad_w)) =
      (SamSegmentor.pad_geometry_f32 seg ⟨w, h⟩).map
        (fun g => (g.scale, g.target_size, g.pad_h, g.pad_w)) := by
  unfold SamTrtDecoder.crop_geometry_f32 SamSegmentor.pad_geometry_f32
  dsimp only
  rw [hori, henc, hs2, hs3, static_cast_int_of_int E hE]
  dsimp only
  split <;> rfl


/-- A square image whose side does not divide the encoder edge evenly: for the
41 x 41 image and the 1024 x 1024 encoder the extent that `preprocess_image`
computes in binary32 is 1023 x 1023 with one row and one column of padding,
where exact arithmetic gives 1024 x 1024; for the 3024 x 3024 image the
rectangle that `decode_output_mask` crops is (0, 0, 1023, 1023). -/
theorem square_image_geometry_f32 :
    SamSegmentor.pad_geometry_f32 example_segmentor ⟨41, 41⟩ =
      some ⟨3273603 / 131072, ⟨1023, 1023⟩, 1, 1⟩ ∧
    (SamSegmentor.pad_geometry example_segmentor ⟨41, 41⟩).target_size = ⟨1024, 1024⟩ ∧
    SamTrtDecoder.crop_geometry_f32 { example_decoder with _m_ori_image_size := ⟨3024, 3024⟩ } =
      some ⟨11362347 / 33554432, ⟨1023, 1023⟩, 1, 1, ⟨0, 0, 1023, 1023⟩⟩ := by
  have hE : float32 ((1024 : Int) : Val) = 1024 := by
    have := float32_intCast 1024 10 (by norm_num) (by norm_num) (by norm_num) (by norm_num)
    simpa using this
  have h41 : float32 ((41 : Int) : Val) = 41 := by
    have := float32_intCast 41 5 (by norm_num) (by norm_num) (by norm_num) (by norm_num)
    simpa using this
  have h3024 : float32 ((3024 : Int) : Val) = 3024 := by
    have := float32_intCast 3024 11 (by norm_num) (by norm_num) (by norm_num) (by norm_num)
    simpa using this
  have hs41 : float32 ((1024 : Val) / 41) = 3273603 / 131072 := by
    rw [float32_of_pos _ 4 13094412 (by norm_num) (by norm_num) (by norm_num)
      (by rw [abs_lt]; constructor <;> norm_num)]
    norm_num
  have hp41 : float32 ((3273603 : Val) / 131072 * 41) = 16777215 / 16384 := by
    rw [float32_of_pos _ 9 16777215 (by norm_num) (by norm_num) (by norm_num)
      (by rw [abs_lt]; constructor <;> norm_num)]
    norm_num
  have hs3024 : float32 ((1024 : Val) / 3024) = 11362347 / 33554432 := by
    rw [float32_of_pos _ (-2) 11362347 (by norm_num) (by norm_num) (by norm_num)
      (by rw [abs_lt]; constructor <;> norm_num)]
    norm_num
  have hp3024 : float32 ((11362347 : Val) / 33554432 * 3024) = 16777215 / 16384 := by
    rw [float32_of_pos _ 9 16777215 (by norm_num) (by norm_num) (by norm_num)
      (by rw [abs_lt]; constructor <;> norm_num)]
    norm_num
  have th : trunc ((16777215 : Val) / 16384) = 1023 :=
    trunc_eq_floor_of _ 1023 (by norm_num) (by norm_num) (by norm_num)
  have hnode : static_cast_int (example_segmentor._m_encoder_input_shape.getD 2 0) = 1024 := by
    decide
  have hnode3 : static_cast_int (example_segmentor._m_encoder_input_shape.getD 3 0) = 1024 := by
    decide
  refine ⟨?_, ?_, ?_⟩
  · unfold SamSegmentor.pad_geometry_f32
    dsimp only
    rw [max_self, if_neg (by decide), hnode, hnode3, hE, h41, hs41, hp41, th]
    rfl
  · have hlong : ((1024 : Int) : Val) / (((41 : Int) : Int) : Val) * ((41 : Int) : Val) =
        ((1024 : Int) : Val) := by norm_num
    have hshape : example_segmentor._m_encoder_input_shape.getD 2 0 = 1024 := rfl
    simp only [SamSegmentor.pad_geometry, hshape, max_self, hlong, trunc_intCast]
  · unfold SamTrtDecoder.crop_geometry_f32
    dsimp only [example_decoder]
    rw [max_self, if_neg (by decide), hE, h3024, hs3024, hp3024, th]
    rfl

end jinq
